import Mathlib

/-!
# Mooltipass Mini BLE: credential access logic (`logic_user.c`)

Shallow embedding of the request handlers, of the manual login selection and
of the security flag setters of `source_code/main_mcu/src/LOGIC/logic_user.c`,
of the state-changed flag of `source_code/main_mcu/src/LOGIC/logic_device.c`,
and of the address and flags codec and the field constants of
`source_code/main_mcu/src/NODEMGMT/nodemgmt.h`.

* A C string (`cust_char_t*`) handed to a handler is the list of its code
  units before the terminating zero; a pointer that may be `0` is an `Option`.
* A buffer of `cust_char_t` (a node field, a local array) is the list of its
  code units; the casts to `uint8_t*` are not modelled, the encryption
  functions being collaborators that act on the buffer.
* Machine integers are `Nat`/`Int`, reduced modulo `2^16` where the source
  computes in `uint16_t`.
* The collaborators that are not part of `logic_user.c` (database, GUI,
  encryption, timer, random generator, transport) are the fields of `Env`.
  Every call to one of them is appended to a trace of `Event`s, so that "no
  call to X was made" is a statement about the trace of a run.
-/

namespace Minible

/-! ## Constants of `nodemgmt.h` -/

def NODE_ADDR_NULL : Nat := 0x0000
def NODEMGMT_OLD_GEN_ASCII_PWD_LENGTH : Nat := 32
def NODEMGMT_PREVGEN_BIT_BITMASK : Nat := 0x0010
def USER_SEC_FLG_LOGIN_CONF : Nat := 0x01
def USER_SEC_FLG_PIN_FOR_MMM : Nat := 0x02
def USER_SEC_FLG_CRED_SAVE_PROMPT_MMM : Nat := 0x04
def USER_SEC_FLG_ADVANCED_MENU : Nat := 0x08

/-- `MEMBER_ARRAY_SIZE(parent_cred_node_t, service)`: `cust_char_t service[126]`. -/
def PARENT_SERVICE_ARRAY_SIZE : Nat := 126
/-- `MEMBER_ARRAY_SIZE(child_cred_node_t, login)`: `cust_char_t login[64]`. -/
def CHILD_LOGIN_ARRAY_SIZE : Nat := 64
/-- `MEMBER_SIZE(child_cred_node_t, password)`: `uint8_t password[128]`. -/
def CHILD_PASSWORD_SIZE : Nat := 128
/-- `sizeof(cust_char_t)`: the node fields are Unicode BMP code units. -/
def SIZEOF_CUST_CHAR : Nat := 2
/-- `MEMBER_SIZE(child_webauthn_node_t, private_key)`: the doc comments of
`logic_user.c` give the private key as 32 bytes. -/
def WEBAUTHN_PRIVATE_KEY_SIZE : Nat := 32

/-! ## Address and flags codec (`nodemgmt.h`, lines 39-70 and 263-316) -/

def NODEMGMT_ADDR_PAGE_BITSHIFT : Nat := 1
def NODEMGMT_ADDR_PAGE_MASK_FINAL : Nat := 0x7fff
def NODEMGMT_ADDR_NODE_MASK : Nat := 0x0001
def NODEMGMT_USERID_MASK : Nat := 0x1FC0
def NODEMGMT_USERID_BITSHIFT : Nat := 6
def NODEMGMT_USERID_MASK_FINAL : Nat := 0x007f
def NODEMGMT_CAT_MASK_FINAL : Nat := 0x000F
def NODEMGMT_CAT_MASK : Nat := 0x000F
def NODEMGMT_CAT_BITSHIFT : Nat := 0
def BASE_NODE_SIZE : Nat := 264

/-- The complement `~mask` of a 16-bit mask, as far as a `uint16_t` sees it. -/
def not16 (mask : Nat) : Nat := 0xFFFF ^^^ mask

/-- `*flags = (*flags & (~NODEMGMT_USERID_MASK)) | ((uint16_t)uid << NODEMGMT_USERID_BITSHIFT)`
with `flags` a `uint16_t` and `uid` a `uint8_t`; the result is the new `*flags`. -/
def nodemgmt_user_id_to_flags (flags uid : Nat) : Nat :=
  (((flags % 65536) &&& not16 NODEMGMT_USERID_MASK) |||
    ((uid % 256) <<< NODEMGMT_USERID_BITSHIFT)) % 65536

/-- `*flags = (*flags & (~NODEMGMT_CAT_MASK)) | (cat_flag << NODEMGMT_CAT_BITSHIFT)`
with both arguments `uint16_t`; the result is the new `*flags`. -/
def nodemgmt_categoryflags_to_flags (flags cat_flag : Nat) : Nat :=
  (((flags % 65536) &&& not16 NODEMGMT_CAT_MASK) |||
    ((cat_flag % 65536) <<< NODEMGMT_CAT_BITSHIFT)) % 65536

/-- `return ((flags >> NODEMGMT_CAT_BITSHIFT) & NODEMGMT_CAT_MASK_FINAL)`. -/
def categoryFromFlags (flags : Nat) : Nat :=
  ((flags % 65536) >>> NODEMGMT_CAT_BITSHIFT) &&& NODEMGMT_CAT_MASK_FINAL

/-- `return (addr >> NODEMGMT_ADDR_PAGE_BITSHIFT) & NODEMGMT_ADDR_PAGE_MASK_FINAL`. -/
def nodemgmt_page_from_address (addr : Nat) : Nat :=
  ((addr % 65536) >>> NODEMGMT_ADDR_PAGE_BITSHIFT) &&& NODEMGMT_ADDR_PAGE_MASK_FINAL

/-- The node number within a page.  `BYTES_PER_PAGE` is a constant of the flash
driver header, which is not among the sources, and is a parameter here: the
source returns 0 when it equals `BASE_NODE_SIZE`, and
`addr & NODEMGMT_ADDR_NODE_MASK` otherwise. -/
def nodemgmt_node_from_address (BYTES_PER_PAGE : Nat) (addr : Nat) : Nat :=
  if BYTES_PER_PAGE = BASE_NODE_SIZE then 0 else (addr % 65536) &&& NODEMGMT_ADDR_NODE_MASK

/-! ## Valid bit and date fields (`nodemgmt.h`, lines 45-57 and 66-67) -/

def NODEMGMT_VALID_BIT_BITSHIFT : Nat := 13
def NODEMGMT_VALID_BIT_BITMASK : Nat := 0x2000
def NODEMGMT_VALID_BIT_MASK_FINAL : Nat := 0x0001
def NODEMGMT_VBIT_VALID : Nat := 0
def NODEMGMT_VBIT_INVALID : Nat := 1
def NODEMGMT_YEAR_SHT : Nat := 9
def NODEMGMT_YEAR_MASK : Nat := 0xFE00
def NODEMGMT_YEAR_MASK_FINAL : Nat := 0x007F
def NODEMGMT_MONTH_SHT : Nat := 5
def NODEMGMT_MONTH_MASK : Nat := 0x03E0
def NODEMGMT_MONTH_MASK_FINAL : Nat := 0x000F
def NODEMGMT_DAY_MASK_FINAL : Nat := 0x001F

/-! ## Types declared in headers that are not among the sources -/

/-- Modelled from the spec: the enumerators of `fido2_return_code_te` that
`logic_user.c` returns (`fido2_values_defines.h` is not among the sources).
Each enumerator is its own code, as the spec maps them 1:1 to client protocol
error codes. -/
inductive fido2_return_code_te
  | FIDO2_SUCCESS
  | FIDO2_OPERATION_DENIED
  | FIDO2_USER_NOT_PRESENT
  | FIDO2_STORAGE_EXHAUSTED
  deriving DecidableEq, Repr

/-- Modelled from the spec: the answers of a prompt, `mini_input_yes_no_ret_te`
(`gui_prompts.h` is not among the sources).  The four enumerators named in
`logic_user.c` are kept; `MINI_INPUT_RET_OTHER` stands for every other
enumerator of the type (timeout, power switch, ...). -/
inductive mini_input_yes_no_ret_te
  | MINI_INPUT_RET_YES
  | MINI_INPUT_RET_NO
  | MINI_INPUT_RET_BACK
  | MINI_INPUT_RET_CARD_REMOVED
  | MINI_INPUT_RET_OTHER (code : Nat)
  deriving DecidableEq, Repr

/-- The text identifiers `logic_user.c` hands to `custom_fs_get_string_from_file`
and to the prompts (`text_ids.h` is not among the sources). -/
inductive text_id
  | ADD_CRED_TEXT_ID
  | CHANGE_PWD_TEXT_ID
  | SEND_CREDS_FOR_TEXT_ID
  | LOGGING_WITH_TEXT_ID
  | ACCESS_TO_TEXT_ID
  | QPROMPT_SNGL_DISP_CRED_TEXT_ID
  | TYPE_LOGIN_TEXT_ID
  | TYPE_PASSWORD_TEXT_ID
  | SELECT_OUT_INTEFACE_TEXT_ID
  | COULDNT_TYPE_CHARS_TEXT_ID
  deriving DecidableEq, Repr

/-- The device settings `logic_user.c` reads through
`custom_fs_settings_get_device_setting`. -/
inductive device_setting
  | SETTINGS_CHAR_AFTER_LOGIN_PRESS
  | SETTINGS_CHAR_AFTER_PASS_PRESS
  | SETTINGS_DELAY_BETWEEN_PRESSES
  deriving DecidableEq, Repr

/-- The values of the constants of `defines.h`, `logic_database.h` and
`comms_aux_mcu_defines.h` that `logic_user.c` uses and whose definitions are
not among the sources.  They are parameters of the embedding: nothing is
assumed about their values. -/
structure Defines where
  RETURN_OK : Int
  RETURN_NOK : Int
  RETURN_BACK : Int
  NODEMGMT_STANDARD_CRED_TYPE_ID : Nat
  NODEMGMT_WEBAUTHN_CRED_TYPE_ID : Nat
  /-- `MEMBER_SIZE(keyboard_type_message_t, interface_identifier)` -/
  SIZEOF_INTERFACE_IDENTIFIER : Nat
  /-- `MEMBER_SIZE(keyboard_type_message_t, delay_between_types)` -/
  SIZEOF_DELAY_BETWEEN_TYPES : Nat
  deriving Repr

/-- The answer message `hid_message_t` as far as
`logic_user_usb_get_credential` touches it: the length field and, in the
payload, `get_credential_answer.password_index`,
`get_credential_answer.concatenated_strings` and the rest of the payload. -/
structure hid_message_t where
  payload_length : Nat
  password_index : Nat
  concatenated_strings : List Nat
  payload_rest : List Nat
  deriving DecidableEq, Repr

/-- What `logic_database_fill_get_cred_message_answer` hands back: its return
value, the filled message, the stored counter and the previous-generation
flag. -/
structure get_cred_message_answer_t where
  payload_size_without_pwd : Nat
  msg : hid_message_t
  ctr : List Nat
  prev_gen_credential_flag : Bool
  deriving DecidableEq, Repr

/-- What `logic_database_fetch_encrypted_password` writes through its
pointers. -/
structure encrypted_password_t where
  password : List Nat
  ctr : List Nat
  prev_gen_credential_flag : Bool
  deriving DecidableEq, Repr

/-- What `logic_database_get_webauthn_data_for_address` writes through its
pointers. -/
structure webauthn_data_t where
  credential_id : List Nat
  private_key : List Nat
  count : Nat
  ctr : List Nat
  deriving DecidableEq, Repr

/-- The caller's buffers of `logic_user_get_webauthn_credential_key_for_rp`. -/
structure webauthn_out_t where
  credential_id : List Nat
  private_key : List Nat
  count : Nat
  deriving DecidableEq, Repr

/-- The fields of `parent_cred_node_t` (nodemgmt.h) that `logic_user.c` reads. -/
structure parent_cred_node_t where
  flags : Nat
  service : List Nat
  deriving DecidableEq, Repr

/-- The fields of `child_cred_node_t` (nodemgmt.h) that `logic_user.c` reads. -/
structure child_cred_node_t where
  flags : Nat
  login : List Nat
  keyAfterLogin : Nat
  keyAfterPassword : Nat
  ctr : List Nat
  password : List Nat
  deriving DecidableEq, Repr

/-! ## Trace of calls to the collaborators -/

/-- One call from `logic_user.c` to a collaborator, with its arguments and,
where the handler branches on it, its result.  The arguments that are the
same constant in every call (`COMPARE_MODE_MATCH` of
`logic_database_search_service`, `SERVICE_CRED_TYPE` of
`logic_database_add_service`, the screen and transition of
`gui_dispatcher_set_current_screen`, `DISP_MSG_INFO` and `DISP_MSG_WARNING` of
the display calls) are left out. -/
inductive Event
  /- database: searches -/
  | logic_database_search_service (service : List Nat) (cat_filter : Bool) (type_id : Nat)
  | logic_database_search_login_in_service (parent : Nat) (login : List Nat) (cat_filter : Bool)
  | logic_database_search_webauthn_userhandle_in_service (parent : Nat) (user_handle : List Nat)
  | logic_database_search_webauthn_credential_id_in_service (parent : Nat)
      (credential_id : List Nat)
  | logic_database_get_number_of_creds_for_service (parent : Nat) (cat_filter : Bool)
  /- database: reads -/
  | logic_database_fetch_encrypted_password (child : Nat) (prev_gen_flag : Bool)
  | logic_database_get_login_for_address (child : Nat)
  | logic_database_get_webauthn_username_for_address (child : Nat)
  | logic_database_get_webauthn_data_for_address (child : Nat)
  | logic_database_fill_get_cred_message_answer (child : Nat) (prev_gen_flag : Bool)
  | nodemgmt_read_parent_node (address : Nat)
  | nodemgmt_read_cred_child_node (address : Nat)
  | nodemgmt_get_starting_parent_addr_for_category (type_id : Nat)
  /- database: writes -/
  | logic_database_add_service (service : List Nat) (type_id : Nat) (result : Nat)
  | logic_database_update_credential (child : Nat) (desc third : Option (List Nat))
      (password ctr : Option (List Nat))
  | logic_database_add_credential_for_service (parent : Nat) (login : List Nat)
      (desc third : Option (List Nat)) (password ctr : List Nat) (result : Int)
  | logic_database_add_webauthn_credential_for_service (parent : Nat) (user_handle : List Nat)
      (user_name display_name : List Nat) (private_key ctr credential_id : List Nat)
      (result : Int)
  | nodemgmt_store_user_sec_preferences (sec_preferences : Nat)
  /- user interface -/
  | custom_fs_get_string_from_file (id : text_id)
  | gui_prompts_ask_for_confirmation (nb_lines : Nat) (lines : List (List Nat))
      (flash_screen parse_aux_messages : Bool) (answer : mini_input_yes_no_ret_te)
  | gui_prompts_ask_for_one_line_confirmation (id : text_id) (flash_screen parse_aux_messages
      first_item_selected : Bool) (answer : mini_input_yes_no_ret_te)
  | gui_prompts_ask_for_login_select (parent : Nat) (first_child : Nat)
      (answer : mini_input_yes_no_ret_te) (chosen : Nat)
  | gui_prompts_service_selection_screen (start_address : Nat) (chosen : Nat)
  | logic_gui_display_login_password (node : child_cred_node_t)
  | gui_prompts_display_3line_information_on_screen (lines : List (List Nat))
  | gui_prompts_display_information_on_screen_and_wait (id : text_id)
  | gui_dispatcher_get_back_to_current_screen
  | gui_dispatcher_set_current_screen_login_notif
  /- encryption -/
  | logic_encryption_ctr_encrypt (data : List Nat) (length : Nat) (out : List Nat)
      (ctr_out : List Nat)
  | logic_encryption_ctr_decrypt (data : List Nat) (ctr : List Nat) (length : Nat)
      (old_gen_decrypt : Bool)
  | utils_ascii_to_unicode (data : List Nat) (nb_chars : Nat)
  /- random numbers and time -/
  | rng_fill_array (length : Nat)
  | rng_get_random_uint16_t (value : Nat)
  | timer_delay_ms (ms : Nat)
  /- connection state and typing transport -/
  | logic_bluetooth_get_state (connected : Bool)
  | logic_aux_mcu_is_usb_enumerated (enumerated : Bool)
  | comms_aux_mcu_send_message (payload_length1 : Nat) (keyboard_symbols : List Nat)
      (delay_between_types interface_identifier : Nat)
  | comms_aux_mcu_active_wait (could_type_all_symbols : Bool)
  | comms_aux_arm_rx_and_clear_no_comms
  deriving DecidableEq, Repr

/-- The collaborators of `logic_user.c`.  The state queries and the database,
encryption and string functions are functions of their arguments (the request
handlers search before they write); what comes from outside during a request
(prompt answers, random numbers, connection state, typing status) is a
function of the history of the request, that is of the trace so far. -/
structure Env where
  /- logic_security, user profile -/
  logic_security_is_smc_inserted_unlocked : Bool
  logic_security_is_management_mode_set : Bool
  logic_user_cur_sec_preferences : Nat
  /- logic_database, nodemgmt -/
  logic_database_search_service : List Nat → Bool → Nat → Nat
  logic_database_search_login_in_service : Nat → List Nat → Bool → Nat
  logic_database_search_webauthn_userhandle_in_service : Nat → List Nat → Nat
  logic_database_search_webauthn_credential_id_in_service : Nat → List Nat → Nat
  logic_database_get_number_of_creds_for_service : Nat → Bool → Nat × Nat
  logic_database_fetch_encrypted_password : Nat → encrypted_password_t
  logic_database_get_login_for_address : Nat → List Nat
  logic_database_get_webauthn_username_for_address : Nat → List Nat
  logic_database_get_webauthn_data_for_address : Nat → webauthn_data_t
  logic_database_fill_get_cred_message_answer : Nat → hid_message_t → get_cred_message_answer_t
  nodemgmt_read_parent_node : Nat → parent_cred_node_t
  nodemgmt_read_cred_child_node : Nat → child_cred_node_t
  nodemgmt_get_starting_parent_addr_for_category : Nat → Nat
  logic_database_add_service : List Nat → Nat → Nat
  logic_database_add_credential_for_service :
    Nat → List Nat → Option (List Nat) → Option (List Nat) → List Nat → List Nat → Int
  logic_database_add_webauthn_credential_for_service :
    Nat → List Nat → List Nat → List Nat → List Nat → List Nat → List Nat → Int
  /- logic_encryption, utils, rng -/
  logic_encryption_ctr_encrypt : List Nat → Nat → List Nat × List Nat
  logic_encryption_ctr_decrypt : List Nat → List Nat → Nat → Bool → List Nat
  utils_ascii_to_unicode : List Nat → Nat → List Nat
  utils_strncpy : List Nat → List Nat → Nat → List Nat
  utils_custchar_strncmp : List Nat → List Nat → Nat → Int
  rng_fill_array : List Event → Nat → List Nat
  rng_get_random_uint16_t : List Event → Nat
  /- custom_fs, gui -/
  custom_fs_get_string_from_file : text_id → List Nat
  custom_fs_get_keyboard_symbols_for_unicode_string : List Nat → Bool → Int × List Nat
  custom_fs_settings_get_device_setting : device_setting → Nat
  gui_prompts_ask_for_confirmation : List Event → mini_input_yes_no_ret_te
  gui_prompts_ask_for_one_line_confirmation : List Event → mini_input_yes_no_ret_te
  gui_prompts_ask_for_login_select : List Event → mini_input_yes_no_ret_te × Nat
  gui_prompts_service_selection_screen : List Event → Nat
  /- logic_bluetooth, logic_aux_mcu, comms_aux_mcu -/
  logic_bluetooth_get_state : List Event → Bool
  logic_aux_mcu_is_usb_enumerated : List Event → Bool
  comms_aux_mcu_active_wait : List Event → Bool

/-- A run of a handler: the trace so far is threaded through. -/
abbrev Run := StateM (List Event)

/-- Append one call to the trace. -/
def emit (e : Event) : Run Unit := modify (fun t => t ++ [e])

/-! ## Local helpers of the embedding (string and integer conversions) -/

/-- The string held by a zero-terminated buffer: the code units before the
first zero (what `utils_strlen` measures and a prompt displays). -/
def cstr (buf : List Nat) : List Nat := buf.takeWhile (fun c => c ≠ 0)

/-- `utils_strlen`: number of code units before the terminating zero. -/
def utils_strlen (buf : List Nat) : Nat := (cstr buf).length

/-- The string held by a local array of `size` code units after
`utils_strncpy(copy, s, size); copy[size-1] = 0;`: `s` cut to `size-1` code
units. -/
def local_string_copy (s : List Nat) (size : Nat) : List Nat := s.take (size - 1)

/-- Overwrite `buf` from index `off` on with `data`. -/
def write_at (buf : List Nat) (off : Nat) (data : List Nat) : List Nat :=
  buf.take off ++ data ++ buf.drop (off + data.length)

/-- `utils_strcpy(&buf[off], src)`: copies the string of `src` and its
terminating zero. -/
def utils_strcpy_at (buf : List Nat) (off : Nat) (src : List Nat) : List Nat :=
  write_at buf off (cstr src ++ [0])

/-- Conversion of a `uint16_t` value to the `int16_t` a function returns. -/
def to_int16 (n : Nat) : Int :=
  if n % 65536 < 32768 then ((n % 65536 : Nat) : Int) else ((n % 65536 : Nat) : Int) - 65536

/-- `logic_user_get_user_security_flags` (logic_user.c, lines 70-73). -/
def logic_user_get_user_security_flags (env : Env) : Nat :=
  env.logic_user_cur_sec_preferences

/-! ## User security flags (logic_user.c, lines 134-154; logic_device.c, lines 233-250) -/

/-- `logic_device_set_state_changed` (logic_device.c, lines 236-239): the new
value of the static `logic_device_state_changed`. -/
def logic_device_set_state_changed (_logic_device_state_changed : Bool) : Bool := true

/-- `logic_device_get_state_changed_and_reset_bool` (logic_device.c, lines
245-250): the value returned and the new value of `logic_device_state_changed`. -/
def logic_device_get_state_changed_and_reset_bool (logic_device_state_changed : Bool) :
    Bool × Bool :=
  let return_val := logic_device_state_changed
  (return_val, false)

/-- `logic_user_set_user_security_flag`: add security flags to the current
user profile.  `bitmask` is a `uint16_t`; the result is the device with the new
cached `logic_user_cur_sec_preferences`, and the new value of
`logic_device_state_changed`. -/
def logic_user_set_user_security_flag (env : Env) (logic_device_state_changed : Bool)
    (bitmask : Nat) : Run (Env × Bool) := do
  let logic_device_state_changed := logic_device_set_state_changed logic_device_state_changed
  let logic_user_cur_sec_preferences :=
    ((env.logic_user_cur_sec_preferences % 65536) ||| (bitmask % 65536)) % 65536
  emit (.nodemgmt_store_user_sec_preferences logic_user_cur_sec_preferences)
  return ({ env with logic_user_cur_sec_preferences := logic_user_cur_sec_preferences },
    logic_device_state_changed)

/-- `logic_user_clear_user_security_flag`: clear security flags of the current
user profile; `~bitmask` is cut to the 16 bits of the cached value. -/
def logic_user_clear_user_security_flag (env : Env) (logic_device_state_changed : Bool)
    (bitmask : Nat) : Run (Env × Bool) := do
  let logic_device_state_changed := logic_device_set_state_changed logic_device_state_changed
  let logic_user_cur_sec_preferences :=
    ((env.logic_user_cur_sec_preferences % 65536) &&& not16 (bitmask % 65536)) % 65536
  emit (.nodemgmt_store_user_sec_preferences logic_user_cur_sec_preferences)
  return ({ env with logic_user_cur_sec_preferences := logic_user_cur_sec_preferences },
    logic_device_state_changed)

/-! ## `logic_user_check_credential` (logic_user.c, lines 285-339) -/

/-- `logic_user_check_credential`: check if a credential exists and its
password is the one given. -/
def logic_user_check_credential (d : Defines) (env : Env)
    (service login password : List Nat) : Run Int := do
  /- Smartcard present and unlocked? -/
  if env.logic_security_is_smc_inserted_unlocked = false then
    return -1
  /- Does service already exist? -/
  emit (.logic_database_search_service service true 0)
  let parent_address := env.logic_database_search_service service true 0
  /- Service doesn't exist, deny request with a variable timeout for privacy concerns -/
  if parent_address = NODE_ADDR_NULL then
    return d.RETURN_NOK
  /- Check if child actually exists -/
  emit (.logic_database_search_login_in_service parent_address login true)
  let child_address := env.logic_database_search_login_in_service parent_address login true
  /- Check for existing login -/
  if child_address = NODE_ADDR_NULL then
    return d.RETURN_NOK
  /- Fetch password -/
  let fetched := env.logic_database_fetch_encrypted_password child_address
  let prev_gen_credential_flag := fetched.prev_gen_credential_flag
  emit (.logic_database_fetch_encrypted_password child_address prev_gen_credential_flag)
  /- User approved, decrypt password -/
  emit (.logic_encryption_ctr_decrypt fetched.password fetched.ctr CHILD_PASSWORD_SIZE
    prev_gen_credential_flag)
  let mut encrypted_password := env.logic_encryption_ctr_decrypt fetched.password fetched.ctr
    CHILD_PASSWORD_SIZE prev_gen_credential_flag
  /- If old generation password, convert it to unicode -/
  if prev_gen_credential_flag ≠ false then
    emit (.utils_ascii_to_unicode encrypted_password NODEMGMT_OLD_GEN_ASCII_PWD_LENGTH)
    encrypted_password :=
      env.utils_ascii_to_unicode encrypted_password NODEMGMT_OLD_GEN_ASCII_PWD_LENGTH
  /- Finally do the comparison -/
  if env.utils_custchar_strncmp encrypted_password password
      (CHILD_PASSWORD_SIZE / SIZEOF_CUST_CHAR) = 0 then
    return d.RETURN_OK
  else
    return d.RETURN_NOK

/-! ## `logic_user_store_webauthn_credential` (logic_user.c, lines 352-427) -/

/-- `logic_user_store_webauthn_credential`: generate and store a new webauthn
credential.  Returns the FIDO2 code. -/
def logic_user_store_webauthn_credential (d : Defines) (env : Env)
    (rp_id user_handle user_name display_name private_key credential_id : List Nat) :
    Run fido2_return_code_te := do
  /- Smartcard present and unlocked? -/
  if env.logic_security_is_smc_inserted_unlocked = false then
    return .FIDO2_USER_NOT_PRESENT
  /- Does service already exist? -/
  emit (.logic_database_search_service rp_id true d.NODEMGMT_WEBAUTHN_CRED_TYPE_ID)
  let mut parent_address :=
    env.logic_database_search_service rp_id true d.NODEMGMT_WEBAUTHN_CRED_TYPE_ID
  /- If service exist, does user_handle exist? -/
  if parent_address ≠ NODE_ADDR_NULL then
    emit (.logic_database_search_webauthn_userhandle_in_service parent_address user_handle)
    let child_address :=
      env.logic_database_search_webauthn_userhandle_in_service parent_address user_handle
    /- If it does, don't overwrite it... -/
    if child_address ≠ NODE_ADDR_NULL then
      return .FIDO2_OPERATION_DENIED
  /- Prepare prompt text -/
  emit (.custom_fs_get_string_from_file .ADD_CRED_TEXT_ID)
  let three_line_prompt_2 := env.custom_fs_get_string_from_file .ADD_CRED_TEXT_ID
  /- Request user approval -/
  let prompt_return := env.gui_prompts_ask_for_confirmation (← get)
  emit (.gui_prompts_ask_for_confirmation 3 [rp_id, three_line_prompt_2, user_name]
    true false prompt_return)
  emit .gui_dispatcher_get_back_to_current_screen
  /- Did the user approve? -/
  if prompt_return ≠ .MINI_INPUT_RET_YES then
    return .FIDO2_OPERATION_DENIED
  /- If needed, add service -/
  if parent_address = NODE_ADDR_NULL then
    parent_address := env.logic_database_add_service rp_id d.NODEMGMT_WEBAUTHN_CRED_TYPE_ID
    emit (.logic_database_add_service rp_id d.NODEMGMT_WEBAUTHN_CRED_TYPE_ID parent_address)
    /- Check for operation success -/
    if parent_address = NODE_ADDR_NULL then
      return .FIDO2_STORAGE_EXHAUSTED
  /- Copy private key into array -/
  let plain_private_key := private_key.take WEBAUTHN_PRIVATE_KEY_SIZE
  /- CTR encrypt key -/
  let encrypted := env.logic_encryption_ctr_encrypt plain_private_key WEBAUTHN_PRIVATE_KEY_SIZE
  let encrypted_private_key := encrypted.1
  let temp_cred_ctr_val := encrypted.2
  emit (.logic_encryption_ctr_encrypt plain_private_key WEBAUTHN_PRIVATE_KEY_SIZE
    encrypted_private_key temp_cred_ctr_val)
  /- Create new webauthn credential -/
  let temp_ret := env.logic_database_add_webauthn_credential_for_service parent_address
    user_handle user_name display_name encrypted_private_key temp_cred_ctr_val credential_id
  emit (.logic_database_add_webauthn_credential_for_service parent_address user_handle
    user_name display_name encrypted_private_key temp_cred_ctr_val credential_id temp_ret)
  /- Correct return depending on credential add result -/
  if temp_ret = d.RETURN_OK then
    return .FIDO2_SUCCESS
  else
    return .FIDO2_STORAGE_EXHAUSTED

/-! ## `logic_user_store_credential` (logic_user.c, lines 439-536) -/

/-- `logic_user_store_credential`: store a new credential or update an
existing one.  `desc`, `third` and `password` may be null pointers. -/
def logic_user_store_credential (d : Defines) (env : Env) (service login : List Nat)
    (desc third password : Option (List Nat)) : Run Int := do
  /- Smartcard present and unlocked? -/
  if env.logic_security_is_smc_inserted_unlocked = false then
    return d.RETURN_NOK
  /- Does service already exist? -/
  emit (.logic_database_search_service service true d.NODEMGMT_STANDARD_CRED_TYPE_ID)
  let mut parent_address :=
    env.logic_database_search_service service true d.NODEMGMT_STANDARD_CRED_TYPE_ID
  let mut child_address := NODE_ADDR_NULL
  /- If service exist, does login exist? -/
  if parent_address ≠ NODE_ADDR_NULL then
    emit (.logic_database_search_login_in_service parent_address login true)
    child_address := env.logic_database_search_login_in_service parent_address login true
  /- Special case: in MMM and user chose to not be prompted -/
  if env.logic_security_is_management_mode_set = false ∨
      (logic_user_get_user_security_flags env &&& USER_SEC_FLG_CRED_SAVE_PROMPT_MMM) ≠ 0 then
    /- Prepare prompt text -/
    let prompt_id : text_id :=
      if child_address = NODE_ADDR_NULL then .ADD_CRED_TEXT_ID else .CHANGE_PWD_TEXT_ID
    emit (.custom_fs_get_string_from_file prompt_id)
    let three_line_prompt_2 := env.custom_fs_get_string_from_file prompt_id
    /- Request user approval -/
    let prompt_return := env.gui_prompts_ask_for_confirmation (← get)
    emit (.gui_prompts_ask_for_confirmation 3 [service, three_line_prompt_2, login]
      true false prompt_return)
    emit .gui_dispatcher_get_back_to_current_screen
    /- Did the user approve? -/
    if prompt_return ≠ .MINI_INPUT_RET_YES then
      return d.RETURN_NOK
  /- If needed, add service -/
  if parent_address = NODE_ADDR_NULL then
    parent_address := env.logic_database_add_service service d.NODEMGMT_STANDARD_CRED_TYPE_ID
    emit (.logic_database_add_service service d.NODEMGMT_STANDARD_CRED_TYPE_ID parent_address)
    /- Check for operation success -/
    if parent_address = NODE_ADDR_NULL then
      return d.RETURN_NOK
  /- Fill RNG array with random numbers -/
  let mut encrypted_password := env.rng_fill_array (← get) CHILD_PASSWORD_SIZE
  emit (.rng_fill_array CHILD_PASSWORD_SIZE)
  /- the local array temp_cred_ctr_val is not initialised -/
  let mut temp_cred_ctr_val : List Nat := []
  /- Password provided? -/
  match password with
  | some pwd =>
    /- Copy password into array, CTR encrypt password -/
    let plain := env.utils_strncpy encrypted_password pwd (CHILD_PASSWORD_SIZE / SIZEOF_CUST_CHAR)
    let encrypted := env.logic_encryption_ctr_encrypt plain CHILD_PASSWORD_SIZE
    emit (.logic_encryption_ctr_encrypt plain CHILD_PASSWORD_SIZE encrypted.1 encrypted.2)
    encrypted_password := encrypted.1
    temp_cred_ctr_val := encrypted.2
  | none =>
    if child_address = NODE_ADDR_NULL then
      /- New credential but password somehow not specified -/
      let plain := encrypted_password.set 0 0
      /- CTR encrypt password -/
      let encrypted := env.logic_encryption_ctr_encrypt plain CHILD_PASSWORD_SIZE
      emit (.logic_encryption_ctr_encrypt plain CHILD_PASSWORD_SIZE encrypted.1 encrypted.2)
      encrypted_password := encrypted.1
      temp_cred_ctr_val := encrypted.2
  /- Update existing login or create new one? -/
  if child_address ≠ NODE_ADDR_NULL then
    if password ≠ none then
      emit (.logic_database_update_credential child_address desc third
        (some encrypted_password) (some temp_cred_ctr_val))
    else
      emit (.logic_database_update_credential child_address desc third none none)
    return d.RETURN_OK
  else
    let ret := env.logic_database_add_credential_for_service parent_address login desc third
      encrypted_password temp_cred_ctr_val
    emit (.logic_database_add_credential_for_service parent_address login desc third
      encrypted_password temp_cred_ctr_val ret)
    return ret

/-! ## `logic_user_get_webauthn_credential_key_for_rp` (logic_user.c, lines 548-684) -/

/-- Lines 638-644 and 674-680 (same text): fetch the webauthn data of the
child and decrypt the private key, never as an old generation credential. -/
def webauthn_fetch_and_decrypt (d : Defines) (env : Env) (child_address : Nat) :
    Run (Int × webauthn_out_t) := do
  /- Fetch webauthn data -/
  emit (.logic_database_get_webauthn_data_for_address child_address)
  let data := env.logic_database_get_webauthn_data_for_address child_address
  /- User approved, decrypt key -/
  emit (.logic_encryption_ctr_decrypt data.private_key data.ctr WEBAUTHN_PRIVATE_KEY_SIZE false)
  let private_key := env.logic_encryption_ctr_decrypt data.private_key data.ctr
    WEBAUTHN_PRIVATE_KEY_SIZE false
  return (d.RETURN_OK, ⟨data.credential_id, private_key, data.count⟩)

/-- `logic_user_get_webauthn_credential_key_for_rp`: get the private key of a
credential of a relying party.  `out` is what the caller's `credential_id`,
`private_key` and `count` buffers hold before the call; the result is the
return value and what they hold after it. -/
def logic_user_get_webauthn_credential_key_for_rp (d : Defines) (env : Env) (rp_id : List Nat)
    (out : webauthn_out_t) (credential_id_allow_list : List (List Nat))
    (credential_id_allow_list_length : Nat) : Run (Int × webauthn_out_t) := do
  /- Copy strings locally, switcheroo -/
  let rp_id := local_string_copy rp_id PARENT_SERVICE_ARRAY_SIZE
  /- Smartcard present and unlocked? -/
  if env.logic_security_is_smc_inserted_unlocked = false then
    return (-1, out)
  /- Does service already exist? -/
  emit (.logic_database_search_service rp_id true d.NODEMGMT_WEBAUTHN_CRED_TYPE_ID)
  let parent_address :=
    env.logic_database_search_service rp_id true d.NODEMGMT_WEBAUTHN_CRED_TYPE_ID
  let mut child_address := NODE_ADDR_NULL
  /- Service doesn't exist, deny request with a variable timeout for privacy concerns -/
  if parent_address = NODE_ADDR_NULL then
    /- From 1s to 3s -/
    let rnd := env.rng_get_random_uint16_t (← get) % 65536
    emit (.rng_get_random_uint16_t rnd)
    emit (.timer_delay_ms (1000 + (rnd &&& 0x07FF)))
    return (d.RETURN_NOK, out)
  /- See how many credentials there are for this service -/
  emit (.logic_database_get_number_of_creds_for_service parent_address false)
  let counted := env.logic_database_get_number_of_creds_for_service parent_address false
  let nb_logins_for_cred := counted.1
  child_address := counted.2
  /- Check if wanted credential id has been specified or if there's only one credential -/
  if credential_id_allow_list_length = 1 ∨ nb_logins_for_cred = 1 then
    /- Login specified? look for it -/
    if credential_id_allow_list_length ≠ 0 then
      emit (.logic_database_search_webauthn_credential_id_in_service parent_address
        (credential_id_allow_list.getD 0 []))
      child_address := env.logic_database_search_webauthn_credential_id_in_service
        parent_address (credential_id_allow_list.getD 0 [])
      /- Check for existing login -/
      if child_address = NODE_ADDR_NULL then
        /- From 3s to 7s -/
        let rnd := env.rng_get_random_uint16_t (← get) % 65536
        emit (.rng_get_random_uint16_t rnd)
        emit (.timer_delay_ms (3000 + (rnd &&& 0x0FFF)))
        return (d.RETURN_NOK, out)
    /- Fetch username for that credential id -/
    emit (.logic_database_get_webauthn_username_for_address child_address)
    let temp_user_name := env.logic_database_get_webauthn_username_for_address child_address
    /- If user specified to be prompted for login confirmation -/
    if (logic_user_get_user_security_flags env &&& USER_SEC_FLG_LOGIN_CONF) ≠ 0 then
      /- Prepare prompt message -/
      emit (.custom_fs_get_string_from_file .SEND_CREDS_FOR_TEXT_ID)
      let three_line_prompt_2 := env.custom_fs_get_string_from_file .SEND_CREDS_FOR_TEXT_ID
      /- Request user approval -/
      let prompt_return := env.gui_prompts_ask_for_confirmation (← get)
      emit (.gui_prompts_ask_for_confirmation 3 [rp_id, three_line_prompt_2, temp_user_name]
        true true prompt_return)
      emit .gui_dispatcher_get_back_to_current_screen
      /- Did the user approve? -/
      if prompt_return ≠ .MINI_INPUT_RET_YES then
        return (d.RETURN_NOK, out)
    else
      /- Prepare notification message -/
      emit (.custom_fs_get_string_from_file .LOGGING_WITH_TEXT_ID)
      let three_line_notif_2 := env.custom_fs_get_string_from_file .LOGGING_WITH_TEXT_ID
      /- 3 lines notification website / logging you in with / username -/
      emit (.gui_prompts_display_3line_information_on_screen
        [rp_id, three_line_notif_2, temp_user_name])
      /- Set information screen -/
      emit .gui_dispatcher_set_current_screen_login_notif
    webauthn_fetch_and_decrypt d env child_address
  else
    /- 3 cases: no login, 1 login, several logins -/
    if nb_logins_for_cred = 0 then
      /- From 1s to 3s -/
      let rnd := env.rng_get_random_uint16_t (← get) % 65536
      emit (.rng_get_random_uint16_t rnd)
      emit (.timer_delay_ms (1000 + (rnd &&& 0x07FF)))
      return (d.RETURN_NOK, out)
    else
      /- 2 children or more, as 1 is tackled in the previous if -/
      let selected := env.gui_prompts_ask_for_login_select (← get)
      emit (.gui_prompts_ask_for_login_select parent_address child_address selected.1 selected.2)
      child_address := selected.2
      if selected.1 ≠ .MINI_INPUT_RET_YES then
        child_address := NODE_ADDR_NULL
      emit .gui_dispatcher_get_back_to_current_screen
      /- So.... what did the user select? -/
      if child_address = NODE_ADDR_NULL then
        return (d.RETURN_NOK, out)
      else
        webauthn_fetch_and_decrypt d env child_address

/-! ## `logic_user_usb_get_credential` (logic_user.c, lines 693-874) -/

/-- Lines 798-819 and 849-870 (same text): fill the answer for the child,
decrypt the password in place in the message, widen it when it is an old
generation one, and compute the payload size. -/
def usb_fill_and_decrypt (env : Env) (child_address : Nat) (send_msg : hid_message_t) :
    Run (Int × hid_message_t) := do
  /- Get prefilled message -/
  let answer := env.logic_database_fill_get_cred_message_answer child_address send_msg
  let prev_gen_credential_flag := answer.prev_gen_credential_flag
  emit (.logic_database_fill_get_cred_message_answer child_address prev_gen_credential_flag)
  let return_payload_size_without_pwd := answer.payload_size_without_pwd
  let filled := answer.msg
  /- User approved, decrypt password -/
  let pwd_field := (filled.concatenated_strings.drop filled.password_index).take
    (CHILD_PASSWORD_SIZE / SIZEOF_CUST_CHAR)
  emit (.logic_encryption_ctr_decrypt pwd_field answer.ctr CHILD_PASSWORD_SIZE
    prev_gen_credential_flag)
  let mut password := env.logic_encryption_ctr_decrypt pwd_field answer.ctr CHILD_PASSWORD_SIZE
    prev_gen_credential_flag
  /- If old generation password, convert it to unicode -/
  if prev_gen_credential_flag ≠ false then
    emit (.utils_ascii_to_unicode password NODEMGMT_OLD_GEN_ASCII_PWD_LENGTH)
    password := env.utils_ascii_to_unicode password NODEMGMT_OLD_GEN_ASCII_PWD_LENGTH
  let strings := write_at filled.concatenated_strings filled.password_index password
  /- Get password length -/
  let pwd_length := utils_strlen (strings.drop filled.password_index) % 65536
  /- Compute payload size -/
  let return_payload_size :=
    (return_payload_size_without_pwd + (pwd_length + 1) * SIZEOF_CUST_CHAR) % 65536
  /- Return payload size -/
  return (to_int16 return_payload_size,
    { filled with concatenated_strings := strings, payload_length := return_payload_size })

/-- `memset(send_msg->payload, 0, sizeof(send_msg->payload))`. -/
def hid_message_zero_payload (m : hid_message_t) : hid_message_t :=
  { m with
    password_index := 0
    concatenated_strings := List.replicate m.concatenated_strings.length 0
    payload_rest := List.replicate m.payload_rest.length 0 }

/-- `logic_user_usb_get_credential`: get the credential of a service; `login`
may be a null pointer.  The result is the return value (payload size or -1)
and the answer message. -/
def logic_user_usb_get_credential (d : Defines) (env : Env) (service : List Nat)
    (login : Option (List Nat)) (send_msg : hid_message_t) : Run (Int × hid_message_t) := do
  /- Copy strings locally, switcheroo -/
  let service := local_string_copy service PARENT_SERVICE_ARRAY_SIZE
  let login := login.map (fun l => local_string_copy l CHILD_LOGIN_ARRAY_SIZE)
  /- Smartcard present and unlocked? -/
  if env.logic_security_is_smc_inserted_unlocked = false then
    return (-1, send_msg)
  /- Does service already exist? -/
  emit (.logic_database_search_service service true d.NODEMGMT_STANDARD_CRED_TYPE_ID)
  let parent_address :=
    env.logic_database_search_service service true d.NODEMGMT_STANDARD_CRED_TYPE_ID
  let mut child_address := NODE_ADDR_NULL
  /- Service doesn't exist, deny request with a variable timeout for privacy concerns -/
  if parent_address = NODE_ADDR_NULL then
    /- From 1s to 3s -/
    let rnd := env.rng_get_random_uint16_t (← get) % 65536
    emit (.rng_get_random_uint16_t rnd)
    emit (.timer_delay_ms (1000 + (rnd &&& 0x07FF)))
    return (-1, send_msg)
  /- See how many credentials there are for this service -/
  emit (.logic_database_get_number_of_creds_for_service parent_address
    (!env.logic_security_is_management_mode_set))
  let counted := env.logic_database_get_number_of_creds_for_service parent_address
    (!env.logic_security_is_management_mode_set)
  let nb_logins_for_cred := counted.1
  child_address := counted.2
  /- Check if wanted login has been specified or if there's only one credential -/
  if login ≠ none ∨ nb_logins_for_cred = 1 then
    let mut login_line : List Nat := []
    /- Login specified? look for it -/
    match login with
    | some l =>
      emit (.logic_database_search_login_in_service parent_address l
        (!env.logic_security_is_management_mode_set))
      child_address := env.logic_database_search_login_in_service parent_address l
        (!env.logic_security_is_management_mode_set)
      login_line := l
      /- Check for existing login -/
      if child_address = NODE_ADDR_NULL then
        /- From 3s to 7s -/
        let rnd := env.rng_get_random_uint16_t (← get) % 65536
        emit (.rng_get_random_uint16_t rnd)
        emit (.timer_delay_ms (3000 + (rnd &&& 0x0FFF)))
        return (-1, send_msg)
    | none =>
      /- Only one login for current service, fetch it and store it locally -/
      emit (.logic_database_get_login_for_address child_address)
      login_line := env.logic_database_get_login_for_address child_address
    /- If user specified to be prompted for login confirmation -/
    if (logic_user_get_user_security_flags env &&& USER_SEC_FLG_LOGIN_CONF) ≠ 0 then
      /- Prepare prompt message -/
      emit (.custom_fs_get_string_from_file .SEND_CREDS_FOR_TEXT_ID)
      let three_line_prompt_2 := env.custom_fs_get_string_from_file .SEND_CREDS_FOR_TEXT_ID
      /- Request user approval -/
      let prompt_return := env.gui_prompts_ask_for_confirmation (← get)
      emit (.gui_prompts_ask_for_confirmation 3 [service, three_line_prompt_2, login_line]
        true true prompt_return)
      emit .gui_dispatcher_get_back_to_current_screen
      /- Did the user approve? -/
      if prompt_return ≠ .MINI_INPUT_RET_YES then
        return (-1, hid_message_zero_payload send_msg)
    else
      /- Prepare notification message -/
      let notif_id : text_id :=
        if env.logic_security_is_management_mode_set ≠ false then .ACCESS_TO_TEXT_ID
        else .LOGGING_WITH_TEXT_ID
      emit (.custom_fs_get_string_from_file notif_id)
      let three_line_notif_2 := env.custom_fs_get_string_from_file notif_id
      /- 3 lines notification website / logging you in with / username -/
      emit (.gui_prompts_display_3line_information_on_screen
        [service, three_line_notif_2, login_line])
      /- Set information screen -/
      emit .gui_dispatcher_set_current_screen_login_notif
    usb_fill_and_decrypt env child_address send_msg
  else
    /- 3 cases: no login, 1 login, several logins -/
    if nb_logins_for_cred = 0 then
      /- From 1s to 3s -/
      let rnd := env.rng_get_random_uint16_t (← get) % 65536
      emit (.rng_get_random_uint16_t rnd)
      emit (.timer_delay_ms (1000 + (rnd &&& 0x07FF)))
      return (-1, send_msg)
    else
      /- 2 children or more, as 1 is tackled in the previous if -/
      let selected := env.gui_prompts_ask_for_login_select (← get)
      emit (.gui_prompts_ask_for_login_select parent_address child_address selected.1 selected.2)
      child_address := selected.2
      if selected.1 ≠ .MINI_INPUT_RET_YES then
        child_address := NODE_ADDR_NULL
      emit .gui_dispatcher_get_back_to_current_screen
      /- So.... what did the user select? -/
      if child_address = NODE_ADDR_NULL then
        return (-1, send_msg)
      else
        usb_fill_and_decrypt env child_address send_msg

/-! ## `logic_user_ask_for_credentials_keyb_output` (logic_user.c, lines 1037-1313) -/

/-- `logic_bluetooth_get_state() == BT_STATE_CONNECTED`, one poll. -/
def poll_bluetooth_connected (env : Env) : Run Bool := do
  let connected := env.logic_bluetooth_get_state (← get)
  emit (.logic_bluetooth_get_state connected)
  return connected

/-- `logic_aux_mcu_is_usb_enumerated() != FALSE`, one poll. -/
def poll_usb_enumerated (env : Env) : Run Bool := do
  let enumerated := env.logic_aux_mcu_is_usb_enumerated (← get)
  emit (.logic_aux_mcu_is_usb_enumerated enumerated)
  return enumerated

/-- The condition `(logic_bluetooth_get_state() == BT_STATE_CONNECTED) &&
(logic_aux_mcu_is_usb_enumerated() != FALSE)`: the second poll is made only
when the first holds. -/
def poll_both_interfaces_connected (env : Env) : Run Bool := do
  if (← poll_bluetooth_connected env) then
    poll_usb_enumerated env
  else
    return false

/-- The condition `(logic_bluetooth_get_state() != BT_STATE_CONNECTED) &&
(logic_aux_mcu_is_usb_enumerated() == FALSE)`. -/
def poll_nothing_connected (env : Env) : Run Bool := do
  if (← poll_bluetooth_connected env) then
    return false
  else
    return !(← poll_usb_enumerated env)

/-- Lines 1160-1189 and 1256-1289: build the typing message for `text` with
the key `key_after` behind it, send it to the transport, wait for the typing
status and warn if some characters could not be typed.  The wait loop on
`comms_aux_mcu_active_wait` is one event carrying the status received. -/
def keyb_type_string (d : Defines) (env : Env) (text : List Nat) (key_after : Nat)
    (usb_selected : Bool) (interface_id : Nat) : Run Unit := do
  let payload_length1 := (d.SIZEOF_INTERFACE_IDENTIFIER + d.SIZEOF_DELAY_BETWEEN_TYPES +
    (text.length + 1 + 1) * SIZEOF_CUST_CHAR) % 65536
  let transformed := env.custom_fs_get_keyboard_symbols_for_unicode_string text usb_selected
  let string_to_key_points_transform_success := transformed.1
  let symbols := write_at transformed.2 text.length [key_after]
  let symbols := write_at symbols text.length
    (env.custom_fs_get_keyboard_symbols_for_unicode_string
      (cstr (symbols.drop text.length)) usb_selected).2
  let delay_between_types :=
    env.custom_fs_settings_get_device_setting .SETTINGS_DELAY_BETWEEN_PRESSES
  emit (.comms_aux_mcu_send_message payload_length1 symbols delay_between_types interface_id)
  /- Wait for typing status -/
  let could_type_all_symbols := env.comms_aux_mcu_active_wait (← get)
  emit (.comms_aux_mcu_active_wait could_type_all_symbols)
  /- Rearm DMA RX -/
  emit .comms_aux_arm_rx_and_clear_no_comms
  /- Display warning if some chars were missing -/
  if string_to_key_points_transform_success ≠ d.RETURN_OK ∨ could_type_all_symbols = false then
    emit (.gui_prompts_display_information_on_screen_and_wait .COULDNT_TYPE_CHARS_TEXT_ID)

/-- The local variables of `logic_user_ask_for_credentials_keyb_output` that
live across iterations of its `while (TRUE)` loop. -/
structure keyb_output_state where
  state_machine : Nat
  usb_selected : Bool
  interface_id : Nat
  login_or_password_typed : Bool
  temp_cnode : child_cred_node_t
  deriving DecidableEq, Repr

/-- The `while (TRUE)` loop of `logic_user_ask_for_credentials_keyb_output`
(lines 1079-1310), at most `fuel` iterations.  `first_line` is the string in
`temp_pnode.cred_parent.service`.  The result is the value returned (`none`
if the loop is still running after `fuel` iterations) and `*usb_selected`. -/
def keyb_output_loop (d : Defines) (env : Env) (first_line : List Nat) :
    Nat → keyb_output_state → Run (Option Int × Bool)
  | 0, st => return (none, st.usb_selected)
  | fuel + 1, st => do
    if st.state_machine = 0 then
      let mut st := st
      /- How many interfaces connected? -/
      if (← poll_both_interfaces_connected env) then
        /- Both interface connected, ask user for selection -/
        let select_inteface_prompt_return :=
          env.gui_prompts_ask_for_one_line_confirmation (← get)
        emit (.gui_prompts_ask_for_one_line_confirmation .SELECT_OUT_INTEFACE_TEXT_ID
          false true st.usb_selected select_inteface_prompt_return)
        if select_inteface_prompt_return = .MINI_INPUT_RET_BACK then
          return (some d.RETURN_BACK, st.usb_selected)
        else if select_inteface_prompt_return = .MINI_INPUT_RET_YES then
          st := { st with usb_selected := true, interface_id := 0 }
        else if select_inteface_prompt_return = .MINI_INPUT_RET_NO then
          st := { st with usb_selected := false, interface_id := 1 }
        else
          return (some d.RETURN_OK, st.usb_selected)
      else if (← poll_bluetooth_connected env) then
        /- Magic numbers FTW -/
        st := { st with usb_selected := false, interface_id := 1 }
      else
        /- USB connected -/
        st := { st with usb_selected := true, interface_id := 0 }
      /- Move to next state -/
      keyb_output_loop d env first_line fuel { st with state_machine := st.state_machine + 1 }
    else if st.state_machine = 1 then
      /- Check for presence of an actual login -/
      if st.temp_cnode.login.headD 0 = 0 then
        keyb_output_loop d env first_line fuel { st with state_machine := st.state_machine + 1 }
      else
        /- Ask for login confirmation -/
        emit (.custom_fs_get_string_from_file .TYPE_LOGIN_TEXT_ID)
        let two_line_prompt_2 := env.custom_fs_get_string_from_file .TYPE_LOGIN_TEXT_ID
        let prompt_return := env.gui_prompts_ask_for_confirmation (← get)
        emit (.gui_prompts_ask_for_confirmation 2 [first_line, two_line_prompt_2]
          false true prompt_return)
        /- Approved, back, card removed... -/
        if prompt_return = .MINI_INPUT_RET_CARD_REMOVED then
          return (some d.RETURN_OK, st.usb_selected)
        else if prompt_return = .MINI_INPUT_RET_BACK then
          /- Check for multiple interfaces connected -/
          if (← poll_both_interfaces_connected env) then
            keyb_output_loop d env first_line fuel { st with state_machine := 0 }
          else
            /- No multiple interfaces connected, leave function -/
            return (some d.RETURN_BACK, st.usb_selected)
        else
          let mut st := st
          if prompt_return = .MINI_INPUT_RET_YES then
            let key_after :=
              if st.temp_cnode.keyAfterLogin = 0xFFFF ∨
                  (logic_user_get_user_security_flags env &&& USER_SEC_FLG_ADVANCED_MENU) = 0 then
                /- Use default device key press -/
                env.custom_fs_settings_get_device_setting .SETTINGS_CHAR_AFTER_LOGIN_PRESS
              else
                st.temp_cnode.keyAfterLogin
            keyb_type_string d env (cstr st.temp_cnode.login) key_after st.usb_selected
              st.interface_id
            /- Set bool -/
            st := { st with login_or_password_typed := true }
          /- Move on -/
          keyb_output_loop d env first_line fuel { st with state_machine := st.state_machine + 1 }
    else if st.state_machine = 2 then
      /- Ask for password confirmation -/
      emit (.custom_fs_get_string_from_file .TYPE_PASSWORD_TEXT_ID)
      let two_line_prompt_2 := env.custom_fs_get_string_from_file .TYPE_PASSWORD_TEXT_ID
      let prompt_return := env.gui_prompts_ask_for_confirmation (← get)
      emit (.gui_prompts_ask_for_confirmation 2 [first_line, two_line_prompt_2]
        false true prompt_return)
      /- Approved, back, card removed... -/
      if prompt_return = .MINI_INPUT_RET_CARD_REMOVED then
        return (some d.RETURN_OK, st.usb_selected)
      else if prompt_return = .MINI_INPUT_RET_BACK then
        /- Check for no login -/
        if st.temp_cnode.login.headD 0 = 0 then
          /- Check for multiple interfaces connected -/
          if (← poll_both_interfaces_connected env) then
            keyb_output_loop d env first_line fuel { st with state_machine := 0 }
          else
            /- No login, no multiple interfaces connected, leave function -/
            return (some d.RETURN_BACK, st.usb_selected)
        else
          keyb_output_loop d env first_line fuel { st with state_machine := st.state_machine - 1 }
      else
        if prompt_return = .MINI_INPUT_RET_YES then
          /- Check for previous generation password -/
          let prev_gen_credential_flag : Bool :=
            (st.temp_cnode.flags &&& NODEMGMT_PREVGEN_BIT_BITMASK) ≠ 0
          /- Decrypt password. The field just after it is 0 -/
          emit (.logic_encryption_ctr_decrypt st.temp_cnode.password st.temp_cnode.ctr
            CHILD_PASSWORD_SIZE prev_gen_credential_flag)
          let mut password := env.logic_encryption_ctr_decrypt st.temp_cnode.password
            st.temp_cnode.ctr CHILD_PASSWORD_SIZE prev_gen_credential_flag
          /- If old generation password, convert it to unicode -/
          if prev_gen_credential_flag ≠ false then
            emit (.utils_ascii_to_unicode password NODEMGMT_OLD_GEN_ASCII_PWD_LENGTH)
            password := env.utils_ascii_to_unicode password NODEMGMT_OLD_GEN_ASCII_PWD_LENGTH
          /- Prepare packet to be sent, send it, wait for typing status -/
          let key_after :=
            if st.temp_cnode.keyAfterPassword = 0xFFFF then
              env.custom_fs_settings_get_device_setting .SETTINGS_CHAR_AFTER_PASS_PRESS
            else
              st.temp_cnode.keyAfterPassword
          keyb_type_string d env (cstr password) key_after st.usb_selected st.interface_id
          /- Move on -/
          return (some d.RETURN_OK, st.usb_selected)
        else
          if st.login_or_password_typed = false then
            return (some d.RETURN_NOK, st.usb_selected)
          else
            return (some d.RETURN_OK, st.usb_selected)
    else
      /- no branch of the loop body handles this value of state_machine -/
      keyb_output_loop d env first_line fuel st

/-- `logic_user_ask_for_credentials_keyb_output`: ask the user to type the
login and the password of a credential on a connected interface.  `fuel`
bounds the iterations of the `while (TRUE)` loop; the result is the value
returned (`none` if the loop is still running) and `*usb_selected`. -/
def logic_user_ask_for_credentials_keyb_output (d : Defines) (env : Env) (fuel : Nat)
    (parent_address child_address : Nat) (only_pwd_prompt : Bool) (usb_selected : Bool) :
    Run (Option Int × Bool) := do
  let interface_id := if usb_selected = false then 1 else 0
  /- Are we at least connected to anything? -/
  if (← poll_nothing_connected env) then
    return (some d.RETURN_NOK, usb_selected)
  /- Read nodes -/
  emit (.nodemgmt_read_parent_node parent_address)
  let temp_pnode := env.nodemgmt_read_parent_node parent_address
  emit (.nodemgmt_read_cred_child_node child_address)
  let temp_cnode := env.nodemgmt_read_cred_child_node child_address
  /- Prepare first line display (service / user), store it in the service field -/
  let mut service := temp_pnode.service
  if utils_strlen service + utils_strlen temp_cnode.login + 4 ≤ PARENT_SERVICE_ARRAY_SIZE then
    let parent_length := utils_strlen service
    service := write_at service parent_length [32]
    service := write_at service (parent_length + 1) [47]
    service := write_at service (parent_length + 2) [32]
    service := utils_strcpy_at service (parent_length + 3) temp_cnode.login
  /- Prepare prompt and state machine; if only password prompt was queried, go to
     dedicated state machine -/
  let state_machine := if only_pwd_prompt ≠ false then 2 else 0
  keyb_output_loop d env (cstr service) fuel
    ⟨state_machine, usb_selected, interface_id, false, temp_cnode⟩

/-- Lines 1059-1066: the first line `service / login` of the prompts is
composed in place in the `service` field of the parent node read, an array
of `PARENT_SERVICE_ARRAY_SIZE` code units; the result is the new content of the
field. -/
def keyb_first_line_buffer (service login : List Nat) : List Nat :=
  if utils_strlen service + utils_strlen login + 4 ≤ PARENT_SERVICE_ARRAY_SIZE then
    let parent_length := utils_strlen service
    let service := write_at service parent_length [32]
    let service := write_at service (parent_length + 1) [47]
    let service := write_at service (parent_length + 2) [32]
    utils_strcpy_at service (parent_length + 3) login
  else
    service

/-- What one pass through the body of the `while (TRUE)` loop of
`logic_user_ask_for_credentials_keyb_output` ends in: the loop goes on with new
values of the local variables, or the function returns `value`, with
`*usb_selected` as given. -/
inductive keyb_output_step_t
  | next (st : keyb_output_state)
  | returned (value : Int) (usb_selected : Bool)
  deriving DecidableEq, Repr

/-- The body of the `while (TRUE)` loop of
`logic_user_ask_for_credentials_keyb_output` (lines 1079-1310), one pass: the
text of `keyb_output_loop` with the next pass left to the caller. -/
def keyb_output_body (d : Defines) (env : Env) (first_line : List Nat)
    (st : keyb_output_state) : Run keyb_output_step_t := do
  if st.state_machine = 0 then
    let mut st := st
    /- How many interfaces connected? -/
    if (← poll_both_interfaces_connected env) then
      /- Both interface connected, ask user for selection -/
      let select_inteface_prompt_return :=
        env.gui_prompts_ask_for_one_line_confirmation (← get)
      emit (.gui_prompts_ask_for_one_line_confirmation .SELECT_OUT_INTEFACE_TEXT_ID
        false true st.usb_selected select_inteface_prompt_return)
      if select_inteface_prompt_return = .MINI_INPUT_RET_BACK then
        return .returned d.RETURN_BACK st.usb_selected
      else if select_inteface_prompt_return = .MINI_INPUT_RET_YES then
        st := { st with usb_selected := true, interface_id := 0 }
      else if select_inteface_prompt_return = .MINI_INPUT_RET_NO then
        st := { st with usb_selected := false, interface_id := 1 }
      else
        return .returned d.RETURN_OK st.usb_selected
    else if (← poll_bluetooth_connected env) then
      /- Magic numbers FTW -/
      st := { st with usb_selected := false, interface_id := 1 }
    else
      /- USB connected -/
      st := { st with usb_selected := true, interface_id := 0 }
    /- Move to next state -/
    return .next { st with state_machine := st.state_machine + 1 }
  else if st.state_machine = 1 then
    /- Check for presence of an actual login -/
    if st.temp_cnode.login.headD 0 = 0 then
      return .next { st with state_machine := st.state_machine + 1 }
    else
      /- Ask for login confirmation -/
      emit (.custom_fs_get_string_from_file .TYPE_LOGIN_TEXT_ID)
      let two_line_prompt_2 := env.custom_fs_get_string_from_file .TYPE_LOGIN_TEXT_ID
      let prompt_return := env.gui_prompts_ask_for_confirmation (← get)
      emit (.gui_prompts_ask_for_confirmation 2 [first_line, two_line_prompt_2]
        false true prompt_return)
      /- Approved, back, card removed... -/
      if prompt_return = .MINI_INPUT_RET_CARD_REMOVED then
        return .returned d.RETURN_OK st.usb_selected
      else if prompt_return = .MINI_INPUT_RET_BACK then
        /- Check for multiple interfaces connected -/
        if (← poll_both_interfaces_connected env) then
          return .next { st with state_machine := 0 }
        else
          /- No multiple interfaces connected, leave function -/
          return .returned d.RETURN_BACK st.usb_selected
      else
        let mut st := st
        if prompt_return = .MINI_INPUT_RET_YES then
          let key_after :=
            if st.temp_cnode.keyAfterLogin = 0xFFFF ∨
                (logic_user_get_user_security_flags env &&& USER_SEC_FLG_ADVANCED_MENU) = 0 then
              /- Use default device key press -/
              env.custom_fs_settings_get_device_setting .SETTINGS_CHAR_AFTER_LOGIN_PRESS
            else
              st.temp_cnode.keyAfterLogin
          keyb_type_string d env (cstr st.temp_cnode.login) key_after st.usb_selected
            st.interface_id
          /- Set bool -/
          st := { st with login_or_password_typed := true }
        /- Move on -/
        return .next { st with state_machine := st.state_machine + 1 }
  else if st.state_machine = 2 then
    /- Ask for password confirmation -/
    emit (.custom_fs_get_string_from_file .TYPE_PASSWORD_TEXT_ID)
    let two_line_prompt_2 := env.custom_fs_get_string_from_file .TYPE_PASSWORD_TEXT_ID
    let prompt_return := env.gui_prompts_ask_for_confirmation (← get)
    emit (.gui_prompts_ask_for_confirmation 2 [first_line, two_line_prompt_2]
      false true prompt_return)
    /- Approved, back, card removed... -/
    if prompt_return = .MINI_INPUT_RET_CARD_REMOVED then
      return .returned d.RETURN_OK st.usb_selected
    else if prompt_return = .MINI_INPUT_RET_BACK then
      /- Check for no login -/
      if st.temp_cnode.login.headD 0 = 0 then
        /- Check for multiple interfaces connected -/
        if (← poll_both_interfaces_connected env) then
          return .next { st with state_machine := 0 }
        else
          /- No login, no multiple interfaces connected, leave function -/
          return .returned d.RETURN_BACK st.usb_selected
      else
        return .next { st with state_machine := st.state_machine - 1 }
    else
      if prompt_return = .MINI_INPUT_RET_YES then
        /- Check for previous generation password -/
        let prev_gen_credential_flag : Bool :=
          (st.temp_cnode.flags &&& NODEMGMT_PREVGEN_BIT_BITMASK) ≠ 0
        /- Decrypt password. The field just after it is 0 -/
        emit (.logic_encryption_ctr_decrypt st.temp_cnode.password st.temp_cnode.ctr
          CHILD_PASSWORD_SIZE prev_gen_credential_flag)
        let mut password := env.logic_encryption_ctr_decrypt st.temp_cnode.password
          st.temp_cnode.ctr CHILD_PASSWORD_SIZE prev_gen_credential_flag
        /- If old generation password, convert it to unicode -/
        if prev_gen_credential_flag ≠ false then
          emit (.utils_ascii_to_unicode password NODEMGMT_OLD_GEN_ASCII_PWD_LENGTH)
          password := env.utils_ascii_to_unicode password NODEMGMT_OLD_GEN_ASCII_PWD_LENGTH
        /- Prepare packet to be sent, send it, wait for typing status -/
        let key_after :=
          if st.temp_cnode.keyAfterPassword = 0xFFFF then
            env.custom_fs_settings_get_device_setting .SETTINGS_CHAR_AFTER_PASS_PRESS
          else
            st.temp_cnode.keyAfterPassword
        keyb_type_string d env (cstr password) key_after st.usb_selected st.interface_id
        /- Move on -/
        return .returned d.RETURN_OK st.usb_selected
      else
        if st.login_or_password_typed = false then
          return .returned d.RETURN_NOK st.usb_selected
        else
          return .returned d.RETURN_OK st.usb_selected
  else
    /- no branch of the loop body handles this value of state_machine -/
    return .next st

/-- The `while (TRUE)` loop of `logic_user_ask_for_credentials_keyb_output` as
passes of `keyb_output_body`, at most `fuel` of them: `next st` when the loop
is still running after `fuel` passes, `st` being the local variables then. -/
def keyb_output_passes (d : Defines) (env : Env) (first_line : List Nat) :
    Nat → keyb_output_state → Run keyb_output_step_t
  | 0, st => return .next st
  | fuel + 1, st => do
    match (← keyb_output_body d env first_line st) with
    | .next st => keyb_output_passes d env first_line fuel st
    | .returned value usb_selected => return .returned value usb_selected

/-- What `keyb_output_loop` reports of the end of a pass. -/
def keyb_output_step_t.result : keyb_output_step_t → Option Int × Bool
  | .next st => (none, st.usb_selected)
  | .returned value usb_selected => (some value, usb_selected)

/-! ## `logic_user_manual_select_login` (logic_user.c, lines 879-1027) -/

def UINT16_MAX : Nat := 65535

/-- What the local buffer `temp_cnode` of state 3 holds: the buffer is read as
a parent node through `temp_pnode_pt`, as a child node through the cast to
`child_cred_node_t*`, and is all zeroes after the `memset`. -/
inductive node_buffer_t
  | parent_node (node : parent_cred_node_t)
  | child_node (node : child_cred_node_t)
  | zeroed
  deriving DecidableEq, Repr

/-- The local variables of `logic_user_manual_select_login`. -/
structure manual_select_state where
  chosen_service_addr : Nat
  chosen_login_addr : Nat
  only_password_prompt : Bool
  usb_interface_output : Bool
  nb_logins_for_cred : Nat
  state_machine : Nat
  deriving DecidableEq, Repr

/-- What one pass through the body of the `while (TRUE)` loop of
`logic_user_manual_select_login` ends in: the loop goes on with new values of
the local variables, or the function returns (`temp_cnode` is what the buffer
of state 3 holds at that point, when the return is in state 3), or the call to
`logic_user_ask_for_credentials_keyb_output` is still running. -/
inductive manual_select_step_t
  | next (st : manual_select_state)
  | returned (temp_cnode : Option node_buffer_t)
  | running
  deriving DecidableEq, Repr

/-- The body of the `while (TRUE)` loop of `logic_user_manual_select_login`
(lines 890-1025), one pass.  `keyb_fuel` bounds the loop of
`logic_user_ask_for_credentials_keyb_output`. -/
def manual_select_login_body (d : Defines) (env : Env) (keyb_fuel : Nat)
    (st : manual_select_state) : Run manual_select_step_t := do
  if st.state_machine = 0 then
    /- Ask user to select a service -/
    let chosen_service_addr := env.gui_prompts_service_selection_screen (← get)
    emit (.gui_prompts_service_selection_screen st.chosen_service_addr chosen_service_addr)
    /- No service was chosen or card removed -/
    if chosen_service_addr = NODE_ADDR_NULL then
      return .returned none
    /- Continue -/
    return .next { st with
      chosen_service_addr := chosen_service_addr
      nb_logins_for_cred := UINT16_MAX
      state_machine := st.state_machine + 1 }
  else if st.state_machine = 1 then
    let mut st := st
    /- See how many credentials there are for this service, only if we haven't done
       this before (we may be walking back...) -/
    if st.nb_logins_for_cred = UINT16_MAX then
      emit (.logic_database_get_number_of_creds_for_service st.chosen_service_addr true)
      let counted := env.logic_database_get_number_of_creds_for_service
        st.chosen_service_addr true
      st := { st with nb_logins_for_cred := counted.1, chosen_login_addr := counted.2 }
    /- More than one login -/
    if st.nb_logins_for_cred ≠ 1 then
      /- Here chosen_login_addr is populated with the first node -/
      let selected := env.gui_prompts_ask_for_login_select (← get)
      emit (.gui_prompts_ask_for_login_select st.chosen_service_addr st.chosen_login_addr
        selected.1 selected.2)
      st := { st with chosen_login_addr := selected.2 }
      if selected.1 = .MINI_INPUT_RET_BACK then
        return .next { st with state_machine := st.state_machine - 1 }
      else if selected.1 = .MINI_INPUT_RET_YES then
        return .next { st with state_machine := st.state_machine + 1 }
      else
        return .returned none
    else
      /- Card removed, user going back... exit -/
      if st.chosen_login_addr = NODE_ADDR_NULL then
        return .returned none
      else
        return .next { st with state_machine := st.state_machine + 1 }
  else if st.state_machine = 2 then
    /- Ask the user permission to enter login / password, check for back action -/
    let asked ← logic_user_ask_for_credentials_keyb_output d env keyb_fuel
      st.chosen_service_addr st.chosen_login_addr st.only_password_prompt
      st.usb_interface_output
    match asked.1 with
    | none => return .running
    | some user_prompt_return =>
      let st := { st with usb_interface_output := asked.2 }
      if user_prompt_return = d.RETURN_BACK then
        /- Depending on number of child nodes, go back in history -/
        if st.nb_logins_for_cred = 1 then
          /- Go back to service selection -/
          return .next { st with only_password_prompt := false, state_machine := 0 }
        else
          /- Go back to login selection -/
          return .next { st with
            only_password_prompt := false
            state_machine := st.state_machine - 1 }
      else if user_prompt_return = d.RETURN_NOK then
        /- We're either not connected to anything or user denied prompts to type
           credentials... ask him for credentials display -/
        return .next { st with state_machine := st.state_machine + 1 }
      else
        return .returned none
  else if st.state_machine = 3 then
    /- Fetch parent node to prepare prompt text -/
    emit (.nodemgmt_read_parent_node st.chosen_service_addr)
    let temp_pnode := env.nodemgmt_read_parent_node st.chosen_service_addr
    /- Ask the user if he wants to display credentials on screen -/
    emit (.custom_fs_get_string_from_file .QPROMPT_SNGL_DISP_CRED_TEXT_ID)
    let display_cred_prompt_text :=
      env.custom_fs_get_string_from_file .QPROMPT_SNGL_DISP_CRED_TEXT_ID
    let display_prompt_return := env.gui_prompts_ask_for_confirmation (← get)
    emit (.gui_prompts_ask_for_confirmation 2 [cstr temp_pnode.service, display_cred_prompt_text]
      false true display_prompt_return)
    if display_prompt_return = .MINI_INPUT_RET_BACK then
      /- If we aren't connected to anything, don't ask to type again and go back in
         history -/
      if (← poll_nothing_connected env) then
        /- Depending on number of child nodes, go back in history -/
        if st.nb_logins_for_cred = 1 then
          /- Go back to service selection -/
          return .next { st with state_machine := 0 }
        else
          /- Go back to login selection -/
          return .next { st with state_machine := 1 }
      else
        /- Otherwise go back to ask to type password -/
        return .next { st with
          only_password_prompt := true
          state_machine := st.state_machine - 1 }
    else if display_prompt_return = .MINI_INPUT_RET_YES then
      emit (.nodemgmt_read_cred_child_node st.chosen_login_addr)
      let temp_cnode := env.nodemgmt_read_cred_child_node st.chosen_login_addr
      emit (.logic_gui_display_login_password temp_cnode)
      /- memset(&temp_cnode, 0, sizeof(temp_cnode)) -/
      return .returned (some .zeroed)
    else
      return .returned (some (.parent_node temp_pnode))
  else
    /- no branch of the loop body handles this value of state_machine -/
    return .next st

/-- The `while (TRUE)` loop of `logic_user_manual_select_login`, at most `fuel`
passes: `next st` when the loop is still running after `fuel` passes. -/
def manual_select_login_loop (d : Defines) (env : Env) (keyb_fuel : Nat) :
    Nat → manual_select_state → Run manual_select_step_t
  | 0, st => return .next st
  | fuel + 1, st => do
    match (← manual_select_login_body d env keyb_fuel st) with
    | .next st => manual_select_login_loop d env keyb_fuel fuel st
    | .returned temp_cnode => return .returned temp_cnode
    | .running => return .running

/-- `logic_user_manual_select_login`: logic for finding a given login. -/
def logic_user_manual_select_login (d : Defines) (env : Env) (fuel keyb_fuel : Nat) :
    Run manual_select_step_t := do
  emit (.nodemgmt_get_starting_parent_addr_for_category d.NODEMGMT_STANDARD_CRED_TYPE_ID)
  let chosen_service_addr :=
    env.nodemgmt_get_starting_parent_addr_for_category d.NODEMGMT_STANDARD_CRED_TYPE_ID
  manual_select_login_loop d env keyb_fuel fuel
    ⟨chosen_service_addr, NODE_ADDR_NULL, false, true, 0, 0⟩

/-! ## Reading a trace -/

/-- The call is a database search. -/
def Event.is_database_search : Event → Bool
  | .logic_database_search_service .. => true
  | .logic_database_search_login_in_service .. => true
  | .logic_database_search_webauthn_userhandle_in_service .. => true
  | .logic_database_search_webauthn_credential_id_in_service .. => true
  | .logic_database_get_number_of_creds_for_service .. => true
  | _ => false

/-- The call reads a node of the database. -/
def Event.is_database_read : Event → Bool
  | .logic_database_fetch_encrypted_password .. => true
  | .logic_database_get_login_for_address .. => true
  | .logic_database_get_webauthn_username_for_address .. => true
  | .logic_database_get_webauthn_data_for_address .. => true
  | .logic_database_fill_get_cred_message_answer .. => true
  | .nodemgmt_read_parent_node .. => true
  | .nodemgmt_read_cred_child_node .. => true
  | _ => false

/-- The call is `logic_database_add_service`. -/
def Event.is_add_service : Event → Bool
  | .logic_database_add_service .. => true
  | _ => false

/-- The call adds or updates a credential (`logic_database_update_credential`,
`logic_database_add_credential_for_service`,
`logic_database_add_webauthn_credential_for_service`). -/
def Event.is_credential_write : Event → Bool
  | .logic_database_update_credential .. => true
  | .logic_database_add_credential_for_service .. => true
  | .logic_database_add_webauthn_credential_for_service .. => true
  | _ => false

/-- The call writes to the database. -/
def Event.is_database_write (e : Event) : Bool :=
  e.is_add_service || e.is_credential_write

/-- The call asks the user something and waits for the answer. -/
def Event.is_user_prompt : Event → Bool
  | .gui_prompts_ask_for_confirmation .. => true
  | .gui_prompts_ask_for_one_line_confirmation .. => true
  | .gui_prompts_ask_for_login_select .. => true
  | .gui_prompts_service_selection_screen .. => true
  | _ => false

/-- The call is `logic_encryption_ctr_encrypt`. -/
def Event.is_encrypt : Event → Bool
  | .logic_encryption_ctr_encrypt .. => true
  | _ => false

/-- The call is `logic_encryption_ctr_decrypt`. -/
def Event.is_decrypt : Event → Bool
  | .logic_encryption_ctr_decrypt .. => true
  | _ => false

/-- The call is `utils_ascii_to_unicode`. -/
def Event.is_ascii_to_unicode : Event → Bool
  | .utils_ascii_to_unicode .. => true
  | _ => false

/-- The call is `timer_delay_ms`. -/
def Event.is_delay : Event → Bool
  | .timer_delay_ms .. => true
  | _ => false

/-- The delay (in ms) of a `timer_delay_ms` call. -/
def Event.delay_ms : Event → Option Nat
  | .timer_delay_ms ms => some ms
  | _ => none

/-- The delays (in ms) applied during a run, in order. -/
def delays (t : List Event) : List Nat := t.filterMap Event.delay_ms

/-- The answer given to a `gui_prompts_ask_for_confirmation` prompt. -/
def Event.confirmation_answer : Event → Option mini_input_yes_no_ret_te
  | .gui_prompts_ask_for_confirmation _ _ _ _ a => some a
  | _ => none

/-- The answers given to the `gui_prompts_ask_for_confirmation` prompts of a
run, in order. -/
def confirmation_answers (t : List Event) : List mini_input_yes_no_ret_te :=
  t.filterMap Event.confirmation_answer

/-- The address returned by a `logic_database_add_service` call. -/
def Event.add_service_result : Event → Option Nat
  | .logic_database_add_service _ _ r => some r
  | _ => none

/-- The addresses returned by the `logic_database_add_service` calls of a run. -/
def add_service_results (t : List Event) : List Nat :=
  t.filterMap Event.add_service_result

/-- The value returned by a
`logic_database_add_webauthn_credential_for_service` call. -/
def Event.add_webauthn_credential_result : Event → Option Int
  | .logic_database_add_webauthn_credential_for_service _ _ _ _ _ _ _ r => some r
  | _ => none

/-- The values returned by the
`logic_database_add_webauthn_credential_for_service` calls of a run. -/
def add_webauthn_credential_results (t : List Event) : List Int :=
  t.filterMap Event.add_webauthn_credential_result

/-- The encrypted password and the counter that a call hands to the database
to be stored, if it is a call that stores a password. -/
def Event.password_written : Event → Option (List Nat × List Nat)
  | .logic_database_update_credential _ _ _ (some p) (some c) => some (p, c)
  | .logic_database_add_credential_for_service _ _ _ _ p c _ => some (p, c)
  | _ => none

/-- The previous-generation flag reported by a database fetch
(`logic_database_fetch_encrypted_password`,
`logic_database_fill_get_cred_message_answer`). -/
def Event.fetched_prev_gen_flag : Event → Option Bool
  | .logic_database_fetch_encrypted_password _ f => some f
  | .logic_database_fill_get_cred_message_answer _ f => some f
  | _ => none

/-- The previous-generation flags reported by the database fetches of a run. -/
def fetched_prev_gen_flags (t : List Event) : List Bool :=
  t.filterMap Event.fetched_prev_gen_flag

/-- The legacy flag handed to a `logic_encryption_ctr_decrypt` call. -/
def Event.decrypt_legacy_flag : Event → Option Bool
  | .logic_encryption_ctr_decrypt _ _ _ f => some f
  | _ => none

/-- The legacy flags handed to the `logic_encryption_ctr_decrypt` calls of a run. -/
def decrypt_legacy_flags (t : List Event) : List Bool :=
  t.filterMap Event.decrypt_legacy_flag

/-- The `nb_chars` argument of a `utils_ascii_to_unicode` call. -/
def Event.ascii_to_unicode_length : Event → Option Nat
  | .utils_ascii_to_unicode _ n => some n
  | _ => none

/-- The `nb_chars` arguments of the `utils_ascii_to_unicode` calls of a run. -/
def ascii_to_unicode_lengths (t : List Event) : List Nat :=
  t.filterMap Event.ascii_to_unicode_length

/-- Every `logic_encryption_ctr_decrypt` call of the trace carries the legacy
flag `flag`, and the `utils_ascii_to_unicode` calls of the trace are exactly
one per decrypt call with the legacy flag set, each over
NODEMGMT_OLD_GEN_ASCII_PWD_LENGTH characters. -/
def legacy_conversion_follows_flag (flag : Bool) (t : List Event) : Prop :=
  (∀ f ∈ decrypt_legacy_flags t, f = flag) ∧
  ascii_to_unicode_lengths t = (decrypt_legacy_flags t).filterMap
    (fun f => if f then some NODEMGMT_OLD_GEN_ASCII_PWD_LENGTH else none)

/-- The value `poll_both_interfaces_connected` returns after the trace `t`. -/
def poll_both_interfaces_connected_value (env : Env) (t : List Event) : Bool :=
  if env.logic_bluetooth_get_state t = true then
    env.logic_aux_mcu_is_usb_enumerated (t ++ [Event.logic_bluetooth_get_state true])
  else
    false

/-- The calls `poll_both_interfaces_connected` makes after the trace `t`. -/
def poll_both_interfaces_connected_calls (env : Env) (t : List Event) : List Event :=
  if env.logic_bluetooth_get_state t = true then
    [Event.logic_bluetooth_get_state true,
     Event.logic_aux_mcu_is_usb_enumerated
      (env.logic_aux_mcu_is_usb_enumerated (t ++ [Event.logic_bluetooth_get_state true]))]
  else
    [Event.logic_bluetooth_get_state false]

/-- The calls `keyb_type_string` makes after the trace `t`. -/
def keyb_type_string_calls (d : Defines) (env : Env) (text : List Nat) (key_after : Nat)
    (usb_selected : Bool) (interface_id : Nat) (t : List Event) : List Event :=
  ((keyb_type_string d env text key_after usb_selected interface_id).run t).2.drop t.length

/-- The call is `gui_prompts_ask_for_login_select`. -/
def Event.is_login_select : Event → Bool
  | .gui_prompts_ask_for_login_select .. => true
  | _ => false

/-- The call fetches a stored secret (an encrypted password or a private key)
from the database. -/
def Event.is_secret_fetch : Event → Bool
  | .logic_database_fetch_encrypted_password .. => true
  | .logic_database_get_webauthn_data_for_address .. => true
  | .logic_database_fill_get_cred_message_answer .. => true
  | _ => false

/-- The child address of which a call fetches the stored secret. -/
def Event.secret_fetch_address : Event → Option Nat
  | .logic_database_fetch_encrypted_password a _ => some a
  | .logic_database_get_webauthn_data_for_address a => some a
  | .logic_database_fill_get_cred_message_answer a _ => some a
  | _ => none

/-- The child addresses of which a run fetches the stored secret, in order. -/
def secret_fetch_addresses (t : List Event) : List Nat :=
  t.filterMap Event.secret_fetch_address

/-- The value drawn by a `rng_get_random_uint16_t` call. -/
def Event.random_value : Event → Option Nat
  | .rng_get_random_uint16_t r => some r
  | _ => none

/-- The values drawn from the random generator during a run, in order. -/
def random_values (t : List Event) : List Nat := t.filterMap Event.random_value

/-- The call sends a typing message to the transport. -/
def Event.is_typing_message : Event → Bool
  | .comms_aux_mcu_send_message .. => true
  | _ => false

/-- The user's answer is a refusal: neither YES, nor BACK, nor the removal of
the card. -/
def mini_input_yes_no_ret_te.is_refusal (a : mini_input_yes_no_ret_te) : Prop :=
  a ≠ .MINI_INPUT_RET_YES ∧ a ≠ .MINI_INPUT_RET_BACK ∧ a ≠ .MINI_INPUT_RET_CARD_REMOVED

/-- A typing message was sent during the run. -/
def typing_message_sent (t : List Event) : Bool := t.any Event.is_typing_message

/-- A password was decrypted during the run. -/
def password_decrypted (t : List Event) : Bool := t.any Event.is_decrypt

/-- The call is the interface selection prompt. -/
def Event.is_interface_selection : Event → Bool
  | .gui_prompts_ask_for_one_line_confirmation .SELECT_OUT_INTEFACE_TEXT_ID .. => true
  | _ => false

/-- The interface selection prompt was shown during the run. -/
def interface_selection_shown (t : List Event) : Bool := t.any Event.is_interface_selection

/-- The interface identifier of a typing message. -/
def Event.typing_interface : Event → Option Nat
  | .comms_aux_mcu_send_message _ _ _ interface_identifier => some interface_identifier
  | _ => none

/-- The interface identifiers of the typing messages of a run, in order. -/
def typing_interfaces (t : List Event) : List Nat := t.filterMap Event.typing_interface

/-- Every typing message of the trace goes to the interface `id`. -/
def types_only_to (id : Nat) (t : List Event) : Bool :=
  t.all (fun e => e.typing_interface.all (fun i => i == id))

/-- What a run of the typing loop that has returned `v` with the trace `t`
guarantees: if a typing message was sent `v` is RETURN_OK or RETURN_BACK, and
if a password was decrypted `v` is RETURN_OK. -/
def typed_run_result (d : Defines) (res : Option Int × Bool) (t : List Event) : Prop :=
  ∀ v, res.1 = some v →
    (typing_message_sent t = true → v = d.RETURN_OK ∨ v = d.RETURN_BACK) ∧
    (password_decrypted t = true → v = d.RETURN_OK)

/-- The call displays the warning that some characters could not be typed. -/
def Event.is_typing_warning : Event → Bool
  | .gui_prompts_display_information_on_screen_and_wait .COULDNT_TYPE_CHARS_TEXT_ID => true
  | _ => false

/-- The typing status that the transport reported in a call. -/
def Event.typing_status : Event → Option Bool
  | .comms_aux_mcu_active_wait could_type_all_symbols => some could_type_all_symbols
  | _ => none

/-- The typing statuses that the transport reported in a run, in order. -/
def typing_statuses (t : List Event) : List Bool := t.filterMap Event.typing_status

/-- The call displays the three-line notification of a login. -/
def Event.is_login_notification : Event → Bool
  | .gui_prompts_display_3line_information_on_screen .. => true
  | _ => false

/-- The call hands a password (and counter) or null pointers to
`logic_database_update_credential`. -/
def Event.updated_password : Event → Option (Option (List Nat) × Option (List Nat))
  | .logic_database_update_credential _ _ _ password ctr => some (password, ctr)
  | _ => none

/-- The calls a run makes after the first `n` calls of its trace. -/
def calls_after (n : Nat) (t : List Event) : List Event := t.drop n

/-- The value of `state_machine` with which the loop of
`logic_user_manual_select_login` goes on is one of 0, 1, 2, 3. -/
def manual_select_step_t.state_in_range : manual_select_step_t → Bool
  | .next st => decide (st.state_machine ∈ [0, 1, 2, 3])
  | _ => true

/-- The value of `state_machine` with which the loop of
`logic_user_ask_for_credentials_keyb_output` goes on is one of 0, 1, 2. -/
def keyb_output_step_t.state_in_range : keyb_output_step_t → Bool
  | .next st => decide (st.state_machine ∈ [0, 1, 2])
  | .returned .. => true

/-- The call looks a credential id up under a relying party. -/
def Event.is_credential_id_search : Event → Bool
  | .logic_database_search_webauthn_credential_id_in_service .. => true
  | _ => false

/-! ## Concrete scenarios

Sample values of the constants and a sample device, on which the handlers can
be evaluated. -/

/-- Sample values of the constants: `RETURN_OK = 0`, `RETURN_NOK = -1`,
`RETURN_BACK = -2`, credential type ids 0 and 1, two-byte message fields. -/
def scenario_defines : Defines :=
  { RETURN_OK := 0, RETURN_NOK := -1, RETURN_BACK := -2,
    NODEMGMT_STANDARD_CRED_TYPE_ID := 0, NODEMGMT_WEBAUTHN_CRED_TYPE_ID := 1,
    SIZEOF_INTERFACE_IDENTIFIER := 2, SIZEOF_DELAY_BETWEEN_TYPES := 2 }

/-- A device with the smartcard unlocked, outside management mode, no security
flag set, an empty database with free room, a user who answers YES to every
prompt, USB enumerated and Bluetooth off, and a random generator that returns
`0xFFFF`. -/
def scenario_env : Env where
  logic_security_is_smc_inserted_unlocked := true
  logic_security_is_management_mode_set := false
  logic_user_cur_sec_preferences := 0
  logic_database_search_service := fun _ _ _ => NODE_ADDR_NULL
  logic_database_search_login_in_service := fun _ _ _ => NODE_ADDR_NULL
  logic_database_search_webauthn_userhandle_in_service := fun _ _ => NODE_ADDR_NULL
  logic_database_search_webauthn_credential_id_in_service := fun _ _ => NODE_ADDR_NULL
  logic_database_get_number_of_creds_for_service := fun _ _ => (0, NODE_ADDR_NULL)
  logic_database_fetch_encrypted_password := fun _ => ⟨[], [], false⟩
  logic_database_get_login_for_address := fun _ => []
  logic_database_get_webauthn_username_for_address := fun _ => []
  logic_database_get_webauthn_data_for_address := fun _ => ⟨[], [], 0, []⟩
  logic_database_fill_get_cred_message_answer := fun _ m => ⟨0, m, [], false⟩
  nodemgmt_read_parent_node := fun _ => ⟨0, [97, 0, 0, 0, 0, 0, 0, 0]⟩
  nodemgmt_read_cred_child_node := fun _ => ⟨0, [98, 0], 0xFFFF, 0xFFFF, [0, 0, 1], [99, 0]⟩
  nodemgmt_get_starting_parent_addr_for_category := fun _ => NODE_ADDR_NULL
  logic_database_add_service := fun _ _ => 2
  logic_database_add_credential_for_service := fun _ _ _ _ _ _ => 0
  logic_database_add_webauthn_credential_for_service := fun _ _ _ _ _ _ _ => 0
  logic_encryption_ctr_encrypt := fun data _ => (data, [0, 0, 1])
  logic_encryption_ctr_decrypt := fun data _ _ _ => data
  utils_ascii_to_unicode := fun data _ => data
  utils_strncpy := fun _ src _ => src
  utils_custchar_strncmp := fun a b _ => if a = b then 0 else 1
  rng_fill_array := fun _ n => List.replicate n 0
  rng_get_random_uint16_t := fun _ => 0xFFFF
  custom_fs_get_string_from_file := fun _ => []
  custom_fs_get_keyboard_symbols_for_unicode_string := fun s _ => (0, s)
  custom_fs_settings_get_device_setting := fun _ => 0
  gui_prompts_ask_for_confirmation := fun _ => .MINI_INPUT_RET_YES
  gui_prompts_ask_for_one_line_confirmation := fun _ => .MINI_INPUT_RET_YES
  gui_prompts_ask_for_login_select := fun _ => (.MINI_INPUT_RET_YES, NODE_ADDR_NULL)
  gui_prompts_service_selection_screen := fun _ => NODE_ADDR_NULL
  logic_bluetooth_get_state := fun _ => false
  logic_aux_mcu_is_usb_enumerated := fun _ => true
  comms_aux_mcu_active_wait := fun _ => true

/-- The sample device with the smartcard removed or locked. -/
def scenario_env_locked : Env :=
  { scenario_env with logic_security_is_smc_inserted_unlocked := false }

/-- The sample device holding the service at address 2, with no login under it. -/
def scenario_env_service_present : Env :=
  { scenario_env with logic_database_search_service := fun _ _ _ => 2 }

/-- The sample device holding the relying party at address 2 and, under it, a
credential with the requested user handle at address 4. -/
def scenario_env_duplicate_handle : Env :=
  { scenario_env with
    logic_database_search_service := fun _ _ _ => 2
    logic_database_search_webauthn_userhandle_in_service := fun _ _ => 4 }

/-- The sample device with a user who answers NO to every prompt. -/
def scenario_env_user_declines : Env :=
  { scenario_env with gui_prompts_ask_for_confirmation := fun _ => .MINI_INPUT_RET_NO }

/-- The sample device with a database that has no free node left. -/
def scenario_env_storage_full : Env :=
  { scenario_env with logic_database_add_service := fun _ _ => NODE_ADDR_NULL }

/-- The sample device whose child nodes carry the previous-generation bit. -/
def scenario_env_legacy_child : Env :=
  { scenario_env with
    nodemgmt_read_cred_child_node := fun _ =>
      ⟨NODEMGMT_PREVGEN_BIT_BITMASK, [98, 0], 0xFFFF, 0xFFFF, [0, 0, 1], [99, 0]⟩ }

/-- The sample device holding a relying party at address 2 with two
credentials, at addresses 4 and 6, whose credential ids are `[4]` and `[6]`;
the user picks the credential at address 6 in the login selection. -/
def scenario_env_two_webauthn_credentials : Env :=
  { scenario_env with
    logic_database_search_service := fun _ _ _ => 2
    logic_database_get_number_of_creds_for_service := fun _ _ => (2, 4)
    logic_database_search_webauthn_credential_id_in_service := fun _ id =>
      if id = [4] then 4 else if id = [6] then 6 else NODE_ADDR_NULL
    logic_database_get_webauthn_data_for_address := fun a => ⟨[a], [7], 0, [0, 0, 1]⟩
    gui_prompts_ask_for_login_select := fun _ => (.MINI_INPUT_RET_YES, 6) }

/-- The sample device on which the user picks the service at address 2, which
has one login, at address 4, refuses both typing prompts and accepts the
display of the credential on the screen. -/
def scenario_env_manual_one_login : Env :=
  { scenario_env with
    gui_prompts_service_selection_screen := fun _ => 2
    logic_database_get_number_of_creds_for_service := fun _ _ => (1, 4)
    gui_prompts_ask_for_confirmation := fun h =>
      if h.getLast? =
          some (.custom_fs_get_string_from_file .QPROMPT_SNGL_DISP_CRED_TEXT_ID) then
        .MINI_INPUT_RET_YES
      else .MINI_INPUT_RET_NO }

/-- The sample device with nothing connected and a user who answers BACK to
every confirmation prompt. -/
def scenario_env_back_unconnected : Env :=
  { scenario_env with
    gui_prompts_ask_for_confirmation := fun _ => .MINI_INPUT_RET_BACK
    logic_aux_mcu_is_usb_enumerated := fun _ => false }

/-- The sample device with a user who answers YES to the first confirmation
prompt and BACK to every later one. -/
def scenario_env_login_typed_then_back : Env :=
  { scenario_env with
    gui_prompts_ask_for_confirmation := fun h =>
      if confirmation_answers h = [] then .MINI_INPUT_RET_YES else .MINI_INPUT_RET_BACK }

/-- The sample device with both Bluetooth and USB connected and a user who
answers YES to the first interface selection and to the first confirmation
prompt, and BACK to every later prompt. -/
def scenario_env_both_connected_walks_back : Env :=
  { scenario_env with
    logic_bluetooth_get_state := fun _ => true
    gui_prompts_ask_for_one_line_confirmation := fun h =>
      if interface_selection_shown h = false then .MINI_INPUT_RET_YES
      else .MINI_INPUT_RET_BACK
    gui_prompts_ask_for_confirmation := fun h =>
      if confirmation_answers h = [] then .MINI_INPUT_RET_YES else .MINI_INPUT_RET_BACK }

/-- The sample device with Bluetooth connected and USB not enumerated. -/
def scenario_env_bluetooth_only : Env :=
  { scenario_env with
    logic_bluetooth_get_state := fun _ => true
    logic_aux_mcu_is_usb_enumerated := fun _ => false }

/-- The sample device holding the service at address 2, with no login under
it, and a random generator that returns 0. -/
def scenario_env_login_absent_low_random : Env :=
  { scenario_env_service_present with rng_get_random_uint16_t := fun _ => 0 }

/-- The sample device holding the service at address 2 with two logins, at
addresses 4 and 6; the user picks the login at address 6 in the login
selection. -/
def scenario_env_two_logins : Env :=
  { scenario_env with
    logic_database_search_service := fun _ _ _ => 2
    logic_database_get_number_of_creds_for_service := fun _ _ => (2, 4)
    gui_prompts_ask_for_login_select := fun _ => (.MINI_INPUT_RET_YES, 6) }

/-- The sample device holding the service at address 2 with one login, at
address 4, which every login search finds. -/
def scenario_env_login_present : Env :=
  { scenario_env with
    logic_database_search_service := fun _ _ _ => 2
    logic_database_search_login_in_service := fun _ _ _ => 4
    logic_database_get_number_of_creds_for_service := fun _ _ => (1, 4) }

/-- The sample device holding the login at address 4, with the
`USER_SEC_FLG_LOGIN_CONF` flag set and a user who answers NO to every
confirmation prompt. -/
def scenario_env_login_present_user_declines : Env :=
  { scenario_env_login_present with
    logic_user_cur_sec_preferences := USER_SEC_FLG_LOGIN_CONF
    gui_prompts_ask_for_confirmation := fun _ => .MINI_INPUT_RET_NO }

/-- The sample device with a transport that reports that not all symbols
could be typed. -/
def scenario_env_partial_typing : Env :=
  { scenario_env with comms_aux_mcu_active_wait := fun _ => false }

/-- The sample device with both Bluetooth and USB connected and a user who
answers BACK to the interface selection. -/
def scenario_env_both_connected_user_backs : Env :=
  { scenario_env with
    logic_bluetooth_get_state := fun _ => true
    gui_prompts_ask_for_one_line_confirmation := fun _ => .MINI_INPUT_RET_BACK }

/-- The sample device with USB enumerated, on which Bluetooth connects while
the first confirmation prompt is on the screen; the user answers YES to that
prompt and BACK to every later prompt. -/
def scenario_env_bluetooth_connects_late : Env :=
  { scenario_env with
    logic_bluetooth_get_state := fun h => decide (confirmation_answers h ≠ [])
    gui_prompts_ask_for_one_line_confirmation := fun _ => .MINI_INPUT_RET_BACK
    gui_prompts_ask_for_confirmation := fun h =>
      if confirmation_answers h = [] then .MINI_INPUT_RET_YES else .MINI_INPUT_RET_BACK }

/-- An empty answer message. -/
def scenario_msg : hid_message_t := ⟨0, 0, [], []⟩

/-! ## Running a handler: unfolding lemmas -/

/-- A conditional between two runs, applied to a trace. -/
theorem run_ite {α : Type} (c : Prop) [Decidable c] (a b : Run α) (t : List Event) :
    (if c then a else b) t = if c then a t else b t := by
  split_ifs <;> rfl

/-- The random delay of the first tier stays below 2048 ms above its base. -/
theorem and_0x07FF_lt (r : Nat) : r &&& 0x07FF < 2048 :=
  Nat.and_lt_two_pow r (by norm_num : 0x07FF < 2 ^ 11)

/-- The random delay of the second tier stays below 4096 ms above its base. -/
theorem and_0x0FFF_lt (r : Nat) : r &&& 0x0FFF < 4096 :=
  Nat.and_lt_two_pow r (by norm_num : 0x0FFF < 2 ^ 12)

/-! ## The claims -/

/-- C1: when `logic_security_is_smc_inserted_unlocked` reports FALSE, each of
the five handlers returns its denial value (-1, RETURN_NOK,
FIDO2_USER_NOT_PRESENT, -1, -1) and leaves the trace of calls as it found it:
no database search, read or write, no prompt, no encryption or decryption and
no delay is performed; the caller's buffers are returned untouched. -/
theorem C1_locked_smartcard_denies_without_any_call (d : Defines) (env : Env)
    (h : env.logic_security_is_smc_inserted_unlocked = false) (t : List Event) :
    (∀ service login password,
      (logic_user_check_credential d env service login password).run t = (-1, t)) ∧
    (∀ service login desc third password,
      (logic_user_store_credential d env service login desc third password).run t
        = (d.RETURN_NOK, t)) ∧
    (∀ rp_id user_handle user_name display_name private_key credential_id,
      (logic_user_store_webauthn_credential d env rp_id user_handle user_name display_name
        private_key credential_id).run t = (.FIDO2_USER_NOT_PRESENT, t)) ∧
    (∀ rp_id out allow_list allow_list_length,
      (logic_user_get_webauthn_credential_key_for_rp d env rp_id out allow_list
        allow_list_length).run t = ((-1, out), t)) ∧
    (∀ service login send_msg,
      (logic_user_usb_get_credential d env service login send_msg).run t
        = ((-1, send_msg), t)) := by
  refine ⟨?_, ?_, ?_, ?_, ?_⟩
  · intro service login password
    simp [logic_user_check_credential, h, StateT.run, pure, StateT.pure]
  · intro service login desc third password
    simp [logic_user_store_credential, h, StateT.run, pure, StateT.pure]
  · intro rp_id user_handle user_name display_name private_key credential_id
    simp [logic_user_store_webauthn_credential, h, StateT.run, pure, StateT.pure]
  · intro rp_id out allow_list allow_list_length
    simp [logic_user_get_webauthn_credential_key_for_rp, h, StateT.run, pure, StateT.pure]
  · intro service login send_msg
    simp [logic_user_usb_get_credential, h, StateT.run, pure, StateT.pure]

/-- C1, on the sample device with the smartcard locked: a credential lookup
returns -1 and makes no call. -/
theorem C1_locked_smartcard_witness :
    scenario_env_locked.logic_security_is_smc_inserted_unlocked = false ∧
    (logic_user_usb_get_credential scenario_defines scenario_env_locked [102, 111, 111] none
      scenario_msg).run [] = ((-1, scenario_msg), []) :=
  ⟨rfl, (C1_locked_smartcard_denies_without_any_call scenario_defines scenario_env_locked
    rfl []).2.2.2.2 [102, 111, 111] none scenario_msg⟩

/-- C2, as stated, fails: on the sample device (service absent, random value
`0xFFFF`) the lookup is denied after a delay of 3047 ms, which is not below
1750 ms. -/
theorem C2_absent_service_delay_reaches_3047 :
    ((logic_user_usb_get_credential scenario_defines scenario_env [102, 111, 111] none
        scenario_msg).run []).1.1 = -1 ∧
    delays ((logic_user_usb_get_credential scenario_defines scenario_env [102, 111, 111] none
        scenario_msg).run []).2 = [3047] ∧
    ¬ (∀ ms ∈ delays ((logic_user_usb_get_credential scenario_defines scenario_env
        [102, 111, 111] none scenario_msg).run []).2, 1000 ≤ ms ∧ ms < 1750) := by
  decide

/-- C2, amended: when the service does not exist, every delay that
`logic_user_usb_get_credential` applies is at least 1000 ms and strictly less
than 3048 ms, for every value of the 16-bit random generator; past the
smartcard check the handler returns -1 after exactly one delay, of
`1000 + (r & 0x07FF)` ms, `r` being the random value drawn. -/
theorem C2_absent_service_delay_bounds (d : Defines) (env : Env) (service : List Nat)
    (login : Option (List Nat)) (send_msg : hid_message_t)
    (hs : env.logic_database_search_service (local_string_copy service PARENT_SERVICE_ARRAY_SIZE)
      true d.NODEMGMT_STANDARD_CRED_TYPE_ID = NODE_ADDR_NULL) :
    let r := (logic_user_usb_get_credential d env service login send_msg).run []
    (∀ ms ∈ delays r.2, 1000 ≤ ms ∧ ms < 3048) ∧
    (env.logic_security_is_smc_inserted_unlocked = true →
      r.1.1 = -1 ∧
      delays r.2 =
        [1000 + ((env.rng_get_random_uint16_t [Event.logic_database_search_service
          (local_string_copy service PARENT_SERVICE_ARRAY_SIZE) true
          d.NODEMGMT_STANDARD_CRED_TYPE_ID] % 65536) &&& 0x07FF)]) := by
  intro r
  have hr : r = (logic_user_usb_get_credential d env service login send_msg).run [] := rfl
  clear_value r
  have hb := and_0x07FF_lt (env.rng_get_random_uint16_t [Event.logic_database_search_service
        (local_string_copy service PARENT_SERVICE_ARRAY_SIZE) true
        d.NODEMGMT_STANDARD_CRED_TYPE_ID] % 65536)
  simp only [logic_user_usb_get_credential, emit, StateT.run, bind, StateT.bind, pure,
    StateT.pure, modify, modifyGet, MonadStateOf.modifyGet, StateT.modifyGet, get, getThe,
    MonadStateOf.get, StateT.get, run_ite, List.nil_append, List.cons_append, List.append_assoc,
    List.singleton_append, hs, if_true] at hr
  split_ifs at hr <;> subst hr
  · simp_all [delays]
  · simp only [delays, Event.delay_ms, List.filterMap_cons, List.filterMap_nil,
      List.mem_singleton, forall_eq, implies_true, and_self, and_true]
    omega

/-- C2, amended, on the sample device: the service is absent, the lookup is
denied after one delay, of 3047 ms. -/
theorem C2_absent_service_delay_witness :
    scenario_env.logic_database_search_service
      (local_string_copy [102, 111, 111] PARENT_SERVICE_ARRAY_SIZE) true
      scenario_defines.NODEMGMT_STANDARD_CRED_TYPE_ID = NODE_ADDR_NULL ∧
    delays ((logic_user_usb_get_credential scenario_defines scenario_env
      [102, 111, 111] none scenario_msg).run []).2 = [3047] ∧
    ∀ ms ∈ delays ((logic_user_usb_get_credential scenario_defines scenario_env
      [102, 111, 111] none scenario_msg).run []).2, 1000 ≤ ms ∧ ms < 3048 :=
  ⟨rfl, by decide, (C2_absent_service_delay_bounds scenario_defines scenario_env
    [102, 111, 111] none scenario_msg rfl).1⟩

/-- C3, as stated, fails: on the sample device holding the service but not the
login (random value `0xFFFF`) the lookup is denied after a delay of 7095 ms,
which is not below 4000 ms. -/
theorem C3_absent_login_delay_reaches_7095 :
    ((logic_user_usb_get_credential scenario_defines scenario_env_service_present
        [102, 111, 111] (some [98, 111, 98]) scenario_msg).run []).1.1 = -1 ∧
    delays ((logic_user_usb_get_credential scenario_defines scenario_env_service_present
        [102, 111, 111] (some [98, 111, 98]) scenario_msg).run []).2 = [7095] ∧
    ¬ (∀ ms ∈ delays ((logic_user_usb_get_credential scenario_defines
        scenario_env_service_present [102, 111, 111] (some [98, 111, 98])
        scenario_msg).run []).2, 3000 ≤ ms ∧ ms < 4000) := by
  decide

/-- C3, amended: when the service exists and the login handed in does not
exist under it, every delay that `logic_user_usb_get_credential` applies is at
least 3000 ms and strictly less than 7096 ms, for every value of the 16-bit
random generator; past the smartcard check the handler returns -1 after
exactly one delay, of `3000 + (r & 0x0FFF)` ms, `r` being the one random
value drawn, which is the answer of the generator after the service search,
the count of the logins and the login search. -/
theorem C3_absent_login_delay_bounds (d : Defines) (env : Env) (service login : List Nat)
    (send_msg : hid_message_t)
    (hs : env.logic_database_search_service (local_string_copy service PARENT_SERVICE_ARRAY_SIZE)
      true d.NODEMGMT_STANDARD_CRED_TYPE_ID ≠ NODE_ADDR_NULL)
    (hl : env.logic_database_search_login_in_service
      (env.logic_database_search_service (local_string_copy service PARENT_SERVICE_ARRAY_SIZE)
        true d.NODEMGMT_STANDARD_CRED_TYPE_ID)
      (local_string_copy login CHILD_LOGIN_ARRAY_SIZE)
      (!env.logic_security_is_management_mode_set) = NODE_ADDR_NULL) :
    let r := (logic_user_usb_get_credential d env service (some login) send_msg).run []
    (∀ ms ∈ delays r.2, 3000 ≤ ms ∧ ms < 7096) ∧
    (env.logic_security_is_smc_inserted_unlocked = true →
      r.1.1 = -1 ∧
      random_values r.2 =
        [env.rng_get_random_uint16_t
          [Event.logic_database_search_service
            (local_string_copy service PARENT_SERVICE_ARRAY_SIZE) true
            d.NODEMGMT_STANDARD_CRED_TYPE_ID,
           Event.logic_database_get_number_of_creds_for_service
            (env.logic_database_search_service
              (local_string_copy service PARENT_SERVICE_ARRAY_SIZE) true
              d.NODEMGMT_STANDARD_CRED_TYPE_ID) (!env.logic_security_is_management_mode_set),
           Event.logic_database_search_login_in_service
            (env.logic_database_search_service
              (local_string_copy service PARENT_SERVICE_ARRAY_SIZE) true
              d.NODEMGMT_STANDARD_CRED_TYPE_ID)
            (local_string_copy login CHILD_LOGIN_ARRAY_SIZE)
            (!env.logic_security_is_management_mode_set)] % 65536] ∧
      delays r.2 =
        [3000 + ((env.rng_get_random_uint16_t
          [Event.logic_database_search_service
            (local_string_copy service PARENT_SERVICE_ARRAY_SIZE) true
            d.NODEMGMT_STANDARD_CRED_TYPE_ID,
           Event.logic_database_get_number_of_creds_for_service
            (env.logic_database_search_service
              (local_string_copy service PARENT_SERVICE_ARRAY_SIZE) true
              d.NODEMGMT_STANDARD_CRED_TYPE_ID) (!env.logic_security_is_management_mode_set),
           Event.logic_database_search_login_in_service
            (env.logic_database_search_service
              (local_string_copy service PARENT_SERVICE_ARRAY_SIZE) true
              d.NODEMGMT_STANDARD_CRED_TYPE_ID)
            (local_string_copy login CHILD_LOGIN_ARRAY_SIZE)
            (!env.logic_security_is_management_mode_set)] % 65536) &&& 0x0FFF)]) := by
  intro r
  have hr : r = (logic_user_usb_get_credential d env service (some login) send_msg).run [] :=
    rfl
  clear_value r
  have hb := fun rnd => and_0x0FFF_lt rnd
  have hm := fun n : Nat => Nat.mod_lt n (by norm_num : 65536 > 0)
  simp only [NODE_ADDR_NULL] at hs hl
  simp only [logic_user_usb_get_credential, emit, StateT.run, bind, StateT.bind, pure,
    StateT.pure, modify, modifyGet, MonadStateOf.modifyGet, StateT.modifyGet, get, getThe,
    MonadStateOf.get, StateT.get, run_ite, List.nil_append, List.cons_append, List.append_assoc,
    List.singleton_append, NODE_ADDR_NULL, hs, hl, Option.map, if_true, if_false, ne_eq,
    not_false_eq_true, reduceCtorEq, true_or] at hr
  split_ifs at hr <;> subst hr
  · simp_all [delays]
  · refine ⟨?_, fun _ => ⟨rfl, rfl, rfl⟩⟩
    intro ms hms
    simp only [delays, Event.delay_ms, List.filterMap_cons, List.filterMap_nil,
      List.mem_singleton] at hms
    subst hms
    have := hb (env.rng_get_random_uint16_t
      [Event.logic_database_search_service (local_string_copy service PARENT_SERVICE_ARRAY_SIZE)
        true d.NODEMGMT_STANDARD_CRED_TYPE_ID,
       Event.logic_database_get_number_of_creds_for_service
        (env.logic_database_search_service (local_string_copy service PARENT_SERVICE_ARRAY_SIZE)
          true d.NODEMGMT_STANDARD_CRED_TYPE_ID) (!env.logic_security_is_management_mode_set),
       Event.logic_database_search_login_in_service
        (env.logic_database_search_service (local_string_copy service PARENT_SERVICE_ARRAY_SIZE)
          true d.NODEMGMT_STANDARD_CRED_TYPE_ID)
        (local_string_copy login CHILD_LOGIN_ARRAY_SIZE)
        (!env.logic_security_is_management_mode_set)] % 65536)
    omega

/-- C3, amended, on the sample device holding the service but not the login:
the lookup is denied after one delay, of 7095 ms, the value drawn being
`0xFFFF`. -/
theorem C3_absent_login_delay_witness :
    scenario_env_service_present.logic_database_search_service
      (local_string_copy [102, 111, 111] PARENT_SERVICE_ARRAY_SIZE) true
      scenario_defines.NODEMGMT_STANDARD_CRED_TYPE_ID ≠ NODE_ADDR_NULL ∧
    delays ((logic_user_usb_get_credential scenario_defines scenario_env_service_present
      [102, 111, 111] (some [98, 111, 98]) scenario_msg).run []).2 = [7095] ∧
    (∀ ms ∈ delays ((logic_user_usb_get_credential scenario_defines
      scenario_env_service_present [102, 111, 111] (some [98, 111, 98])
      scenario_msg).run []).2, 3000 ≤ ms ∧ ms < 7096) ∧
    random_values ((logic_user_usb_get_credential scenario_defines
      scenario_env_service_present [102, 111, 111] (some [98, 111, 98])
      scenario_msg).run []).2 = [0xFFFF % 65536] :=
  ⟨by decide, by decide, (C3_absent_login_delay_bounds scenario_defines
    scenario_env_service_present [102, 111, 111] [98, 111, 98] scenario_msg (by decide)
    rfl).1,
    ((C3_absent_login_delay_bounds scenario_defines
    scenario_env_service_present [102, 111, 111] [98, 111, 98] scenario_msg (by decide)
    rfl).2 rfl).2.1⟩

/-- C4, as stated, fails: on the sample device, the registration denied
because the user handle already exists and the registration denied because
the user answers NO return the same code, FIDO2_OPERATION_DENIED. -/
theorem C4_duplicate_code_is_the_no_approval_code :
    ((logic_user_store_webauthn_credential scenario_defines scenario_env_duplicate_handle
        [101] [1, 2] [117] [100] [7] [9]).run []).1 = .FIDO2_OPERATION_DENIED ∧
    ((logic_user_store_webauthn_credential scenario_defines scenario_env_user_declines
        [101] [1, 2] [117] [100] [7] [9]).run []).1 = .FIDO2_OPERATION_DENIED ∧
    ¬ (((logic_user_store_webauthn_credential scenario_defines scenario_env_duplicate_handle
        [101] [1, 2] [117] [100] [7] [9]).run []).1 ≠
      ((logic_user_store_webauthn_credential scenario_defines scenario_env_user_declines
        [101] [1, 2] [117] [100] [7] [9]).run []).1) := by
  decide

/-- C4, amended: `logic_user_store_webauthn_credential` returns
FIDO2_OPERATION_DENIED when it denies a registration because the user handle
already exists under the relying party, the same code as when the
confirmation prompt is not answered YES; when storage is exhausted (the
service or the credential could not be added) it returns
FIDO2_STORAGE_EXHAUSTED, which is a different code. -/
theorem C4_denial_codes (d : Defines) (env : Env)
    (rp_id user_handle user_name display_name private_key credential_id : List Nat) :
    let r := (logic_user_store_webauthn_credential d env rp_id user_handle user_name
      display_name private_key credential_id).run []
    (env.logic_security_is_smc_inserted_unlocked = true →
      env.logic_database_search_service rp_id true d.NODEMGMT_WEBAUTHN_CRED_TYPE_ID
        ≠ NODE_ADDR_NULL →
      env.logic_database_search_webauthn_userhandle_in_service
        (env.logic_database_search_service rp_id true d.NODEMGMT_WEBAUTHN_CRED_TYPE_ID)
        user_handle ≠ NODE_ADDR_NULL →
      r.1 = .FIDO2_OPERATION_DENIED) ∧
    (∀ a ∈ confirmation_answers r.2, a ≠ .MINI_INPUT_RET_YES →
      r.1 = .FIDO2_OPERATION_DENIED) ∧
    (NODE_ADDR_NULL ∈ add_service_results r.2 → r.1 = .FIDO2_STORAGE_EXHAUSTED) ∧
    (∀ x ∈ add_webauthn_credential_results r.2, x ≠ d.RETURN_OK →
      r.1 = .FIDO2_STORAGE_EXHAUSTED) ∧
    fido2_return_code_te.FIDO2_OPERATION_DENIED ≠ fido2_return_code_te.FIDO2_STORAGE_EXHAUSTED := by
  intro r
  have hr : r = (logic_user_store_webauthn_credential d env rp_id user_handle user_name
      display_name private_key credential_id).run [] := rfl
  clear_value r
  simp only [logic_user_store_webauthn_credential, NODE_ADDR_NULL, emit, StateT.run, bind,
    StateT.bind, pure, StateT.pure, modify, modifyGet, MonadStateOf.modifyGet,
    StateT.modifyGet, get, getThe, MonadStateOf.get, StateT.get, run_ite, List.nil_append,
    List.cons_append, List.append_assoc, List.singleton_append] at hr
  split_ifs at hr <;> subst hr <;>
    simp_all [confirmation_answers, add_service_results, add_webauthn_credential_results,
      Event.confirmation_answer, Event.add_service_result, Event.add_webauthn_credential_result,
      NODE_ADDR_NULL, @eq_comm Nat 0]

/-- C4, amended, on the sample device that already holds the user handle: the
registration is denied with FIDO2_OPERATION_DENIED. -/
theorem C4_denial_codes_witness :
    ((logic_user_store_webauthn_credential scenario_defines scenario_env_duplicate_handle
      [101] [1, 2] [117] [100] [7] [9]).run []).1 = .FIDO2_OPERATION_DENIED :=
  (C4_denial_codes scenario_defines scenario_env_duplicate_handle [101] [1, 2] [117] [100]
    [7] [9]).1 rfl (by decide) (by decide)

/-- C5: in `logic_user_store_webauthn_credential`, whenever the relying party
already exists and the user handle is found under it, the call returns a
denial (FIDO2_OPERATION_DENIED once past the smartcard check), and its trace
holds no user prompt, no `logic_encryption_ctr_encrypt`, no
`logic_database_add_service` and no credential add: past the smartcard check
the only calls made are the two searches. -/
theorem C5_duplicate_handle_denied_without_effect (d : Defines) (env : Env)
    (rp_id user_handle user_name display_name private_key credential_id : List Nat)
    (hp : env.logic_database_search_service rp_id true d.NODEMGMT_WEBAUTHN_CRED_TYPE_ID
      ≠ NODE_ADDR_NULL)
    (hc : env.logic_database_search_webauthn_userhandle_in_service
      (env.logic_database_search_service rp_id true d.NODEMGMT_WEBAUTHN_CRED_TYPE_ID)
      user_handle ≠ NODE_ADDR_NULL) :
    let r := (logic_user_store_webauthn_credential d env rp_id user_handle user_name
      display_name private_key credential_id).run []
    (r.1 = .FIDO2_OPERATION_DENIED ∨ r.1 = .FIDO2_USER_NOT_PRESENT) ∧
    (env.logic_security_is_smc_inserted_unlocked = true →
      r = (.FIDO2_OPERATION_DENIED,
        [Event.logic_database_search_service rp_id true d.NODEMGMT_WEBAUTHN_CRED_TYPE_ID,
         Event.logic_database_search_webauthn_userhandle_in_service
          (env.logic_database_search_service rp_id true d.NODEMGMT_WEBAUTHN_CRED_TYPE_ID)
          user_handle])) ∧
    ∀ e ∈ r.2,
      e.is_user_prompt = false ∧ e.is_encrypt = false ∧ e.is_add_service = false ∧
      e.is_credential_write = false := by
  intro r
  have hr : r = (logic_user_store_webauthn_credential d env rp_id user_handle user_name
      display_name private_key credential_id).run [] := rfl
  clear_value r
  simp only [NODE_ADDR_NULL] at hp hc
  simp only [logic_user_store_webauthn_credential, NODE_ADDR_NULL, emit, StateT.run, bind,
    StateT.bind, pure, StateT.pure, modify, modifyGet, MonadStateOf.modifyGet,
    StateT.modifyGet, get, getThe, MonadStateOf.get, StateT.get, run_ite, List.nil_append,
    List.cons_append, List.append_assoc, List.singleton_append, hp, hc] at hr
  split_ifs at hr <;> subst hr <;>
    simp_all [Event.is_user_prompt, Event.is_encrypt, Event.is_add_service,
      Event.is_credential_write]

/-- C5, on the sample device that already holds the user handle: the
registration is denied after the two searches. -/
theorem C5_duplicate_handle_witness :
    (logic_user_store_webauthn_credential scenario_defines scenario_env_duplicate_handle
      [101] [1, 2] [117] [100] [7] [9]).run [] =
    (.FIDO2_OPERATION_DENIED,
      [Event.logic_database_search_service [101] true 1,
       Event.logic_database_search_webauthn_userhandle_in_service 2 [1, 2]]) :=
  (C5_duplicate_handle_denied_without_effect scenario_defines scenario_env_duplicate_handle
    [101] [1, 2] [117] [100] [7] [9] (by decide) (by decide)).2.1 rfl

/-- C6: `logic_user_store_webauthn_credential` returns FIDO2_SUCCESS only in
runs whose trace holds the three-line confirmation prompt with first line
`rp_id` and third line `user_name` answered MINI_INPUT_RET_YES; every
confirmation prompt of a run has these lines; and for every other answer the
call returns FIDO2_OPERATION_DENIED and its trace holds no
`logic_database_add_service`, no `logic_encryption_ctr_encrypt` and no
credential add. -/
theorem C6_success_requires_approval (d : Defines) (env : Env)
    (rp_id user_handle user_name display_name private_key credential_id : List Nat) :
    let r := (logic_user_store_webauthn_credential d env rp_id user_handle user_name
      display_name private_key credential_id).run []
    (r.1 = .FIDO2_SUCCESS →
      Event.gui_prompts_ask_for_confirmation 3
        [rp_id, env.custom_fs_get_string_from_file .ADD_CRED_TEXT_ID, user_name] true false
        .MINI_INPUT_RET_YES ∈ r.2) ∧
    (∀ n lines f p a, Event.gui_prompts_ask_for_confirmation n lines f p a ∈ r.2 →
      n = 3 ∧ lines.get? 0 = some rp_id ∧ lines.get? 2 = some user_name) ∧
    (∀ a ∈ confirmation_answers r.2, a ≠ .MINI_INPUT_RET_YES →
      r.1 = .FIDO2_OPERATION_DENIED ∧
      ∀ e ∈ r.2, e.is_add_service = false ∧ e.is_encrypt = false ∧
        e.is_credential_write = false) := by
  intro r
  have hr : r = (logic_user_store_webauthn_credential d env rp_id user_handle user_name
      display_name private_key credential_id).run [] := rfl
  clear_value r
  simp only [logic_user_store_webauthn_credential, NODE_ADDR_NULL, emit, StateT.run, bind,
    StateT.bind, pure, StateT.pure, modify, modifyGet, MonadStateOf.modifyGet,
    StateT.modifyGet, get, getThe, MonadStateOf.get, StateT.get, run_ite, List.nil_append,
    List.cons_append, List.append_assoc, List.singleton_append] at hr
  split_ifs at hr <;> subst hr <;>
    simp_all [confirmation_answers, Event.confirmation_answer, Event.is_encrypt,
      Event.is_add_service,
      Event.is_credential_write]

/-- C6, on the sample device (the user answers YES): the registration
succeeds and the trace holds the approved prompt naming the relying party and
the user name. -/
theorem C6_success_requires_approval_witness :
    ((logic_user_store_webauthn_credential scenario_defines scenario_env
      [101] [1, 2] [117] [100] [7] [9]).run []).1 = .FIDO2_SUCCESS ∧
    Event.gui_prompts_ask_for_confirmation 3 [[101], [], [117]] true false .MINI_INPUT_RET_YES ∈
      ((logic_user_store_webauthn_credential scenario_defines scenario_env
        [101] [1, 2] [117] [100] [7] [9]).run []).2 :=
  ⟨by decide, (C6_success_requires_approval scenario_defines scenario_env [101] [1, 2] [117]
    [100] [7] [9]).1 (by decide)⟩

set_option maxHeartbeats 4000000 in
/-- What every run of `logic_user_store_credential` satisfies; the claims on
this handler are read off it. -/
theorem logic_user_store_credential_run_facts (d : Defines) (env : Env)
    (service login : List Nat) (desc third password : Option (List Nat)) :
    let r := (logic_user_store_credential d env service login desc third password).run []
    (∀ e ∈ r.2, ∀ p c, e.password_written = some (p, c) →
      (∃ data, [Event.logic_encryption_ctr_encrypt data CHILD_PASSWORD_SIZE p c, e] <:+ r.2 ∧
        env.logic_encryption_ctr_encrypt data CHILD_PASSWORD_SIZE = (p, c)) ∧
      (r.2.filter Event.is_encrypt).length = 1) ∧
    (∀ e ∈ r.2, e.is_database_read = false) ∧
    (env.logic_security_is_smc_inserted_unlocked = true →
      ((∃ e ∈ r.2, e.is_user_prompt = true) ↔
        (env.logic_security_is_management_mode_set = false ∨
          (logic_user_get_user_security_flags env &&& USER_SEC_FLG_CRED_SAVE_PROMPT_MMM) ≠ 0))) ∧
    (∀ a ∈ confirmation_answers r.2, a ≠ .MINI_INPUT_RET_YES →
      r.1 = d.RETURN_NOK ∧
      ∀ e ∈ r.2, e.is_add_service = false ∧ e.is_encrypt = false ∧
        e.is_credential_write = false) ∧
    ((r.2.filter Event.is_add_service).length ≤ 1) ∧
    (NODE_ADDR_NULL ∈ add_service_results r.2 →
      r.1 = d.RETURN_NOK ∧
      (r.2.getLast?.map Event.is_add_service = some true) ∧
      ∀ e ∈ r.2, e.is_encrypt = false ∧ e.is_credential_write = false) := by
  intro r
  have hr : r = (logic_user_store_credential d env service login desc third password).run [] :=
    rfl
  clear_value r
  by_cases hu : env.logic_security_is_smc_inserted_unlocked = false
  · simp [logic_user_store_credential, hu, StateT.run, pure, StateT.pure] at hr
    subst hr
    simp [hu, confirmation_answers, add_service_results, Event.confirmation_answer,
      Event.add_service_result]
  by_cases hp : env.logic_database_search_service service true
      d.NODEMGMT_STANDARD_CRED_TYPE_ID = 0
  · by_cases hg : (env.logic_security_is_management_mode_set = false ∨
      (logic_user_get_user_security_flags env &&& USER_SEC_FLG_CRED_SAVE_PROMPT_MMM) ≠ 0) <;>
    by_cases ha : env.logic_database_add_service service d.NODEMGMT_STANDARD_CRED_TYPE_ID = 0 <;>
    cases password <;>
    simp only [logic_user_store_credential, NODE_ADDR_NULL, emit, StateT.run, bind,
      StateT.bind, pure, StateT.pure, modify, modifyGet, MonadStateOf.modifyGet,
      StateT.modifyGet, get, getThe, MonadStateOf.get, StateT.get, run_ite, List.nil_append,
      List.cons_append, List.append_assoc, List.singleton_append, hu, hp, hg, ha,
      if_true, if_false, ne_eq, not_true_eq_false, not_false_eq_true, reduceCtorEq] at hr <;>
    (try split_ifs at hr) <;> subst hr <;>
      simp_all [Event.password_written, Event.is_encrypt, Event.is_database_read,
        List.suffix_cons_iff, Event.is_user_prompt, Event.is_add_service,
        Event.is_credential_write, confirmation_answers, add_service_results, NODE_ADDR_NULL,
        Event.confirmation_answer, Event.add_service_result,
        @eq_comm Nat 0]
  · by_cases hc : env.logic_database_search_login_in_service
      (env.logic_database_search_service service true d.NODEMGMT_STANDARD_CRED_TYPE_ID)
      login true = 0 <;>
    by_cases hg : (env.logic_security_is_management_mode_set = false ∨
      (logic_user_get_user_security_flags env &&& USER_SEC_FLG_CRED_SAVE_PROMPT_MMM) ≠ 0) <;>
    cases password <;>
    simp only [logic_user_store_credential, NODE_ADDR_NULL, emit, StateT.run, bind,
      StateT.bind, pure, StateT.pure, modify, modifyGet, MonadStateOf.modifyGet,
      StateT.modifyGet, get, getThe, MonadStateOf.get, StateT.get, run_ite, List.nil_append,
      List.cons_append, List.append_assoc, List.singleton_append, hu, hp, hg, hc,
      if_true, if_false, ne_eq, not_true_eq_false, not_false_eq_true, reduceCtorEq] at hr <;>
    (try split_ifs at hr) <;> subst hr <;>
      simp_all [Event.password_written, Event.is_encrypt, Event.is_database_read,
        List.suffix_cons_iff, Event.is_user_prompt, Event.is_add_service,
        Event.is_credential_write, confirmation_answers, add_service_results, NODE_ADDR_NULL,
        Event.confirmation_answer, Event.add_service_result,
        @eq_comm Nat 0]

/-- The storage facts of every run of `logic_user_store_webauthn_credential`. -/
theorem logic_user_store_webauthn_credential_storage_facts (d : Defines) (env : Env)
    (rp_id user_handle user_name display_name private_key credential_id : List Nat) :
    let w := (logic_user_store_webauthn_credential d env rp_id user_handle user_name
      display_name private_key credential_id).run []
    ((w.2.filter Event.is_add_service).length ≤ 1) ∧
    (NODE_ADDR_NULL ∈ add_service_results w.2 →
      w.1 = .FIDO2_STORAGE_EXHAUSTED ∧
      (w.2.getLast?.map Event.is_add_service = some true) ∧
      ∀ e ∈ w.2, e.is_encrypt = false ∧ e.is_credential_write = false) ∧
    (∀ x ∈ add_webauthn_credential_results w.2, x ≠ d.RETURN_OK →
      w.1 = .FIDO2_STORAGE_EXHAUSTED) ∧
    (w.1 = .FIDO2_SUCCESS ↔ d.RETURN_OK ∈ add_webauthn_credential_results w.2) := by
  intro w
  have hw : w = (logic_user_store_webauthn_credential d env rp_id user_handle user_name
      display_name private_key credential_id).run [] := rfl
  clear_value w
  simp only [logic_user_store_webauthn_credential, NODE_ADDR_NULL, emit, StateT.run, bind,
    StateT.bind, pure, StateT.pure, modify, modifyGet, MonadStateOf.modifyGet,
    StateT.modifyGet, get, getThe, MonadStateOf.get, StateT.get, run_ite, List.nil_append,
    List.cons_append, List.append_assoc, List.singleton_append] at hw
  split_ifs at hw <;> subst hw <;>
    simp_all [add_service_results, add_webauthn_credential_results, Event.is_encrypt,
      Event.add_service_result, Event.add_webauthn_credential_result,
      Event.is_add_service, Event.is_credential_write, NODE_ADDR_NULL, @eq_comm Nat 0,
      @eq_comm Int d.RETURN_OK]

/-- C7: whenever a run of `logic_user_store_credential` hands a password to
the database (`logic_database_update_credential` with a password, or
`logic_database_add_credential_for_service`), the call just before it in the
trace is a `logic_encryption_ctr_encrypt` call whose outputs are exactly the
password and the counter handed over, it is the only encrypt call of the run,
and the run reads no node of the database (the counter stored in the child
is never read). -/
theorem C7_password_written_with_fresh_counter (d : Defines) (env : Env)
    (service login : List Nat) (desc third password : Option (List Nat)) :
    let r := (logic_user_store_credential d env service login desc third password).run []
    (∀ e ∈ r.2, ∀ p c, e.password_written = some (p, c) →
      (∃ data, [Event.logic_encryption_ctr_encrypt data CHILD_PASSWORD_SIZE p c, e] <:+ r.2 ∧
        env.logic_encryption_ctr_encrypt data CHILD_PASSWORD_SIZE = (p, c)) ∧
      (r.2.filter Event.is_encrypt).length = 1) ∧
    (∀ e ∈ r.2, e.is_database_read = false) :=
  let h := logic_user_store_credential_run_facts d env service login desc third password
  ⟨h.1, h.2.1⟩

/-- C7, on the sample device: storing a new credential with a password makes
one encrypt call and hands its output and its counter to the database. -/
theorem C7_password_written_with_fresh_counter_witness :
    Event.logic_database_add_credential_for_service 2 [98] none none [112] [0, 0, 1] 0 ∈
      ((logic_user_store_credential scenario_defines scenario_env [102] [98] none none
        (some [112])).run []).2 ∧
    (((logic_user_store_credential scenario_defines scenario_env [102] [98] none none
      (some [112])).run []).2.filter Event.is_encrypt).length = 1 :=
  ⟨by decide, ((C7_password_written_with_fresh_counter scenario_defines scenario_env [102] [98]
    none none (some [112])).1
    (Event.logic_database_add_credential_for_service 2 [98] none none [112] [0, 0, 1] 0)
    (by decide) [112] [0, 0, 1] rfl).2⟩

/-- C8, as stated, fails: on the sample device with the smartcard locked,
management mode is not set, yet `logic_user_store_credential` asks nothing. -/
theorem C8_locked_smartcard_asks_nothing :
    ¬ ((∃ e ∈ ((logic_user_store_credential scenario_defines scenario_env_locked [102] [98]
          none none (some [112])).run []).2, e.is_user_prompt = true) ↔
      ¬ (scenario_env_locked.logic_security_is_management_mode_set = true ∧
        (logic_user_get_user_security_flags scenario_env_locked &&&
          USER_SEC_FLG_CRED_SAVE_PROMPT_MMM) = 0)) := by
  decide

/-- C8, amended: when the smartcard is inserted and unlocked,
`logic_user_store_credential` asks the user for confirmation exactly when it
is not the case that management mode is set and the
USER_SEC_FLG_CRED_SAVE_PROMPT_MMM flag is clear; when it asks and the answer
is not MINI_INPUT_RET_YES it returns RETURN_NOK and its trace holds no
`logic_database_add_service`, no encryption and no credential add or update. -/
theorem C8_confirmation_gate (d : Defines) (env : Env)
    (service login : List Nat) (desc third password : Option (List Nat))
    (hu : env.logic_security_is_smc_inserted_unlocked = true) :
    let r := (logic_user_store_credential d env service login desc third password).run []
    ((∃ e ∈ r.2, e.is_user_prompt = true) ↔
      ¬ (env.logic_security_is_management_mode_set = true ∧
        (logic_user_get_user_security_flags env &&& USER_SEC_FLG_CRED_SAVE_PROMPT_MMM) = 0)) ∧
    (∀ a ∈ confirmation_answers r.2, a ≠ .MINI_INPUT_RET_YES →
      r.1 = d.RETURN_NOK ∧
      ∀ e ∈ r.2, e.is_add_service = false ∧ e.is_encrypt = false ∧
        e.is_credential_write = false) := by
  intro r
  have h := logic_user_store_credential_run_facts d env service login desc third password
  refine ⟨?_, h.2.2.2.1⟩
  rw [h.2.2.1 hu]
  cases env.logic_security_is_management_mode_set <;> simp

/-- C8, amended, on the sample device (unlocked, outside management mode, the
user answers YES): the confirmation is asked. -/
theorem C8_confirmation_gate_witness :
    scenario_env.logic_security_is_smc_inserted_unlocked = true ∧
    ((∃ e ∈ ((logic_user_store_credential scenario_defines scenario_env [102] [98] none none
        (some [112])).run []).2, e.is_user_prompt = true) ↔
      ¬ (scenario_env.logic_security_is_management_mode_set = true ∧
        (logic_user_get_user_security_flags scenario_env &&&
          USER_SEC_FLG_CRED_SAVE_PROMPT_MMM) = 0)) :=
  ⟨rfl, (C8_confirmation_gate scenario_defines scenario_env [102] [98] none none (some [112])
    rfl).1⟩

/-- C9: in a run of `logic_user_store_credential` and in a run of
`logic_user_store_webauthn_credential`, `logic_database_add_service` is called
at most once; when it returns NODE_ADDR_NULL the handler returns RETURN_NOK,
respectively FIDO2_STORAGE_EXHAUSTED, that call is the last of the trace, and
the trace holds no `logic_encryption_ctr_encrypt` and no credential add; in
the WebAuthn handler a credential add that does not return RETURN_OK yields
FIDO2_STORAGE_EXHAUSTED, and FIDO2_SUCCESS is returned if and only if the
credential add was made and returned RETURN_OK. -/
theorem C9_storage_exhaustion_reported_not_retried (d : Defines) (env : Env)
    (service login : List Nat) (desc third password : Option (List Nat))
    (rp_id user_handle user_name display_name private_key credential_id : List Nat) :
    let r := (logic_user_store_credential d env service login desc third password).run []
    let w := (logic_user_store_webauthn_credential d env rp_id user_handle user_name
      display_name private_key credential_id).run []
    ((r.2.filter Event.is_add_service).length ≤ 1) ∧
    ((w.2.filter Event.is_add_service).length ≤ 1) ∧
    (NODE_ADDR_NULL ∈ add_service_results r.2 →
      r.1 = d.RETURN_NOK ∧
      (r.2.getLast?.map Event.is_add_service = some true) ∧
      ∀ e ∈ r.2, e.is_encrypt = false ∧ e.is_credential_write = false) ∧
    (NODE_ADDR_NULL ∈ add_service_results w.2 →
      w.1 = .FIDO2_STORAGE_EXHAUSTED ∧
      (w.2.getLast?.map Event.is_add_service = some true) ∧
      ∀ e ∈ w.2, e.is_encrypt = false ∧ e.is_credential_write = false) ∧
    (∀ x ∈ add_webauthn_credential_results w.2, x ≠ d.RETURN_OK →
      w.1 = .FIDO2_STORAGE_EXHAUSTED) ∧
    (w.1 = .FIDO2_SUCCESS ↔ d.RETURN_OK ∈ add_webauthn_credential_results w.2) :=
  let hr := logic_user_store_credential_run_facts d env service login desc third password
  let hw := logic_user_store_webauthn_credential_storage_facts d env rp_id user_handle
    user_name display_name private_key credential_id
  ⟨hr.2.2.2.2.1, hw.1, hr.2.2.2.2.2, hw.2.1, hw.2.2.1, hw.2.2.2⟩

/-- C9, on the sample device with no free node left: storing a credential for
a new service returns RETURN_NOK. -/
theorem C9_storage_exhaustion_witness :
    NODE_ADDR_NULL ∈ add_service_results ((logic_user_store_credential scenario_defines
      scenario_env_storage_full [102] [98] none none (some [112])).run []).2 ∧
    ((logic_user_store_credential scenario_defines scenario_env_storage_full [102] [98] none
      none (some [112])).run []).1 = scenario_defines.RETURN_NOK :=
  ⟨by decide, ((C9_storage_exhaustion_reported_not_retried scenario_defines
    scenario_env_storage_full [102] [98] none none (some [112]) [101] [1, 2] [117] [100] [7]
    [9]).2.2.1 (by decide)).1⟩

/-! ### Legacy password conversion -/

/-- The legacy conversion facts of every run of `logic_user_check_credential`. -/
theorem logic_user_check_credential_legacy_facts (d : Defines) (env : Env)
    (service login password : List Nat) :
    let r := (logic_user_check_credential d env service login password).run []
    (ascii_to_unicode_lengths r.2 ≠ [] ↔ true ∈ fetched_prev_gen_flags r.2) ∧
    (∀ n ∈ ascii_to_unicode_lengths r.2, n = NODEMGMT_OLD_GEN_ASCII_PWD_LENGTH) ∧
    decrypt_legacy_flags r.2 = fetched_prev_gen_flags r.2 := by
  intro r
  have hr : r = (logic_user_check_credential d env service login password).run [] := rfl
  clear_value r
  simp only [logic_user_check_credential, NODE_ADDR_NULL, emit, StateT.run, bind,
    StateT.bind, pure, StateT.pure, modify, modifyGet, MonadStateOf.modifyGet,
    StateT.modifyGet, get, getThe, MonadStateOf.get, StateT.get, run_ite, List.nil_append,
    List.cons_append, List.append_assoc, List.singleton_append] at hr
  split_ifs at hr <;> subst hr <;>
    simp_all [ascii_to_unicode_lengths, fetched_prev_gen_flags, decrypt_legacy_flags,
      Event.ascii_to_unicode_length, Event.fetched_prev_gen_flag, Event.decrypt_legacy_flag]

/-- The legacy conversion facts of every run of
`logic_user_get_webauthn_credential_key_for_rp`. -/
theorem logic_user_get_webauthn_credential_key_for_rp_legacy_facts (d : Defines) (env : Env)
    (rp_id : List Nat) (out : webauthn_out_t) (allow_list : List (List Nat))
    (allow_list_length : Nat) :
    let r := (logic_user_get_webauthn_credential_key_for_rp d env rp_id out allow_list
      allow_list_length).run []
    ascii_to_unicode_lengths r.2 = [] ∧ ∀ f ∈ decrypt_legacy_flags r.2, f = false := by
  intro r
  have hr : r = (logic_user_get_webauthn_credential_key_for_rp d env rp_id out allow_list
      allow_list_length).run [] := rfl
  clear_value r
  simp only [logic_user_get_webauthn_credential_key_for_rp, webauthn_fetch_and_decrypt,
    NODE_ADDR_NULL, emit, StateT.run, bind,
    StateT.bind, pure, StateT.pure, modify, modifyGet, MonadStateOf.modifyGet,
    StateT.modifyGet, get, getThe, MonadStateOf.get, StateT.get, run_ite, List.nil_append,
    List.cons_append, List.append_assoc, List.singleton_append] at hr
  split_ifs at hr <;> subst hr <;>
    simp_all [ascii_to_unicode_lengths, decrypt_legacy_flags, Event.ascii_to_unicode_length,
      Event.decrypt_legacy_flag]

set_option maxHeartbeats 4000000 in
/-- The legacy conversion facts of every run of `logic_user_usb_get_credential`. -/
theorem logic_user_usb_get_credential_legacy_facts (d : Defines) (env : Env)
    (service : List Nat) (login : Option (List Nat)) (send_msg : hid_message_t) :
    let r := (logic_user_usb_get_credential d env service login send_msg).run []
    (ascii_to_unicode_lengths r.2 ≠ [] ↔ true ∈ fetched_prev_gen_flags r.2) ∧
    (∀ n ∈ ascii_to_unicode_lengths r.2, n = NODEMGMT_OLD_GEN_ASCII_PWD_LENGTH) ∧
    decrypt_legacy_flags r.2 = fetched_prev_gen_flags r.2 := by
  intro r
  have hr : r = (logic_user_usb_get_credential d env service login send_msg).run [] := rfl
  clear_value r
  by_cases hu : env.logic_security_is_smc_inserted_unlocked = false
  · simp [logic_user_usb_get_credential, hu, StateT.run, pure, StateT.pure] at hr
    subst hr
    simp [ascii_to_unicode_lengths, fetched_prev_gen_flags, decrypt_legacy_flags,
      Event.ascii_to_unicode_length, Event.fetched_prev_gen_flag, Event.decrypt_legacy_flag]
  by_cases hp : env.logic_database_search_service
      (local_string_copy service PARENT_SERVICE_ARRAY_SIZE) true
      d.NODEMGMT_STANDARD_CRED_TYPE_ID = 0
  · simp only [logic_user_usb_get_credential, NODE_ADDR_NULL, emit, StateT.run, bind,
      StateT.bind, pure, StateT.pure, modify, modifyGet, MonadStateOf.modifyGet,
      StateT.modifyGet, get, getThe, MonadStateOf.get, StateT.get, run_ite, List.nil_append,
      List.cons_append, List.append_assoc, List.singleton_append, hu, hp, if_true,
      if_false] at hr
    subst hr
    simp [ascii_to_unicode_lengths, fetched_prev_gen_flags, decrypt_legacy_flags,
      Event.ascii_to_unicode_length, Event.fetched_prev_gen_flag, Event.decrypt_legacy_flag]
  by_cases hf : (logic_user_get_user_security_flags env &&& USER_SEC_FLG_LOGIN_CONF) = 0 <;>
  by_cases hn : (env.logic_database_get_number_of_creds_for_service
      (env.logic_database_search_service (local_string_copy service PARENT_SERVICE_ARRAY_SIZE)
        true d.NODEMGMT_STANDARD_CRED_TYPE_ID)
      (!env.logic_security_is_management_mode_set)).1 = 1 <;>
  cases login <;>
  simp only [logic_user_usb_get_credential, usb_fill_and_decrypt, Option.map,
    NODE_ADDR_NULL, emit, StateT.run, bind,
    StateT.bind, pure, StateT.pure, modify, modifyGet, MonadStateOf.modifyGet,
    StateT.modifyGet, get, getThe, MonadStateOf.get, StateT.get, run_ite, List.nil_append,
    List.cons_append, List.append_assoc, List.singleton_append, hu, hp, hf, hn, if_true,
    if_false, ne_eq, not_true_eq_false, not_false_eq_true, reduceCtorEq, or_true, or_false,
    true_or, false_or] at hr <;>
  (try split_ifs at hr) <;> subst hr <;>
    simp_all [ascii_to_unicode_lengths, fetched_prev_gen_flags, decrypt_legacy_flags,
      Event.ascii_to_unicode_length, Event.fetched_prev_gen_flag, Event.decrypt_legacy_flag]

/-- The decrypt flags of a trace, call by call. -/
theorem decrypt_legacy_flags_cons (e : Event) (l : List Event) :
    decrypt_legacy_flags (e :: l) = e.decrypt_legacy_flag.toList ++ decrypt_legacy_flags l := by
  unfold decrypt_legacy_flags
  cases h : e.decrypt_legacy_flag <;> simp [List.filterMap_cons, h]

/-- The conversions of a trace, call by call. -/
theorem ascii_to_unicode_lengths_cons (e : Event) (l : List Event) :
    ascii_to_unicode_lengths (e :: l) =
      e.ascii_to_unicode_length.toList ++ ascii_to_unicode_lengths l := by
  unfold ascii_to_unicode_lengths
  cases h : e.ascii_to_unicode_length <;> simp [List.filterMap_cons, h]

/-- The decrypt flags of two traces put end to end. -/
theorem decrypt_legacy_flags_append (l₁ l₂ : List Event) :
    decrypt_legacy_flags (l₁ ++ l₂) = decrypt_legacy_flags l₁ ++ decrypt_legacy_flags l₂ := by
  simp [decrypt_legacy_flags]

/-- The conversions of two traces put end to end. -/
theorem ascii_to_unicode_lengths_append (l₁ l₂ : List Event) :
    ascii_to_unicode_lengths (l₁ ++ l₂) =
      ascii_to_unicode_lengths l₁ ++ ascii_to_unicode_lengths l₂ := by
  simp [ascii_to_unicode_lengths]

/-- The empty trace has no decrypt call. -/
theorem decrypt_legacy_flags_nil : decrypt_legacy_flags [] = [] := rfl

/-- The empty trace has no conversion. -/
theorem ascii_to_unicode_lengths_nil : ascii_to_unicode_lengths [] = [] := rfl

/-- The invariant holds of two traces put end to end. -/
theorem legacy_conversion_follows_flag_append (flag : Bool) (t₁ t₂ : List Event)
    (h₁ : legacy_conversion_follows_flag flag t₁) (h₂ : legacy_conversion_follows_flag flag t₂) :
    legacy_conversion_follows_flag flag (t₁ ++ t₂) := by
  obtain ⟨a₁, b₁⟩ := h₁
  obtain ⟨a₂, b₂⟩ := h₂
  constructor
  · intro f hf
    simp only [decrypt_legacy_flags, List.filterMap_append, List.mem_append] at hf
    rcases hf with hf | hf
    · exact a₁ f hf
    · exact a₂ f hf
  · simp only [decrypt_legacy_flags, ascii_to_unicode_lengths, List.filterMap_append] at *
    rw [b₁, b₂]

/-- The run of `poll_both_interfaces_connected` after the trace `t`. -/
theorem poll_both_interfaces_connected_run (env : Env) (t : List Event) :
    poll_both_interfaces_connected env t =
      (poll_both_interfaces_connected_value env t,
        t ++ poll_both_interfaces_connected_calls env t) := by
  simp only [poll_both_interfaces_connected, poll_both_interfaces_connected_calls,
    poll_both_interfaces_connected_value,
    poll_bluetooth_connected, poll_usb_enumerated, emit, StateT.run, bind,
    StateT.bind, pure, StateT.pure, modify, modifyGet, MonadStateOf.modifyGet,
    StateT.modifyGet, get, getThe, MonadStateOf.get, StateT.get, run_ite, List.nil_append,
    List.cons_append, List.append_assoc, List.singleton_append]
  split_ifs <;> simp_all

/-- The polls are neither decrypt calls nor conversions. -/
theorem poll_both_interfaces_connected_calls_quiet (env : Env) (t : List Event) :
    decrypt_legacy_flags (poll_both_interfaces_connected_calls env t) = [] ∧
    ascii_to_unicode_lengths (poll_both_interfaces_connected_calls env t) = [] := by
  unfold poll_both_interfaces_connected_calls
  split_ifs <;>
    simp [decrypt_legacy_flags, ascii_to_unicode_lengths, Event.decrypt_legacy_flag,
      Event.ascii_to_unicode_length]

/-- The run of `keyb_type_string` after the trace `t`. -/
theorem keyb_type_string_run (d : Defines) (env : Env) (text : List Nat) (key_after : Nat)
    (usb_selected : Bool) (interface_id : Nat) (t : List Event) :
    keyb_type_string d env text key_after usb_selected interface_id t =
      ((), t ++ keyb_type_string_calls d env text key_after usb_selected interface_id t) := by
  simp only [keyb_type_string_calls, keyb_type_string, emit, StateT.run, bind,
    StateT.bind, pure, StateT.pure, modify, modifyGet, MonadStateOf.modifyGet,
    StateT.modifyGet, get, getThe, MonadStateOf.get, StateT.get, run_ite, List.nil_append,
    List.cons_append, List.append_assoc, List.singleton_append]
  split_ifs <;> simp

/-- The typing calls are neither decrypt calls nor conversions. -/
theorem keyb_type_string_calls_quiet (d : Defines) (env : Env) (text : List Nat)
    (key_after : Nat) (usb_selected : Bool) (interface_id : Nat) (t : List Event) :
    decrypt_legacy_flags
      (keyb_type_string_calls d env text key_after usb_selected interface_id t) = [] ∧
    ascii_to_unicode_lengths
      (keyb_type_string_calls d env text key_after usb_selected interface_id t) = [] := by
  simp only [keyb_type_string_calls, keyb_type_string, emit, StateT.run, bind,
    StateT.bind, pure, StateT.pure, modify, modifyGet, MonadStateOf.modifyGet,
    StateT.modifyGet, get, getThe, MonadStateOf.get, StateT.get, run_ite, List.nil_append,
    List.cons_append, List.append_assoc, List.singleton_append]
  split_ifs <;>
    simp [decrypt_legacy_flags, ascii_to_unicode_lengths, Event.decrypt_legacy_flag,
      Event.ascii_to_unicode_length]

set_option maxHeartbeats 4000000 in
/-- The loop of `logic_user_ask_for_credentials_keyb_output` keeps the
invariant, for the previous-generation bit of the child node it works on. -/
theorem keyb_output_loop_legacy (d : Defines) (env : Env) (first_line : List Nat) :
    ∀ (fuel : Nat) (st : keyb_output_state) (t : List Event),
    legacy_conversion_follows_flag
      (decide ((st.temp_cnode.flags &&& NODEMGMT_PREVGEN_BIT_BITMASK) ≠ 0)) t →
    legacy_conversion_follows_flag
      (decide ((st.temp_cnode.flags &&& NODEMGMT_PREVGEN_BIT_BITMASK) ≠ 0))
      ((keyb_output_loop d env first_line fuel st).run t).2 := by
  intro fuel
  induction fuel with
  | zero =>
    intro st t ht
    simpa [keyb_output_loop, StateT.run, pure, StateT.pure] using ht
  | succ fuel ih =>
    intro st t ht
    have hp1 := fun t => (poll_both_interfaces_connected_calls_quiet env t).1
    have hp2 := fun t => (poll_both_interfaces_connected_calls_quiet env t).2
    have ht1 := fun a b c e t => (keyb_type_string_calls_quiet d env a b c e t).1
    have ht2 := fun a b c e t => (keyb_type_string_calls_quiet d env a b c e t).2
    by_cases h0 : st.state_machine = 0
    · simp only [keyb_output_loop, h0, if_true, poll_both_interfaces_connected_run,
        poll_bluetooth_connected, emit, StateT.run, bind,
        StateT.bind, pure, StateT.pure, modify, modifyGet, MonadStateOf.modifyGet,
        StateT.modifyGet, get, getThe, MonadStateOf.get, StateT.get, run_ite, List.nil_append,
        List.cons_append, List.append_assoc, List.singleton_append]
      split_ifs <;> (try refine ih _ _ ?_) <;>
        first
        | exact ht
        | (refine legacy_conversion_follows_flag_append _ _ _ ht ?_
           simp [legacy_conversion_follows_flag, decrypt_legacy_flags_cons,
              ascii_to_unicode_lengths_cons, decrypt_legacy_flags_append,
              ascii_to_unicode_lengths_append, decrypt_legacy_flags_nil,
              ascii_to_unicode_lengths_nil, Event.decrypt_legacy_flag,
              Event.ascii_to_unicode_length, hp1, hp2, ht1, ht2, *]
           try simp_all)
    by_cases h1 : st.state_machine = 1
    · simp only [keyb_output_loop, h1, if_true, poll_both_interfaces_connected_run,
        keyb_type_string_run,
        poll_bluetooth_connected, emit, StateT.run, bind,
        StateT.bind, pure, StateT.pure, modify, modifyGet, MonadStateOf.modifyGet,
        StateT.modifyGet, get, getThe, MonadStateOf.get, StateT.get, run_ite, List.nil_append,
        List.cons_append, List.append_assoc, List.singleton_append, one_ne_zero, if_false]
      split_ifs <;> (try refine ih _ _ ?_) <;>
        first
        | exact ht
        | (refine legacy_conversion_follows_flag_append _ _ _ ht ?_
           simp [legacy_conversion_follows_flag, decrypt_legacy_flags_cons,
              ascii_to_unicode_lengths_cons, decrypt_legacy_flags_append,
              ascii_to_unicode_lengths_append, decrypt_legacy_flags_nil,
              ascii_to_unicode_lengths_nil, Event.decrypt_legacy_flag,
              Event.ascii_to_unicode_length, hp1, hp2, ht1, ht2, *]
           try simp_all)
    by_cases h2 : st.state_machine = 2
    · simp only [keyb_output_loop, h2, if_true, poll_both_interfaces_connected_run,
        keyb_type_string_run,
        poll_bluetooth_connected, emit, StateT.run, bind,
        StateT.bind, pure, StateT.pure, modify, modifyGet, MonadStateOf.modifyGet,
        StateT.modifyGet, get, getThe, MonadStateOf.get, StateT.get, run_ite, List.nil_append,
        List.cons_append, List.append_assoc, List.singleton_append, OfNat.ofNat_ne_zero,
        OfNat.ofNat_ne_one, if_false]
      split_ifs <;> (try refine ih _ _ ?_) <;>
        first
        | exact ht
        | (refine legacy_conversion_follows_flag_append _ _ _ ht ?_
           simp [legacy_conversion_follows_flag, decrypt_legacy_flags_cons,
              ascii_to_unicode_lengths_cons, decrypt_legacy_flags_append,
              ascii_to_unicode_lengths_append, decrypt_legacy_flags_nil,
              ascii_to_unicode_lengths_nil, Event.decrypt_legacy_flag,
              Event.ascii_to_unicode_length, hp1, hp2, ht1, ht2, *]
           try simp_all)
    · simp only [keyb_output_loop, h0, h1, h2, if_false]
      exact ih _ _ ht

/-- What the invariant says of a whole trace: a conversion is made if and
only if a decrypt call is made and the flag is set, every conversion is over
NODEMGMT_OLD_GEN_ASCII_PWD_LENGTH characters, every decrypt call carries the
flag. -/
theorem legacy_conversion_follows_flag_reading (flag : Bool) (t : List Event)
    (h : legacy_conversion_follows_flag flag t) :
    (ascii_to_unicode_lengths t ≠ [] ↔ decrypt_legacy_flags t ≠ [] ∧ flag = true) ∧
    (∀ n ∈ ascii_to_unicode_lengths t, n = NODEMGMT_OLD_GEN_ASCII_PWD_LENGTH) ∧
    (∀ f ∈ decrypt_legacy_flags t, f = flag) := by
  obtain ⟨hall, heq⟩ := h
  rw [heq]
  generalize decrypt_legacy_flags t = l at hall
  have aux : ∀ l : List Bool, (∀ f ∈ l, f = flag) →
      l.filterMap (fun f => if f then some NODEMGMT_OLD_GEN_ASCII_PWD_LENGTH else none) =
        if flag = true then List.replicate l.length NODEMGMT_OLD_GEN_ASCII_PWD_LENGTH
        else [] := by
    intro l
    induction l with
    | nil => intro _; cases flag <;> simp
    | cons a l ih =>
      intro hl
      have ha := hl a (List.mem_cons_self _ _)
      have ht := ih (fun f hf => hl f (List.mem_cons_of_mem _ hf))
      subst ha
      cases a <;> simp_all [List.filterMap_cons, List.replicate_succ]
  rw [aux l hall]
  refine ⟨?_, ?_, hall⟩
  · cases flag <;> simp
  · cases flag <;> simp

/-- Every run of `logic_user_ask_for_credentials_keyb_output` keeps the
invariant, for the previous-generation bit of the child node read. -/
theorem logic_user_ask_for_credentials_keyb_output_legacy (d : Defines) (env : Env)
    (fuel parent_address child_address : Nat) (only_pwd_prompt usb_selected : Bool) :
    legacy_conversion_follows_flag
      (decide (((env.nodemgmt_read_cred_child_node child_address).flags &&&
        NODEMGMT_PREVGEN_BIT_BITMASK) ≠ 0))
      ((logic_user_ask_for_credentials_keyb_output d env fuel parent_address child_address
        only_pwd_prompt usb_selected).run []).2 := by
  have hloop := keyb_output_loop_legacy d env
  simp only [StateT.run] at hloop
  cases hb : env.logic_bluetooth_get_state [] <;>
  cases hu : env.logic_aux_mcu_is_usb_enumerated [Event.logic_bluetooth_get_state false] <;>
  simp only [logic_user_ask_for_credentials_keyb_output, poll_nothing_connected,
    poll_bluetooth_connected, poll_usb_enumerated, emit, StateT.run, bind,
    StateT.bind, pure, StateT.pure, modify, modifyGet, MonadStateOf.modifyGet,
    StateT.modifyGet, get, getThe, MonadStateOf.get, StateT.get, run_ite, List.nil_append,
    List.cons_append, List.append_assoc, List.singleton_append, hb, hu, if_true, if_false,
    Bool.not_true, Bool.not_false, reduceCtorEq] <;>
  (try split_ifs) <;>
    first
    | (refine hloop _ _ _ _ ?_
       simp [legacy_conversion_follows_flag, decrypt_legacy_flags, ascii_to_unicode_lengths,
        Event.decrypt_legacy_flag, Event.ascii_to_unicode_length])
    | simp [legacy_conversion_follows_flag, decrypt_legacy_flags, ascii_to_unicode_lengths,
        Event.decrypt_legacy_flag, Event.ascii_to_unicode_length]

/-- C10: the conversion `utils_ascii_to_unicode` over
NODEMGMT_OLD_GEN_ASCII_PWD_LENGTH = 32 characters is applied if and only if
the credential's previous-generation flag is set.  In every run of
`logic_user_check_credential` and of `logic_user_usb_get_credential` a
conversion is made if and only if a database fetch of the run reported the
flag as not FALSE, and the decrypt calls carry the flags the fetches
reported; in every run of `logic_user_ask_for_credentials_keyb_output` a
conversion is made if and only if the password-typing step decrypted the
password and `flags & NODEMGMT_PREVGEN_BIT_BITMASK` of the child node is not
0, and every decrypt call carries that bit as its legacy flag; every
conversion is over 32 characters; a run of
`logic_user_get_webauthn_credential_key_for_rp` makes no conversion and
decrypts only with the legacy flag FALSE. -/
theorem C10_legacy_conversion_iff_prev_gen_flag (d : Defines) (env : Env) :
    (∀ service login password,
      let r := (logic_user_check_credential d env service login password).run []
      (ascii_to_unicode_lengths r.2 ≠ [] ↔ true ∈ fetched_prev_gen_flags r.2) ∧
      (∀ n ∈ ascii_to_unicode_lengths r.2, n = NODEMGMT_OLD_GEN_ASCII_PWD_LENGTH) ∧
      decrypt_legacy_flags r.2 = fetched_prev_gen_flags r.2) ∧
    (∀ service login send_msg,
      let r := (logic_user_usb_get_credential d env service login send_msg).run []
      (ascii_to_unicode_lengths r.2 ≠ [] ↔ true ∈ fetched_prev_gen_flags r.2) ∧
      (∀ n ∈ ascii_to_unicode_lengths r.2, n = NODEMGMT_OLD_GEN_ASCII_PWD_LENGTH) ∧
      decrypt_legacy_flags r.2 = fetched_prev_gen_flags r.2) ∧
    (∀ fuel parent_address child_address only_pwd_prompt usb_selected,
      let r := (logic_user_ask_for_credentials_keyb_output d env fuel parent_address
        child_address only_pwd_prompt usb_selected).run []
      let flags := (env.nodemgmt_read_cred_child_node child_address).flags
      (ascii_to_unicode_lengths r.2 ≠ [] ↔
        decrypt_legacy_flags r.2 ≠ [] ∧ (flags &&& NODEMGMT_PREVGEN_BIT_BITMASK) ≠ 0) ∧
      (∀ n ∈ ascii_to_unicode_lengths r.2, n = NODEMGMT_OLD_GEN_ASCII_PWD_LENGTH) ∧
      (∀ f ∈ decrypt_legacy_flags r.2,
        f = decide ((flags &&& NODEMGMT_PREVGEN_BIT_BITMASK) ≠ 0))) ∧
    (∀ rp_id out allow_list allow_list_length,
      let r := (logic_user_get_webauthn_credential_key_for_rp d env rp_id out allow_list
        allow_list_length).run []
      ascii_to_unicode_lengths r.2 = [] ∧ ∀ f ∈ decrypt_legacy_flags r.2, f = false) := by
  refine ⟨?_, ?_, ?_, ?_⟩
  · intro service login password
    exact logic_user_check_credential_legacy_facts d env service login password
  · intro service login send_msg
    exact logic_user_usb_get_credential_legacy_facts d env service login send_msg
  · intro fuel parent_address child_address only_pwd_prompt usb_selected
    have h := legacy_conversion_follows_flag_reading _ _
      (logic_user_ask_for_credentials_keyb_output_legacy d env fuel parent_address
        child_address only_pwd_prompt usb_selected)
    simpa using h
  · intro rp_id out allow_list allow_list_length
    exact logic_user_get_webauthn_credential_key_for_rp_legacy_facts d env rp_id out
      allow_list allow_list_length

/-- C10, on the sample device whose child nodes carry the
previous-generation bit: typing the password decrypts it and converts it. -/
theorem C10_legacy_conversion_witness :
    decrypt_legacy_flags ((logic_user_ask_for_credentials_keyb_output scenario_defines
      scenario_env_legacy_child 4 2 4 false true).run []).2 = [true] ∧
    ascii_to_unicode_lengths ((logic_user_ask_for_credentials_keyb_output scenario_defines
      scenario_env_legacy_child 4 2 4 false true).run []).2 ≠ [] :=
  ⟨by decide, ((C10_legacy_conversion_iff_prev_gen_flag scenario_defines
    scenario_env_legacy_child).2.2.1 4 2 4 false true).1.mpr ⟨by decide, by decide⟩⟩

/-! ### Credential retrieval -/

/-- C11: on the sample device with two credentials `[4]` and `[6]` under the
relying party, a call with the allow list `[[4], [9]]` (length 2) in which the
user picks the second credential returns RETURN_OK with credential id `[6]`,
which is not in the allow list. -/
theorem C11_allow_list_of_two_is_not_enforced :
    ((logic_user_get_webauthn_credential_key_for_rp scenario_defines
      scenario_env_two_webauthn_credentials [97] ⟨[], [], 0⟩ [[4], [9]] 2).run []).1.1 =
      scenario_defines.RETURN_OK ∧
    ((logic_user_get_webauthn_credential_key_for_rp scenario_defines
      scenario_env_two_webauthn_credentials [97] ⟨[], [], 0⟩ [[4], [9]] 2).run []
      ).1.2.credential_id = [6] ∧
    ((logic_user_get_webauthn_credential_key_for_rp scenario_defines
      scenario_env_two_webauthn_credentials [97] ⟨[], [], 0⟩ [[4], [9]] 2).run []
      ).1.2.credential_id ∉ [[4], [9]] := by
  decide

/-- C13, as stated, fails: on the sample device holding the relying party
with nothing under it (random value `0xFFFF`), a request with the allow list
`[9], [8]`, neither id being stored, is denied after 3047 ms with no id looked
up, while the lookup of the absent login `[98]` is denied after 7095 ms: for
the same random value the two delays differ. -/
theorem C13_two_id_allow_list_gets_first_tier_delay :
    scenario_env_service_present.logic_database_search_webauthn_credential_id_in_service 2 [9] =
      NODE_ADDR_NULL ∧
    scenario_env_service_present.logic_database_search_webauthn_credential_id_in_service 2 [8] =
      NODE_ADDR_NULL ∧
    ((logic_user_get_webauthn_credential_key_for_rp scenario_defines
      scenario_env_service_present [97] ⟨[], [], 0⟩ [[9], [8]] 2).run []).1.1 =
      scenario_defines.RETURN_NOK ∧
    ((logic_user_get_webauthn_credential_key_for_rp scenario_defines
      scenario_env_service_present [97] ⟨[], [], 0⟩ [[9], [8]] 2).run []).2.any
        Event.is_credential_id_search = false ∧
    random_values ((logic_user_get_webauthn_credential_key_for_rp scenario_defines
      scenario_env_service_present [97] ⟨[], [], 0⟩ [[9], [8]] 2).run []).2 = [0xFFFF] ∧
    random_values ((logic_user_usb_get_credential scenario_defines
      scenario_env_service_present [97] (some [98]) scenario_msg).run []).2 = [0xFFFF] ∧
    delays ((logic_user_get_webauthn_credential_key_for_rp scenario_defines
      scenario_env_service_present [97] ⟨[], [], 0⟩ [[9], [8]] 2).run []).2 = [3047] ∧
    delays ((logic_user_usb_get_credential scenario_defines scenario_env_service_present
      [97] (some [98]) scenario_msg).run []).2 = [7095] := by
  decide

set_option maxHeartbeats 4000000 in
/-- C13, amended: with the smartcard unlocked, at each pair of corresponding
absence stages (relying party absent and service absent; the first id of the
allow list absent, for an allow list of exactly one id or a non-empty one with
exactly one credential stored, and the specified login absent; no credential
with an empty allow list and no login with no login specified) each of
`logic_user_get_webauthn_credential_key_for_rp` and
`logic_user_usb_get_credential` draws one random value and applies one delay,
the same function of the drawn value in both (`1000 + (x & 0x07FF)`,
`3000 + (x & 0x0FFF)`, `1000 + (x & 0x07FF)`): for the same random value the
delays are the same. -/
theorem C13_webauthn_delays_match_credential_lookup (d : Defines) (env : Env)
    (hu : env.logic_security_is_smc_inserted_unlocked = true)
    (rp_id : List Nat) (out : webauthn_out_t) (allow_list : List (List Nat))
    (allow_list_length : Nat) (service : List Nat) (login : Option (List Nat))
    (send_msg : hid_message_t) :
    let rp_copy := local_string_copy rp_id PARENT_SERVICE_ARRAY_SIZE
    let service_copy := local_string_copy service PARENT_SERVICE_ARRAY_SIZE
    let rp := env.logic_database_search_service rp_copy true d.NODEMGMT_WEBAUTHN_CRED_TYPE_ID
    let parent := env.logic_database_search_service service_copy true
      d.NODEMGMT_STANDARD_CRED_TYPE_ID
    let active := !env.logic_security_is_management_mode_set
    let w := (logic_user_get_webauthn_credential_key_for_rp d env rp_id out allow_list
      allow_list_length).run []
    let u := (logic_user_usb_get_credential d env service login send_msg).run []
    (rp = NODE_ADDR_NULL → parent = NODE_ADDR_NULL →
      (random_values w.2).length = 1 ∧
      delays w.2 = (random_values w.2).map (fun x => 1000 + (x &&& 0x07FF)) ∧
      delays u.2 = (random_values u.2).map (fun x => 1000 + (x &&& 0x07FF)) ∧
      (random_values w.2 = random_values u.2 → delays w.2 = delays u.2)) ∧
    (∀ l, rp ≠ NODE_ADDR_NULL →
      (allow_list_length = 1 ∨
        (allow_list_length ≠ 0 ∧
          (env.logic_database_get_number_of_creds_for_service rp false).1 = 1)) →
      env.logic_database_search_webauthn_credential_id_in_service rp (allow_list.getD 0 []) =
        NODE_ADDR_NULL →
      parent ≠ NODE_ADDR_NULL → login = some l →
      env.logic_database_search_login_in_service parent
        (local_string_copy l CHILD_LOGIN_ARRAY_SIZE) active = NODE_ADDR_NULL →
      (random_values w.2).length = 1 ∧
      delays w.2 = (random_values w.2).map (fun x => 3000 + (x &&& 0x0FFF)) ∧
      delays u.2 = (random_values u.2).map (fun x => 3000 + (x &&& 0x0FFF)) ∧
      (random_values w.2 = random_values u.2 → delays w.2 = delays u.2)) ∧
    (rp ≠ NODE_ADDR_NULL → allow_list_length = 0 →
      (env.logic_database_get_number_of_creds_for_service rp false).1 = 0 →
      parent ≠ NODE_ADDR_NULL → login = none →
      (env.logic_database_get_number_of_creds_for_service parent active).1 = 0 →
      (random_values w.2).length = 1 ∧
      delays w.2 = (random_values w.2).map (fun x => 1000 + (x &&& 0x07FF)) ∧
      delays u.2 = (random_values u.2).map (fun x => 1000 + (x &&& 0x07FF)) ∧
      (random_values w.2 = random_values u.2 → delays w.2 = delays u.2)) := by
  intro rp_copy service_copy rp parent active w u
  have hw : w = (logic_user_get_webauthn_credential_key_for_rp d env rp_id out allow_list
      allow_list_length).run [] := rfl
  have hv : u = (logic_user_usb_get_credential d env service login send_msg).run [] := rfl
  clear_value w u
  have hu2 : ¬ env.logic_security_is_smc_inserted_unlocked = false := by simp [hu]
  refine ⟨?_, ?_, ?_⟩
  · intro h1 h2
    simp only [NODE_ADDR_NULL, rp, parent, rp_copy, service_copy] at h1 h2
    simp only [logic_user_get_webauthn_credential_key_for_rp, webauthn_fetch_and_decrypt,
      NODE_ADDR_NULL, emit, StateT.run, bind,
      StateT.bind, pure, StateT.pure, modify, modifyGet, MonadStateOf.modifyGet,
      StateT.modifyGet, get, getThe, MonadStateOf.get, StateT.get, run_ite, List.nil_append,
      List.cons_append, List.append_assoc, List.singleton_append, hu2, h1, if_true,
      if_false] at hw
    simp only [logic_user_usb_get_credential, usb_fill_and_decrypt,
      NODE_ADDR_NULL, emit, StateT.run, bind,
      StateT.bind, pure, StateT.pure, modify, modifyGet, MonadStateOf.modifyGet,
      StateT.modifyGet, get, getThe, MonadStateOf.get, StateT.get, run_ite, List.nil_append,
      List.cons_append, List.append_assoc, List.singleton_append, hu2, h2, if_true,
      if_false] at hv
    subst hw hv
    simp [random_values, delays, Event.random_value, Event.delay_ms]
    intro h
    rw [h]
  · intro l h1 hlook hid h2 hl hlogin
    subst hl
    simp only [NODE_ADDR_NULL, rp, parent, rp_copy, service_copy, active] at h1 h2 hid hlogin
    simp only [rp, rp_copy] at hlook
    simp only [logic_user_usb_get_credential, usb_fill_and_decrypt, Option.map,
      NODE_ADDR_NULL, emit, StateT.run, bind,
      StateT.bind, pure, StateT.pure, modify, modifyGet, MonadStateOf.modifyGet,
      StateT.modifyGet, get, getThe, MonadStateOf.get, StateT.get, run_ite, List.nil_append,
      List.cons_append, List.append_assoc, List.singleton_append, hu2, h2, hlogin, if_true,
      if_false, ne_eq, not_true_eq_false, not_false_eq_true, reduceCtorEq, or_true, or_false,
      true_or, false_or] at hv
    have hne : allow_list_length ≠ 0 := by
      rcases hlook with h | h
      · omega
      · exact h.1
    simp only [logic_user_get_webauthn_credential_key_for_rp, webauthn_fetch_and_decrypt,
      NODE_ADDR_NULL, emit, StateT.run, bind,
      StateT.bind, pure, StateT.pure, modify, modifyGet, MonadStateOf.modifyGet,
      StateT.modifyGet, get, getThe, MonadStateOf.get, StateT.get, run_ite, List.nil_append,
      List.cons_append, List.append_assoc, List.singleton_append, hu2, h1, hne, hid, if_true,
      if_false, ne_eq, not_true_eq_false, not_false_eq_true] at hw
    subst hv
    split_ifs at hw <;> subst hw <;>
      simp_all [random_values, delays, Event.random_value, Event.delay_ms]
  · intro h1 hlen hnb h2 hl hnbu
    subst hl
    subst hlen
    simp only [NODE_ADDR_NULL, rp, parent, rp_copy, service_copy, active] at h1 h2 hnb hnbu
    simp only [logic_user_usb_get_credential, usb_fill_and_decrypt, Option.map,
      NODE_ADDR_NULL, emit, StateT.run, bind,
      StateT.bind, pure, StateT.pure, modify, modifyGet, MonadStateOf.modifyGet,
      StateT.modifyGet, get, getThe, MonadStateOf.get, StateT.get, run_ite, List.nil_append,
      List.cons_append, List.append_assoc, List.singleton_append, hu2, h2, hnbu, if_true,
      if_false, ne_eq, not_true_eq_false, not_false_eq_true, reduceCtorEq, or_true, or_false,
      true_or, false_or, zero_ne_one] at hv
    simp only [logic_user_get_webauthn_credential_key_for_rp, webauthn_fetch_and_decrypt,
      NODE_ADDR_NULL, emit, StateT.run, bind,
      StateT.bind, pure, StateT.pure, modify, modifyGet, MonadStateOf.modifyGet,
      StateT.modifyGet, get, getThe, MonadStateOf.get, StateT.get, run_ite, List.nil_append,
      List.cons_append, List.append_assoc, List.singleton_append, hu2, h1, hnb, if_true,
      if_false, ne_eq, not_true_eq_false, not_false_eq_true, zero_ne_one, or_self] at hw
    subst hw hv
    simp [random_values, delays, Event.random_value, Event.delay_ms]
    intro h
    rw [h]

/-- C13, amended, on the sample device holding the parent with nothing under
it: the credential id `[9]` of the one-id allow list and the login `[98]` are
both absent, and both requests wait 7095 ms. -/
theorem C13_webauthn_delays_witness :
    scenario_env_service_present.logic_security_is_smc_inserted_unlocked = true ∧
    delays ((logic_user_get_webauthn_credential_key_for_rp scenario_defines
      scenario_env_service_present [97] ⟨[], [], 0⟩ [[9]] 1).run []).2 = [7095] ∧
    delays ((logic_user_get_webauthn_credential_key_for_rp scenario_defines
      scenario_env_service_present [97] ⟨[], [], 0⟩ [[9]] 1).run []).2 =
    delays ((logic_user_usb_get_credential scenario_defines scenario_env_service_present
      [97] (some [98]) scenario_msg).run []).2 :=
  ⟨rfl, by decide, ((C13_webauthn_delays_match_credential_lookup scenario_defines
    scenario_env_service_present rfl [97] ⟨[], [], 0⟩ [[9]] 1 [97] (some [98])
    scenario_msg).2.1 [98] (by decide) (Or.inl rfl) (by decide) (by decide) rfl
    (by decide)).2.2.2 (by decide)⟩

/-! ### Manual selection of a login -/

/-- C16: in state 1 of `logic_user_manual_select_login` (a service has been
chosen), with `nb` the number of credentials of the service (counted in this
pass if it was not yet): the pass presents the login selection prompt if and
only if `nb` is different from 1; when it does, the answer BACK gives state 0
(service selection), YES gives state 2 (the typing step) with the selected
login and any other answer makes the function return; when `nb` is 1 no prompt
is presented and, the first login not being the null address, the pass gives
state 2 with that login. -/
theorem C16_login_selection_step (d : Defines) (env : Env) (keyb_fuel : Nat)
    (st : manual_select_state) (t : List Event) (hs : st.state_machine = 1) :
    let counted := env.logic_database_get_number_of_creds_for_service st.chosen_service_addr true
    let counting : List Event :=
      if st.nb_logins_for_cred = UINT16_MAX then
        [.logic_database_get_number_of_creds_for_service st.chosen_service_addr true]
      else []
    let nb := if st.nb_logins_for_cred = UINT16_MAX then counted.1 else st.nb_logins_for_cred
    let first_login :=
      if st.nb_logins_for_cred = UINT16_MAX then counted.2 else st.chosen_login_addr
    let selected := env.gui_prompts_ask_for_login_select (t ++ counting)
    let r := (manual_select_login_body d env keyb_fuel st).run t
    ((∃ e ∈ r.2.drop t.length, e.is_login_select = true) ↔ nb ≠ 1) ∧
    (nb ≠ 1 →
      r.2 = t ++ counting ++ [.gui_prompts_ask_for_login_select st.chosen_service_addr
        first_login selected.1 selected.2] ∧
      (selected.1 = .MINI_INPUT_RET_BACK →
        r.1 = .next { st with
          nb_logins_for_cred := nb, chosen_login_addr := selected.2, state_machine := 0 }) ∧
      (selected.1 = .MINI_INPUT_RET_YES →
        r.1 = .next { st with
          nb_logins_for_cred := nb, chosen_login_addr := selected.2, state_machine := 2 }) ∧
      (selected.1 ≠ .MINI_INPUT_RET_BACK → selected.1 ≠ .MINI_INPUT_RET_YES →
        r.1 = .returned none)) ∧
    (nb = 1 →
      r.2 = t ++ counting ∧
      (first_login ≠ NODE_ADDR_NULL →
        r.1 = .next { st with
          nb_logins_for_cred := 1, chosen_login_addr := first_login, state_machine := 2 })) := by
  intro counted counting nb first_login selected r
  have hr : r = (manual_select_login_body d env keyb_fuel st).run t := rfl
  clear_value r
  simp only [manual_select_login_body, hs, NODE_ADDR_NULL, emit, StateT.run, bind,
    StateT.bind, pure, StateT.pure, modify, modifyGet, MonadStateOf.modifyGet,
    StateT.modifyGet, get, getThe, MonadStateOf.get, StateT.get, run_ite, List.nil_append,
    List.cons_append, List.append_assoc, List.singleton_append, one_ne_zero, if_false,
    if_true] at hr
  split_ifs at hr <;> subst hr <;>
    simp_all [nb, first_login, counted, selected, counting, Event.is_login_select,
      NODE_ADDR_NULL]

/-- C16, on the sample device whose chosen service has one login, at address
4: the pass counts the logins and goes to the typing step with that login. -/
theorem C16_login_selection_witness :
    ((manual_select_login_body scenario_defines scenario_env_manual_one_login 3
      ⟨2, 0, false, true, UINT16_MAX, 1⟩).run []).2 =
      [.logic_database_get_number_of_creds_for_service 2 true] ∧
    ((manual_select_login_body scenario_defines scenario_env_manual_one_login 3
      ⟨2, 0, false, true, UINT16_MAX, 1⟩).run []).1 = .next ⟨2, 4, false, true, 1, 2⟩ :=
  ⟨((C16_login_selection_step scenario_defines scenario_env_manual_one_login 3
      ⟨2, 0, false, true, UINT16_MAX, 1⟩ [] rfl).2.2 (by decide)).1,
   ((C16_login_selection_step scenario_defines scenario_env_manual_one_login 3
      ⟨2, 0, false, true, UINT16_MAX, 1⟩ [] rfl).2.2 (by decide)).2 (by decide)⟩

/-- C17: in `logic_user_manual_select_login`, when the typing step (state 2)
returns RETURN_BACK, and when the display prompt (state 3) is answered BACK
while neither Bluetooth nor USB is connected, the next state is 1 (login
selection) if the number of logins is different from 1 and 0 (service
selection) if it is 1; and with exactly one login no pass from a state other
than 0 leads to state 1. -/
theorem C17_back_transitions (d : Defines) (env : Env) (keyb_fuel : Nat)
    (st : manual_select_state) (t : List Event) :
    let presented := if st.nb_logins_for_cred = 1 then 0 else 1
    (st.state_machine = 2 →
      let asked := (logic_user_ask_for_credentials_keyb_output d env keyb_fuel
        st.chosen_service_addr st.chosen_login_addr st.only_password_prompt
        st.usb_interface_output).run t
      asked.1.1 = some d.RETURN_BACK →
      (manual_select_login_body d env keyb_fuel st).run t =
        (.next { st with
          usb_interface_output := asked.1.2, only_password_prompt := false,
          state_machine := presented }, asked.2)) ∧
    (st.state_machine = 3 →
      let asking : List Event :=
        [.nodemgmt_read_parent_node st.chosen_service_addr,
         .custom_fs_get_string_from_file .QPROMPT_SNGL_DISP_CRED_TEXT_ID]
      let prompt : Event := .gui_prompts_ask_for_confirmation 2
        [cstr (env.nodemgmt_read_parent_node st.chosen_service_addr).service,
         env.custom_fs_get_string_from_file .QPROMPT_SNGL_DISP_CRED_TEXT_ID]
        false true .MINI_INPUT_RET_BACK
      env.gui_prompts_ask_for_confirmation (t ++ asking) = .MINI_INPUT_RET_BACK →
      env.logic_bluetooth_get_state (t ++ asking ++ [prompt]) = false →
      env.logic_aux_mcu_is_usb_enumerated
        (t ++ asking ++ [prompt, .logic_bluetooth_get_state false]) = false →
      (manual_select_login_body d env keyb_fuel st).run t =
        (.next { st with state_machine := presented },
          t ++ asking ++ [prompt, .logic_bluetooth_get_state false,
            .logic_aux_mcu_is_usb_enumerated false])) ∧
    (st.nb_logins_for_cred = 1 → st.state_machine ≠ 0 →
      ∀ st2, ((manual_select_login_body d env keyb_fuel st).run t).1 = .next st2 →
        st2.state_machine ≠ 1) := by
  intro presented
  refine ⟨?_, ?_, ?_⟩
  · intro hs asked hback
    have ha : asked = (logic_user_ask_for_credentials_keyb_output d env keyb_fuel
        st.chosen_service_addr st.chosen_login_addr st.only_password_prompt
        st.usb_interface_output) t := rfl
    clear_value asked
    simp only [manual_select_login_body, hs, emit, StateT.run, bind,
      StateT.bind, pure, StateT.pure, modify, modifyGet, MonadStateOf.modifyGet,
      StateT.modifyGet, get, getThe, MonadStateOf.get, StateT.get, run_ite, List.nil_append,
      List.cons_append, List.append_assoc, List.singleton_append, OfNat.ofNat_ne_zero,
      OfNat.ofNat_ne_one, if_false, if_true, ← ha]
    rcases asked with ⟨⟨res, usb⟩, t2⟩
    simp only at hback
    subst hback
    simp only [if_true, presented]
    split_ifs <;> rfl
  · intro hs asking prompt hanswer hbt husb
    simp only [asking, prompt, List.append_assoc, List.cons_append, List.nil_append]
      at hanswer hbt husb
    simp only [manual_select_login_body, poll_nothing_connected, poll_bluetooth_connected,
      poll_usb_enumerated, hs, emit, StateT.run, bind,
      StateT.bind, pure, StateT.pure, modify, modifyGet, MonadStateOf.modifyGet,
      StateT.modifyGet, get, getThe, MonadStateOf.get, StateT.get, run_ite, List.nil_append,
      List.cons_append, List.append_assoc, List.singleton_append, OfNat.ofNat_ne_zero,
      OfNat.ofNat_ne_one, if_false, if_true, hanswer, hbt, husb, presented, asking, prompt]
    split_ifs <;> simp_all
  · intro hnb h0 st2
    generalize hr : (manual_select_login_body d env keyb_fuel st).run t = r
    intro hst2
    by_cases h1 : st.state_machine = 1
    · simp only [manual_select_login_body, h1, hnb, UINT16_MAX, NODE_ADDR_NULL, emit,
        StateT.run, bind,
        StateT.bind, pure, StateT.pure, modify, modifyGet, MonadStateOf.modifyGet,
        StateT.modifyGet, get, getThe, MonadStateOf.get, StateT.get, run_ite, List.nil_append,
        List.cons_append, List.append_assoc, List.singleton_append, OfNat.ofNat_ne_zero,
        OfNat.ofNat_ne_one, one_ne_zero, if_false, if_true] at hr
      split_ifs at hr <;> subst hr <;> simp [StateT.pure] at hst2 <;>
        (try subst hst2) <;> simp_all
    by_cases h2 : st.state_machine = 2
    · simp only [manual_select_login_body, h2, hnb, emit, StateT.run, bind,
        StateT.bind, pure, StateT.pure, modify, modifyGet, MonadStateOf.modifyGet,
        StateT.modifyGet, get, getThe, MonadStateOf.get, StateT.get, run_ite, List.nil_append,
        List.cons_append, List.append_assoc, List.singleton_append, OfNat.ofNat_ne_zero,
        OfNat.ofNat_ne_one, if_false, if_true] at hr
      generalize (logic_user_ask_for_credentials_keyb_output d env keyb_fuel
        st.chosen_service_addr st.chosen_login_addr st.only_password_prompt
        st.usb_interface_output t) = k at hr
      rcases k with ⟨⟨res, usb⟩, t2⟩
      cases res with
      | none =>
        simp only at hr
        subst hr
        simp [StateT.pure] at hst2
      | some v =>
        simp only [run_ite] at hr
        split_ifs at hr <;> subst hr <;> simp [StateT.pure] at hst2 <;>
        (try subst hst2) <;> simp_all
    by_cases h3 : st.state_machine = 3
    · simp only [manual_select_login_body, poll_nothing_connected, poll_bluetooth_connected,
        poll_usb_enumerated, h3, hnb, emit, StateT.run, bind,
        StateT.bind, pure, StateT.pure, modify, modifyGet, MonadStateOf.modifyGet,
        StateT.modifyGet, get, getThe, MonadStateOf.get, StateT.get, run_ite, List.nil_append,
        List.cons_append, List.append_assoc, List.singleton_append, OfNat.ofNat_ne_zero,
        OfNat.ofNat_ne_one, if_false, if_true] at hr
      split_ifs at hr <;> subst hr <;> simp [StateT.pure] at hst2 <;>
        (try split_ifs at hst2) <;> (try simp at hst2) <;> (try subst hst2) <;> simp_all
    · simp only [manual_select_login_body, h0, h1, h2, h3, if_false, StateT.run, pure,
        StateT.pure] at hr
      subst hr
      simp only [manual_select_step_t.next.injEq] at hst2
      subst hst2
      exact h1

/-- C17, on the sample device with nothing connected and one login: BACK at
the display prompt leads to service selection. -/
theorem C17_back_transitions_witness :
    (manual_select_login_body scenario_defines scenario_env_back_unconnected 3
      ⟨2, 4, false, true, 1, 3⟩).run [] =
      (.next ⟨2, 4, false, true, 1, 0⟩,
        [.nodemgmt_read_parent_node 2,
         .custom_fs_get_string_from_file .QPROMPT_SNGL_DISP_CRED_TEXT_ID,
         .gui_prompts_ask_for_confirmation 2 [[97], []] false true .MINI_INPUT_RET_BACK,
         .logic_bluetooth_get_state false, .logic_aux_mcu_is_usb_enumerated false]) :=
  (C17_back_transitions scenario_defines scenario_env_back_unconnected 3
    ⟨2, 4, false, true, 1, 3⟩ []).2.1 rfl rfl rfl rfl

set_option maxHeartbeats 4000000 in
/-- C18: (1) in `logic_user_ask_for_credentials_keyb_output` started without
`only_pwd_prompt` on a connected device, for a credential with a login, if
the user refuses the login typing prompt and then the password typing prompt
(neither YES, BACK nor card removal), the function returns RETURN_NOK for
every fuel of at least 3, with no typing message sent and these two
confirmation prompts only; (2) when the typing step of
`logic_user_manual_select_login` returns RETURN_NOK (a code different from
RETURN_BACK) the next state is 3; (3) a pass in state 3 reads the parent node
and presents the display prompt, and on the answer YES reads the child node,
displays login and password and returns with the node buffer zeroed. -/
theorem C18_declined_typing_leads_to_display_offer (d : Defines) (env : Env) :
    (∀ (fuel parent child : Nat) (usb_selected bt usb : Bool)
        (a1 a2 s : mini_input_yes_no_ret_te) (t : List Event),
      (∀ h, env.logic_bluetooth_get_state h = bt) →
      (∀ h, env.logic_aux_mcu_is_usb_enumerated h = usb) →
      (bt = true ∨ usb = true) →
      (∀ h, env.gui_prompts_ask_for_one_line_confirmation h = s) →
      (s = .MINI_INPUT_RET_YES ∨ s = .MINI_INPUT_RET_NO) →
      (env.nodemgmt_read_cred_child_node child).login.headD 0 ≠ 0 →
      (∀ h, h.getLast? = some (.custom_fs_get_string_from_file .TYPE_LOGIN_TEXT_ID) →
        env.gui_prompts_ask_for_confirmation h = a1) →
      (∀ h, h.getLast? = some (.custom_fs_get_string_from_file .TYPE_PASSWORD_TEXT_ID) →
        env.gui_prompts_ask_for_confirmation h = a2) →
      a1.is_refusal → a2.is_refusal → 3 ≤ fuel →
      let r := (logic_user_ask_for_credentials_keyb_output d env fuel parent child false
        usb_selected).run t
      r.1.1 = some d.RETURN_NOK ∧
      (∀ e ∈ r.2.drop t.length, e.is_typing_message = false) ∧
      confirmation_answers (r.2.drop t.length) = [a1, a2]) ∧
    (∀ (keyb_fuel : Nat) (st : manual_select_state) (t : List Event),
      st.state_machine = 2 → d.RETURN_NOK ≠ d.RETURN_BACK →
      let asked := (logic_user_ask_for_credentials_keyb_output d env keyb_fuel
        st.chosen_service_addr st.chosen_login_addr st.only_password_prompt
        st.usb_interface_output).run t
      asked.1.1 = some d.RETURN_NOK →
      (manual_select_login_body d env keyb_fuel st).run t =
        (.next { st with usb_interface_output := asked.1.2, state_machine := 3 }, asked.2)) ∧
    (∀ (keyb_fuel : Nat) (st : manual_select_state) (t : List Event),
      st.state_machine = 3 →
      let asking : List Event :=
        [.nodemgmt_read_parent_node st.chosen_service_addr,
         .custom_fs_get_string_from_file .QPROMPT_SNGL_DISP_CRED_TEXT_ID]
      let answer := env.gui_prompts_ask_for_confirmation (t ++ asking)
      let prompt : Event := .gui_prompts_ask_for_confirmation 2
        [cstr (env.nodemgmt_read_parent_node st.chosen_service_addr).service,
         env.custom_fs_get_string_from_file .QPROMPT_SNGL_DISP_CRED_TEXT_ID]
        false true answer
      let r := (manual_select_login_body d env keyb_fuel st).run t
      (t ++ asking ++ [prompt]) <+: r.2 ∧
      (answer = .MINI_INPUT_RET_YES →
        r = (.returned (some .zeroed),
          t ++ asking ++ [prompt, .nodemgmt_read_cred_child_node st.chosen_login_addr,
            .logic_gui_display_login_password
              (env.nodemgmt_read_cred_child_node st.chosen_login_addr)]))) := by
  refine ⟨?_, ?_, ?_⟩
  · intro fuel parent child usb_selected bt usb a1 a2 s t hb hu hconn hs hs2 hl h1 h2 ha1 ha2
      hf r
    have hr : r = (logic_user_ask_for_credentials_keyb_output d env fuel parent child false
        usb_selected).run t := rfl
    clear_value r
    obtain ⟨k, rfl⟩ : ∃ k, fuel = k + 3 := ⟨fuel - 3, by omega⟩
    obtain ⟨ha11, ha12, ha13⟩ := ha1
    obtain ⟨ha21, ha22, ha23⟩ := ha2
    have hl2 : ¬ (env.nodemgmt_read_cred_child_node child).login.headD 0 = 0 := hl
    cases bt <;> cases usb <;>
    simp only [or_self, or_true, true_or, Bool.false_eq_true] at hconn <;>
    rcases hs2 with rfl | rfl <;>
    simp only [logic_user_ask_for_credentials_keyb_output, keyb_output_loop,
      poll_nothing_connected, poll_both_interfaces_connected, poll_bluetooth_connected,
      poll_usb_enumerated, hb, hu, hs, hl2, ↓reduceIte, emit, StateT.run, bind,
      StateT.bind, pure, StateT.pure, modify, modifyGet, MonadStateOf.modifyGet,
      StateT.modifyGet, get, getThe, MonadStateOf.get, StateT.get, run_ite, List.nil_append,
      List.cons_append, List.append_assoc, List.singleton_append, OfNat.ofNat_ne_zero,
      OfNat.ofNat_ne_one, one_ne_zero, if_false, if_true, ne_eq, not_true_eq_false,
      not_false_eq_true, Nat.zero_add, Nat.reduceAdd, Bool.not_true, Bool.not_false,
      Bool.false_eq_true, reduceCtorEq] at hr <;>
    simp only [h1, h2, List.getLast?_append, List.getLast?_cons_cons, List.getLast?_singleton,
      Option.or_some, ha11, ha12, ha13, ha21,
      ha22, ha23, if_false, if_true, keyb_output_loop,
      poll_nothing_connected, poll_both_interfaces_connected, poll_bluetooth_connected,
      poll_usb_enumerated, hb, hu, hs, hl2, ↓reduceIte, emit, StateT.run, bind,
      StateT.bind, pure, StateT.pure, modify, modifyGet, MonadStateOf.modifyGet,
      StateT.modifyGet, get, getThe, MonadStateOf.get, StateT.get, run_ite, List.nil_append,
      List.cons_append, List.append_assoc, List.singleton_append, OfNat.ofNat_ne_zero,
      OfNat.ofNat_ne_one, one_ne_zero, ne_eq, not_true_eq_false,
      not_false_eq_true, Nat.zero_add, Nat.reduceAdd, Bool.not_true, Bool.not_false,
      Bool.false_eq_true, reduceCtorEq] at hr <;>
    (try split_ifs at hr) <;> subst hr <;>
    simp [Event.is_typing_message, confirmation_answers, Event.confirmation_answer]
  · intro keyb_fuel st t hs hne asked hnok
    have ha : asked = (logic_user_ask_for_credentials_keyb_output d env keyb_fuel
        st.chosen_service_addr st.chosen_login_addr st.only_password_prompt
        st.usb_interface_output) t := rfl
    clear_value asked
    simp only [manual_select_login_body, hs, emit, StateT.run, bind,
      StateT.bind, pure, StateT.pure, modify, modifyGet, MonadStateOf.modifyGet,
      StateT.modifyGet, get, getThe, MonadStateOf.get, StateT.get, run_ite, List.nil_append,
      List.cons_append, List.append_assoc, List.singleton_append, OfNat.ofNat_ne_zero,
      OfNat.ofNat_ne_one, if_false, if_true, ← ha]
    rcases asked with ⟨⟨res, usb⟩, t2⟩
    simp only at hnok
    subst hnok
    simp only [hne, if_false, if_true]
    rfl
  · intro keyb_fuel st t hs asking answer prompt r
    have hr : r = (manual_select_login_body d env keyb_fuel st).run t := rfl
    clear_value r
    simp only [manual_select_login_body, poll_nothing_connected, poll_bluetooth_connected,
      poll_usb_enumerated, hs, emit, StateT.run, bind,
      StateT.bind, pure, StateT.pure, modify, modifyGet, MonadStateOf.modifyGet,
      StateT.modifyGet, get, getThe, MonadStateOf.get, StateT.get, run_ite, List.nil_append,
      List.cons_append, List.append_assoc, List.singleton_append, OfNat.ofNat_ne_zero,
      OfNat.ofNat_ne_one, if_false, if_true] at hr
    split_ifs at hr <;> subst hr <;>
      simp only [asking, answer, prompt, List.append_assoc, List.cons_append, List.nil_append,
        List.prefix_append_right_inj, List.cons_prefix_cons, List.nil_prefix, true_and,
        and_true] <;>
      (try split_ifs) <;> simp_all

/-- C18, on the sample device whose user refuses both typing prompts and
accepts the display: the typing step returns RETURN_NOK, and the whole of
`logic_user_manual_select_login` returns with the node buffer zeroed. -/
theorem C18_declined_typing_witness :
    ((logic_user_ask_for_credentials_keyb_output scenario_defines
      scenario_env_manual_one_login 3 2 4 false true).run []).1.1 =
      some scenario_defines.RETURN_NOK ∧
    ((logic_user_manual_select_login scenario_defines scenario_env_manual_one_login 4
      3).run []).1 = .returned (some .zeroed) :=
  ⟨((C18_declined_typing_leads_to_display_offer scenario_defines
      scenario_env_manual_one_login).1 3 2 4 true false true .MINI_INPUT_RET_NO
      .MINI_INPUT_RET_NO .MINI_INPUT_RET_YES [] (fun _ => rfl) (fun _ => rfl) (Or.inr rfl)
      (fun _ => rfl) (Or.inl rfl) (by decide)
      (by intro h hh; simp [scenario_env_manual_one_login, hh])
      (by intro h hh; simp [scenario_env_manual_one_login, hh])
      ⟨by decide, by decide, by decide⟩ ⟨by decide, by decide, by decide⟩ (by decide)).1,
   by decide⟩

/-! ### Typing the credential on a connected interface -/

/-- `typing_message_sent`, call by call. -/
theorem typing_message_sent_cons (e : Event) (l : List Event) :
    typing_message_sent (e :: l) = (e.is_typing_message || typing_message_sent l) := by
  simp [typing_message_sent]

/-- `typing_message_sent` of two traces put end to end. -/
theorem typing_message_sent_append (l₁ l₂ : List Event) :
    typing_message_sent (l₁ ++ l₂) = (typing_message_sent l₁ || typing_message_sent l₂) := by
  simp [typing_message_sent]

/-- Nothing is typed in the empty trace. -/
theorem typing_message_sent_nil : typing_message_sent [] = false := rfl

/-- `password_decrypted`, call by call. -/
theorem password_decrypted_cons (e : Event) (l : List Event) :
    password_decrypted (e :: l) = (e.is_decrypt || password_decrypted l) := by
  simp [password_decrypted]

/-- `password_decrypted` of two traces put end to end. -/
theorem password_decrypted_append (l₁ l₂ : List Event) :
    password_decrypted (l₁ ++ l₂) = (password_decrypted l₁ || password_decrypted l₂) := by
  simp [password_decrypted]

/-- Nothing is decrypted in the empty trace. -/
theorem password_decrypted_nil : password_decrypted [] = false := rfl

/-- The polls send no typing message and decrypt nothing. -/
theorem poll_both_interfaces_connected_calls_silent (env : Env) (t : List Event) :
    typing_message_sent (poll_both_interfaces_connected_calls env t) = false ∧
    password_decrypted (poll_both_interfaces_connected_calls env t) = false := by
  unfold poll_both_interfaces_connected_calls
  split_ifs <;> simp [typing_message_sent, password_decrypted, Event.is_typing_message,
    Event.is_decrypt]

/-- The typing calls decrypt nothing. -/
theorem keyb_type_string_calls_no_decrypt (d : Defines) (env : Env) (text : List Nat)
    (key_after : Nat) (usb_selected : Bool) (interface_id : Nat) (t : List Event) :
    password_decrypted
      (keyb_type_string_calls d env text key_after usb_selected interface_id t) = false := by
  simp only [keyb_type_string_calls, keyb_type_string, emit, StateT.run, bind,
    StateT.bind, pure, StateT.pure, modify, modifyGet, MonadStateOf.modifyGet,
    StateT.modifyGet, get, getThe, MonadStateOf.get, StateT.get, run_ite, List.nil_append,
    List.cons_append, List.append_assoc, List.singleton_append]
  split_ifs <;> simp [password_decrypted, Event.is_decrypt]

set_option maxHeartbeats 4000000 in
/-- The loop of `logic_user_ask_for_credentials_keyb_output` keeps the flag
`login_or_password_typed` set once a typing message is sent, and returns as
soon as it has decrypted the password. -/
theorem keyb_output_loop_typed (d : Defines) (env : Env) (first_line : List Nat) :
    ∀ (fuel : Nat) (st : keyb_output_state) (t : List Event),
    (typing_message_sent t = true → st.login_or_password_typed = true) →
    password_decrypted t = false →
    typed_run_result d ((keyb_output_loop d env first_line fuel st).run t).1
      ((keyb_output_loop d env first_line fuel st).run t).2 := by
  intro fuel
  induction fuel with
  | zero =>
    intro st t _ _
    simp [keyb_output_loop, StateT.run, pure, StateT.pure, typed_run_result]
  | succ fuel ih =>
    intro st t hty hde
    have hp1 := fun t => (poll_both_interfaces_connected_calls_silent env t).1
    have hp2 := fun t => (poll_both_interfaces_connected_calls_silent env t).2
    by_cases h0 : st.state_machine = 0
    · simp only [keyb_output_loop, h0, if_true, poll_both_interfaces_connected_run,
        poll_bluetooth_connected, emit, StateT.run, bind,
        StateT.bind, pure, StateT.pure, modify, modifyGet, MonadStateOf.modifyGet,
        StateT.modifyGet, get, getThe, MonadStateOf.get, StateT.get, run_ite, List.nil_append,
        List.cons_append, List.append_assoc, List.singleton_append]
      split_ifs <;> (try refine ih _ _ ?_ ?_) <;>
        simp_all [typed_run_result, typing_message_sent_cons, typing_message_sent_append,
          typing_message_sent_nil, password_decrypted_cons, password_decrypted_append,
          password_decrypted_nil, Event.is_typing_message, Event.is_decrypt,
          keyb_type_string_calls_no_decrypt]
    by_cases h1 : st.state_machine = 1
    · simp only [keyb_output_loop, h1, if_true, poll_both_interfaces_connected_run,
        keyb_type_string_run,
        poll_bluetooth_connected, emit, StateT.run, bind,
        StateT.bind, pure, StateT.pure, modify, modifyGet, MonadStateOf.modifyGet,
        StateT.modifyGet, get, getThe, MonadStateOf.get, StateT.get, run_ite, List.nil_append,
        List.cons_append, List.append_assoc, List.singleton_append, one_ne_zero, if_false]
      split_ifs <;> (try refine ih _ _ ?_ ?_) <;>
        simp_all [typed_run_result, typing_message_sent_cons, typing_message_sent_append,
          typing_message_sent_nil, password_decrypted_cons, password_decrypted_append,
          password_decrypted_nil, Event.is_typing_message, Event.is_decrypt,
          keyb_type_string_calls_no_decrypt]
    by_cases h2 : st.state_machine = 2
    · simp only [keyb_output_loop, h2, if_true, poll_both_interfaces_connected_run,
        keyb_type_string_run,
        poll_bluetooth_connected, emit, StateT.run, bind,
        StateT.bind, pure, StateT.pure, modify, modifyGet, MonadStateOf.modifyGet,
        StateT.modifyGet, get, getThe, MonadStateOf.get, StateT.get, run_ite, List.nil_append,
        List.cons_append, List.append_assoc, List.singleton_append, OfNat.ofNat_ne_zero,
        OfNat.ofNat_ne_one, if_false]
      split_ifs <;> (try refine ih _ _ ?_ ?_) <;>
        simp_all [typed_run_result, typing_message_sent_cons, typing_message_sent_append,
          typing_message_sent_nil, password_decrypted_cons, password_decrypted_append,
          password_decrypted_nil, Event.is_typing_message, Event.is_decrypt,
          keyb_type_string_calls_no_decrypt]
    · simp only [keyb_output_loop, h0, h1, h2, if_false]
      exact ih _ _ hty hde


/-- The run of `logic_user_ask_for_credentials_keyb_output` from the empty
trace has the guarantees of `typed_run_result`. -/
theorem logic_user_ask_for_credentials_keyb_output_typed (d : Defines) (env : Env)
    (fuel parent_address child_address : Nat) (only_pwd_prompt usb_selected : Bool) :
    typed_run_result d
      ((logic_user_ask_for_credentials_keyb_output d env fuel parent_address child_address
        only_pwd_prompt usb_selected).run []).1
      ((logic_user_ask_for_credentials_keyb_output d env fuel parent_address child_address
        only_pwd_prompt usb_selected).run []).2 := by
  have hloop := keyb_output_loop_typed d env
  simp only [StateT.run] at hloop
  cases hb : env.logic_bluetooth_get_state [] <;>
  cases hu : env.logic_aux_mcu_is_usb_enumerated [Event.logic_bluetooth_get_state false] <;>
  simp only [logic_user_ask_for_credentials_keyb_output, poll_nothing_connected,
    poll_bluetooth_connected, poll_usb_enumerated, emit, StateT.run, bind,
    StateT.bind, pure, StateT.pure, modify, modifyGet, MonadStateOf.modifyGet,
    StateT.modifyGet, get, getThe, MonadStateOf.get, StateT.get, run_ite, List.nil_append,
    List.cons_append, List.append_assoc, List.singleton_append, hb, hu, if_true, if_false,
    Bool.not_true, Bool.not_false, reduceCtorEq] <;>
  (try split_ifs) <;>
    first
    | (refine hloop _ _ _ _ ?_ ?_ <;>
        simp [typing_message_sent, password_decrypted, Event.is_typing_message,
          Event.is_decrypt])
    | simp [typed_run_result, typing_message_sent, password_decrypted,
        Event.is_typing_message, Event.is_decrypt]

/-- From state 2 the loop returns within one pass when no confirmation prompt
is answered BACK. -/
theorem keyb_output_loop_returns_from_2 (d : Defines) (env : Env) (first_line : List Nat)
    (hback : ∀ h, env.gui_prompts_ask_for_confirmation h ≠ .MINI_INPUT_RET_BACK)
    (fuel : Nat) (st : keyb_output_state) (t : List Event)
    (hs : st.state_machine = 2) (hf : 1 ≤ fuel) :
    ((keyb_output_loop d env first_line fuel st).run t).1.1 ≠ none := by
  obtain ⟨k, rfl⟩ : ∃ k, fuel = k + 1 := ⟨fuel - 1, by omega⟩
  simp only [keyb_output_loop, hs, keyb_type_string_run, hback, emit, StateT.run, bind,
    StateT.bind, pure, StateT.pure, modify, modifyGet, MonadStateOf.modifyGet,
    StateT.modifyGet, get, getThe, MonadStateOf.get, StateT.get, run_ite, List.nil_append,
    List.cons_append, List.append_assoc, List.singleton_append, OfNat.ofNat_ne_zero,
    OfNat.ofNat_ne_one, if_false, ↓reduceIte]
  split_ifs <;> simp

/-- From state 1 the loop returns within two passes when no confirmation
prompt is answered BACK. -/
theorem keyb_output_loop_returns_from_1 (d : Defines) (env : Env) (first_line : List Nat)
    (hback : ∀ h, env.gui_prompts_ask_for_confirmation h ≠ .MINI_INPUT_RET_BACK)
    (fuel : Nat) (st : keyb_output_state) (t : List Event)
    (hs : st.state_machine = 1) (hf : 2 ≤ fuel) :
    ((keyb_output_loop d env first_line fuel st).run t).1.1 ≠ none := by
  obtain ⟨k, rfl⟩ : ∃ k, fuel = k + 1 := ⟨fuel - 1, by omega⟩
  have hk : 1 ≤ k := by omega
  simp only [keyb_output_loop, hs, keyb_type_string_run, hback, emit, StateT.run, bind,
    StateT.bind, pure, StateT.pure, modify, modifyGet, MonadStateOf.modifyGet,
    StateT.modifyGet, get, getThe, MonadStateOf.get, StateT.get, run_ite, List.nil_append,
    List.cons_append, List.append_assoc, List.singleton_append, one_ne_zero, if_false,
    if_true, ↓reduceIte]
  split_ifs <;>
    first
    | exact keyb_output_loop_returns_from_2 d env first_line hback k _ _ rfl hk
    | simp

/-- From state 0 the loop returns within three passes when no confirmation
prompt is answered BACK. -/
theorem keyb_output_loop_returns_from_0 (d : Defines) (env : Env) (first_line : List Nat)
    (hback : ∀ h, env.gui_prompts_ask_for_confirmation h ≠ .MINI_INPUT_RET_BACK)
    (fuel : Nat) (st : keyb_output_state) (t : List Event)
    (hs : st.state_machine = 0) (hf : 3 ≤ fuel) :
    ((keyb_output_loop d env first_line fuel st).run t).1.1 ≠ none := by
  obtain ⟨k, rfl⟩ : ∃ k, fuel = k + 1 := ⟨fuel - 1, by omega⟩
  have hk : 2 ≤ k := by omega
  simp only [keyb_output_loop, hs, poll_both_interfaces_connected_run,
    poll_bluetooth_connected, emit, StateT.run, bind,
    StateT.bind, pure, StateT.pure, modify, modifyGet, MonadStateOf.modifyGet,
    StateT.modifyGet, get, getThe, MonadStateOf.get, StateT.get, run_ite, List.nil_append,
    List.cons_append, List.append_assoc, List.singleton_append, if_true, ↓reduceIte]
  split_ifs <;>
    first
    | exact keyb_output_loop_returns_from_1 d env first_line hback k _ _ rfl hk
    | simp

/-- `logic_user_ask_for_credentials_keyb_output` returns within three passes of
its loop when no confirmation prompt is answered BACK. -/
theorem logic_user_ask_for_credentials_keyb_output_returns (d : Defines) (env : Env)
    (hback : ∀ h, env.gui_prompts_ask_for_confirmation h ≠ .MINI_INPUT_RET_BACK)
    (fuel parent_address child_address : Nat) (only_pwd_prompt usb_selected : Bool)
    (t : List Event) (hf : 3 ≤ fuel) :
    ((logic_user_ask_for_credentials_keyb_output d env fuel parent_address child_address
      only_pwd_prompt usb_selected).run t).1.1 ≠ none := by
  cases hb : env.logic_bluetooth_get_state t <;>
  cases hu : env.logic_aux_mcu_is_usb_enumerated (t ++ [Event.logic_bluetooth_get_state false]) <;>
  cases only_pwd_prompt <;>
  simp only [logic_user_ask_for_credentials_keyb_output, poll_nothing_connected,
    poll_bluetooth_connected, poll_usb_enumerated, emit, StateT.run, bind,
    StateT.bind, pure, StateT.pure, modify, modifyGet, MonadStateOf.modifyGet,
    StateT.modifyGet, get, getThe, MonadStateOf.get, StateT.get, run_ite, List.nil_append,
    List.cons_append, List.append_assoc, List.singleton_append, hb, hu, if_true, if_false,
    Bool.not_true, Bool.not_false, reduceCtorEq, ne_eq, not_true_eq_false,
    not_false_eq_true, Bool.false_eq_true] <;>
  (try split_ifs) <;>
    first
    | exact keyb_output_loop_returns_from_0 d env _ hback fuel _ _ rfl hf
    | exact keyb_output_loop_returns_from_2 d env _ hback fuel _ _ rfl (by omega)

/-- C19, as the claim states it, fails: on the sample device whose user has
the login typed, then answers BACK to the password prompt and BACK to the
login prompt, a typing message was sent and the function returns RETURN_BACK,
which is not RETURN_OK. -/
theorem C19_back_after_typed_login_returns_back :
    let r := (logic_user_ask_for_credentials_keyb_output scenario_defines
      scenario_env_login_typed_then_back 4 2 4 false true).run []
    typing_message_sent r.2 = true ∧ r.1.1 = some scenario_defines.RETURN_BACK ∧
      scenario_defines.RETURN_BACK ≠ scenario_defines.RETURN_OK := by
  decide

/-- C19, amended: every run of `logic_user_ask_for_credentials_keyb_output`
that returns after a typing message was sent returns RETURN_OK or RETURN_BACK,
and RETURN_OK if it has decrypted (and typed) the password; RETURN_NOK (a code
different from the other two) is returned only when no typing message was
sent; and the function returns within three passes of its loop when no
confirmation prompt is answered BACK. -/
theorem C19_typed_run_returns_ok_or_back (d : Defines) (env : Env)
    (fuel parent_address child_address : Nat) (only_pwd_prompt usb_selected : Bool) :
    let r := (logic_user_ask_for_credentials_keyb_output d env fuel parent_address
      child_address only_pwd_prompt usb_selected).run []
    (∀ v, r.1.1 = some v →
      (typing_message_sent r.2 = true → v = d.RETURN_OK ∨ v = d.RETURN_BACK) ∧
      (password_decrypted r.2 = true → v = d.RETURN_OK) ∧
      (v = d.RETURN_NOK → d.RETURN_NOK ≠ d.RETURN_OK → d.RETURN_NOK ≠ d.RETURN_BACK →
        typing_message_sent r.2 = false)) ∧
    ((∀ h, env.gui_prompts_ask_for_confirmation h ≠ .MINI_INPUT_RET_BACK) → 3 ≤ fuel →
      r.1.1 ≠ none) := by
  intro r
  refine ⟨?_, ?_⟩
  · intro v hv
    have h := logic_user_ask_for_credentials_keyb_output_typed d env fuel parent_address
      child_address only_pwd_prompt usb_selected v hv
    refine ⟨h.1, h.2, ?_⟩
    intro hnok h1 h2
    cases hty : typing_message_sent r.2
    · rfl
    · rcases h.1 hty with h3 | h3
      · exact absurd (hnok.symm.trans h3) h1
      · exact absurd (hnok.symm.trans h3) h2
  · intro hback hf
    exact logic_user_ask_for_credentials_keyb_output_returns d env hback fuel parent_address
      child_address only_pwd_prompt usb_selected [] hf

/-- C19, on the sample device whose user answers YES to every prompt: the
function returns, a typing message was sent and the value is RETURN_OK. -/
theorem C19_typed_run_witness :
    ((logic_user_ask_for_credentials_keyb_output scenario_defines scenario_env 3 2 4 false
      true).run []).1.1 ≠ none ∧
    ((0 : Int) = scenario_defines.RETURN_OK ∨ (0 : Int) = scenario_defines.RETURN_BACK) :=
  ⟨(C19_typed_run_returns_ok_or_back scenario_defines scenario_env 3 2 4 false true).2
      (by intro h; simp [scenario_env]) (by decide),
   ((C19_typed_run_returns_ok_or_back scenario_defines scenario_env 3 2 4 false true).1 0
      (by decide)).1 (by decide)⟩

/-- `interface_selection_shown`, call by call. -/
theorem interface_selection_shown_cons (e : Event) (l : List Event) :
    interface_selection_shown (e :: l) =
      (e.is_interface_selection || interface_selection_shown l) := by
  simp [interface_selection_shown]

/-- `interface_selection_shown` of two traces put end to end. -/
theorem interface_selection_shown_append (l₁ l₂ : List Event) :
    interface_selection_shown (l₁ ++ l₂) =
      (interface_selection_shown l₁ || interface_selection_shown l₂) := by
  simp [interface_selection_shown]

/-- No prompt is shown in the empty trace. -/
theorem interface_selection_shown_nil : interface_selection_shown [] = false := rfl

/-- `typing_interfaces`, call by call. -/
theorem typing_interfaces_cons (e : Event) (l : List Event) :
    typing_interfaces (e :: l) = e.typing_interface.toList ++ typing_interfaces l := by
  unfold typing_interfaces
  cases h : e.typing_interface <;> simp [List.filterMap_cons, h]

/-- `typing_interfaces` of two traces put end to end. -/
theorem typing_interfaces_append (l₁ l₂ : List Event) :
    typing_interfaces (l₁ ++ l₂) = typing_interfaces l₁ ++ typing_interfaces l₂ := by
  simp [typing_interfaces]

/-- No message is typed in the empty trace. -/
theorem typing_interfaces_nil : typing_interfaces [] = [] := rfl

/-- `types_only_to`, call by call. -/
theorem types_only_to_cons (id : Nat) (e : Event) (l : List Event) :
    types_only_to id (e :: l) =
      (e.typing_interface.all (fun i => i == id) && types_only_to id l) := by
  simp [types_only_to]

/-- `types_only_to` of two traces put end to end. -/
theorem types_only_to_append (id : Nat) (l₁ l₂ : List Event) :
    types_only_to id (l₁ ++ l₂) = (types_only_to id l₁ && types_only_to id l₂) := by
  simp [types_only_to]

/-- The empty trace types nowhere else. -/
theorem types_only_to_nil (id : Nat) : types_only_to id [] = true := rfl

/-- What `types_only_to` says of the interface identifiers of a trace. -/
theorem types_only_to_iff (id : Nat) (t : List Event) :
    types_only_to id t = true ↔ ∀ i ∈ typing_interfaces t, i = id := by
  induction t with
  | nil => simp [types_only_to, typing_interfaces]
  | cons e l ih =>
    rw [types_only_to_cons, typing_interfaces_cons, Bool.and_eq_true, ih]
    cases h : e.typing_interface <;> simp

/-- With a connection state that does not change, the value of the condition
"both interfaces connected". -/
theorem poll_both_interfaces_connected_value_stable (env : Env) (bt usb : Bool)
    (hb : ∀ h, env.logic_bluetooth_get_state h = bt)
    (hu : ∀ h, env.logic_aux_mcu_is_usb_enumerated h = usb) (t : List Event) :
    poll_both_interfaces_connected_value env t = (bt && usb) := by
  simp only [poll_both_interfaces_connected_value, hb, hu]
  cases bt <;> simp

/-- The polls show no prompt and type nothing. -/
theorem poll_both_interfaces_connected_calls_no_prompt (env : Env) (t : List Event) :
    interface_selection_shown (poll_both_interfaces_connected_calls env t) = false := by
  unfold poll_both_interfaces_connected_calls
  split_ifs <;> simp [interface_selection_shown, Event.is_interface_selection]

/-- The polls type nothing. -/
theorem poll_both_interfaces_connected_calls_target (env : Env) (id : Nat) (t : List Event) :
    types_only_to id (poll_both_interfaces_connected_calls env t) = true := by
  unfold poll_both_interfaces_connected_calls
  split_ifs <;> simp [types_only_to, Event.typing_interface]

/-- The typing calls show no selection prompt. -/
theorem keyb_type_string_calls_no_prompt (d : Defines) (env : Env) (text : List Nat)
    (key_after : Nat) (usb_selected : Bool) (interface_id : Nat) (t : List Event) :
    interface_selection_shown
      (keyb_type_string_calls d env text key_after usb_selected interface_id t) = false := by
  simp only [keyb_type_string_calls, keyb_type_string, emit, StateT.run, bind,
    StateT.bind, pure, StateT.pure, modify, modifyGet, MonadStateOf.modifyGet,
    StateT.modifyGet, get, getThe, MonadStateOf.get, StateT.get, run_ite, List.nil_append,
    List.cons_append, List.append_assoc, List.singleton_append]
  split_ifs <;> simp [interface_selection_shown, Event.is_interface_selection]

/-- The typing calls send their message to the interface they are given. -/
theorem keyb_type_string_calls_target (d : Defines) (env : Env) (text : List Nat)
    (key_after : Nat) (usb_selected : Bool) (interface_id : Nat) (t : List Event) :
    types_only_to interface_id
      (keyb_type_string_calls d env text key_after usb_selected interface_id t) = true := by
  simp only [keyb_type_string_calls, keyb_type_string, emit, StateT.run, bind,
    StateT.bind, pure, StateT.pure, modify, modifyGet, MonadStateOf.modifyGet,
    StateT.modifyGet, get, getThe, MonadStateOf.get, StateT.get, run_ite, List.nil_append,
    List.cons_append, List.append_assoc, List.singleton_append]
  split_ifs <;> simp [types_only_to, Event.typing_interface]

/-- Weakening of the last component of a conjunction. -/
theorem weaken_third {A B C P : Prop} (h : A ∧ B ∧ C) : A ∧ B ∧ (P → C) :=
  ⟨h.1, h.2.1, fun _ => h.2.2⟩

set_option maxHeartbeats 4000000 in
/-- With a connection state that does not change and not both interfaces
connected, the loop shows no selection prompt, types to the connected
interface only (`target_id`) and leaves `*usb_selected` saying which one it
is (`target_usb`). -/
theorem keyb_output_loop_single_interface (d : Defines) (env : Env) (first_line : List Nat)
    (bt usb : Bool)
    (hb : ∀ h, env.logic_bluetooth_get_state h = bt)
    (hu : ∀ h, env.logic_aux_mcu_is_usb_enumerated h = usb)
    (hnb : (bt && usb) = false) (target_usb : Bool) (target_id : Nat)
    (htu : target_usb = !bt) (hti : target_id = if bt = true then 1 else 0) :
    ∀ (fuel : Nat) (st : keyb_output_state) (t : List Event),
    (st.state_machine ≠ 0 → st.usb_selected = target_usb ∧ st.interface_id = target_id) →
    interface_selection_shown t = false →
    types_only_to target_id t = true →
    interface_selection_shown ((keyb_output_loop d env first_line fuel st).run t).2 = false ∧
    types_only_to target_id ((keyb_output_loop d env first_line fuel st).run t).2 = true ∧
    (st.state_machine ≠ 0 ∨ 1 ≤ fuel →
      ((keyb_output_loop d env first_line fuel st).run t).1.2 = target_usb) := by
  intro fuel
  induction fuel with
  | zero =>
    intro st t hst hsel hty
    simp only [keyb_output_loop, StateT.run, pure, StateT.pure]
    refine ⟨hsel, hty, ?_⟩
    intro h
    rcases h with h | h
    · exact (hst h).1
    · omega
  | succ fuel ih =>
    intro st t hst hsel hty
    have ih2 : ∀ (st2 : keyb_output_state) (t2 : List Event), st2.state_machine ≠ 0 →
        st2.usb_selected = target_usb → st2.interface_id = target_id →
        interface_selection_shown t2 = false →
        types_only_to target_id t2 = true →
        interface_selection_shown (keyb_output_loop d env first_line fuel st2 t2).2 = false ∧
        types_only_to target_id (keyb_output_loop d env first_line fuel st2 t2).2 = true ∧
        (keyb_output_loop d env first_line fuel st2 t2).1.2 = target_usb :=
      fun st2 t2 hne h1 h2 h3 h4 =>
        ⟨(ih st2 t2 (fun _ => ⟨h1, h2⟩) h3 h4).1, (ih st2 t2 (fun _ => ⟨h1, h2⟩) h3 h4).2.1,
          (ih st2 t2 (fun _ => ⟨h1, h2⟩) h3 h4).2.2 (Or.inl hne)⟩
    clear ih
    have hv := poll_both_interfaces_connected_value_stable env bt usb hb hu
    rw [hnb] at hv
    have hp1 := poll_both_interfaces_connected_calls_no_prompt env
    have hp2 := poll_both_interfaces_connected_calls_target env target_id
    by_cases h0 : st.state_machine = 0
    · simp only [keyb_output_loop, h0, if_true, poll_both_interfaces_connected_run, hv,
        hb, poll_bluetooth_connected, emit, StateT.run, bind,
        StateT.bind, pure, StateT.pure, modify, modifyGet, MonadStateOf.modifyGet,
        StateT.modifyGet, get, getThe, MonadStateOf.get, StateT.get, run_ite, List.nil_append,
        List.cons_append, List.append_assoc, List.singleton_append, Bool.false_eq_true,
        if_false]
      cases bt <;> simp only [Bool.false_eq_true, if_false, if_true, Bool.not_true,
        Bool.not_false] at htu hti ⊢ <;> subst htu hti <;>
        (refine weaken_third (ih2 _ _ ?_ ?_ ?_ ?_ ?_) <;>
            simp_all [interface_selection_shown_cons, interface_selection_shown_append,
              interface_selection_shown_nil, types_only_to_cons, types_only_to_append,
              types_only_to_nil, Event.is_interface_selection, Event.typing_interface,
              keyb_type_string_calls_no_prompt, keyb_type_string_calls_target])
    have hst2 := hst h0
    obtain ⟨hst3, hst4⟩ := hst2
    by_cases h1 : st.state_machine = 1
    · simp only [keyb_output_loop, h1, if_true, poll_both_interfaces_connected_run, hv,
        keyb_type_string_run,
        hb, poll_bluetooth_connected, emit, StateT.run, bind,
        StateT.bind, pure, StateT.pure, modify, modifyGet, MonadStateOf.modifyGet,
        StateT.modifyGet, get, getThe, MonadStateOf.get, StateT.get, run_ite, List.nil_append,
        List.cons_append, List.append_assoc, List.singleton_append, Bool.false_eq_true,
        one_ne_zero, if_false]
      split_ifs <;>
        first
        | ((with_reducible refine weaken_third (ih2 _ _ ?_ ?_ ?_ ?_ ?_)) <;>
            first
            | assumption
            | (simp_all [interface_selection_shown_cons, interface_selection_shown_append,
              interface_selection_shown_nil, types_only_to_cons, types_only_to_append,
              types_only_to_nil, Event.is_interface_selection, Event.typing_interface,
              keyb_type_string_calls_no_prompt, keyb_type_string_calls_target]))
        | (clear ih2; simp_all [interface_selection_shown_cons, interface_selection_shown_append,
              interface_selection_shown_nil, types_only_to_cons, types_only_to_append,
              types_only_to_nil, Event.is_interface_selection, Event.typing_interface,
              keyb_type_string_calls_no_prompt, keyb_type_string_calls_target])
    by_cases h2 : st.state_machine = 2
    · simp only [keyb_output_loop, h2, if_true, poll_both_interfaces_connected_run, hv,
        keyb_type_string_run,
        hb, poll_bluetooth_connected, emit, StateT.run, bind,
        StateT.bind, pure, StateT.pure, modify, modifyGet, MonadStateOf.modifyGet,
        StateT.modifyGet, get, getThe, MonadStateOf.get, StateT.get, run_ite, List.nil_append,
        List.cons_append, List.append_assoc, List.singleton_append, Bool.false_eq_true,
        OfNat.ofNat_ne_zero, OfNat.ofNat_ne_one, if_false]
      split_ifs <;>
        first
        | ((with_reducible refine weaken_third (ih2 _ _ ?_ ?_ ?_ ?_ ?_)) <;>
            first
            | assumption
            | (simp_all [interface_selection_shown_cons, interface_selection_shown_append,
              interface_selection_shown_nil, types_only_to_cons, types_only_to_append,
              types_only_to_nil, Event.is_interface_selection, Event.typing_interface,
              keyb_type_string_calls_no_prompt, keyb_type_string_calls_target]))
        | (clear ih2; simp_all [interface_selection_shown_cons, interface_selection_shown_append,
              interface_selection_shown_nil, types_only_to_cons, types_only_to_append,
              types_only_to_nil, Event.is_interface_selection, Event.typing_interface,
              keyb_type_string_calls_no_prompt, keyb_type_string_calls_target])
    · simp only [keyb_output_loop, h0, h1, h2, if_false]
      exact weaken_third (ih2 st t h0 hst3 hst4 hsel hty)


/-- The loop only adds calls to the trace. -/
theorem keyb_output_loop_extends (d : Defines) (env : Env) (first_line : List Nat) :
    ∀ (fuel : Nat) (st : keyb_output_state) (t : List Event),
    t <+: ((keyb_output_loop d env first_line fuel st).run t).2 := by
  intro fuel
  induction fuel with
  | zero =>
    intro st t
    simp [keyb_output_loop, StateT.run, pure, StateT.pure]
  | succ fuel ih =>
    intro st t
    have ih2 : ∀ (st2 : keyb_output_state) (l : List Event),
        t <+: (keyb_output_loop d env first_line fuel st2 (t ++ l)).2 :=
      fun st2 l => (List.prefix_append t l).trans (ih st2 (t ++ l))
    have ih3 : ∀ (st2 : keyb_output_state),
        t <+: (keyb_output_loop d env first_line fuel st2 t).2 := fun st2 => ih st2 t
    clear ih
    by_cases h0 : st.state_machine = 0
    · simp only [keyb_output_loop, h0, if_true, poll_both_interfaces_connected_run,
        poll_bluetooth_connected, emit, StateT.run, bind,
        StateT.bind, pure, StateT.pure, modify, modifyGet, MonadStateOf.modifyGet,
        StateT.modifyGet, get, getThe, MonadStateOf.get, StateT.get, run_ite, List.nil_append,
        List.cons_append, List.append_assoc, List.singleton_append]
      split_ifs <;>
        first
        | exact ih2 _ _
        | exact ih3 _
        | exact List.prefix_append _ _
    by_cases h1 : st.state_machine = 1
    · simp only [keyb_output_loop, h1, if_true, poll_both_interfaces_connected_run,
        keyb_type_string_run,
        poll_bluetooth_connected, emit, StateT.run, bind,
        StateT.bind, pure, StateT.pure, modify, modifyGet, MonadStateOf.modifyGet,
        StateT.modifyGet, get, getThe, MonadStateOf.get, StateT.get, run_ite, List.nil_append,
        List.cons_append, List.append_assoc, List.singleton_append, one_ne_zero, if_false]
      split_ifs <;>
        first
        | exact ih2 _ _
        | exact ih3 _
        | exact List.prefix_append _ _
    by_cases h2 : st.state_machine = 2
    · simp only [keyb_output_loop, h2, if_true, poll_both_interfaces_connected_run,
        keyb_type_string_run,
        poll_bluetooth_connected, emit, StateT.run, bind,
        StateT.bind, pure, StateT.pure, modify, modifyGet, MonadStateOf.modifyGet,
        StateT.modifyGet, get, getThe, MonadStateOf.get, StateT.get, run_ite, List.nil_append,
        List.cons_append, List.append_assoc, List.singleton_append, OfNat.ofNat_ne_zero,
        OfNat.ofNat_ne_one, if_false]
      split_ifs <;>
        first
        | exact ih2 _ _
        | exact ih3 _
        | exact List.prefix_append _ _
    · simp only [keyb_output_loop, h0, h1, h2, if_false]
      exact ih3 _

/-- A selection prompt shown stays in the trace as the trace grows. -/
theorem interface_selection_shown_of_prefix (t₁ t₂ : List Event) (h : t₁ <+: t₂)
    (hs : interface_selection_shown t₁ = true) : interface_selection_shown t₂ = true := by
  obtain ⟨l, rfl⟩ := h
  simp [interface_selection_shown_append, hs]


/-- C20, as the claim states it, fails.  On the sample device with both
interfaces connected, a user who has the login typed and then walks back to
the interface selection and answers BACK to it gets RETURN_BACK although a
typing message was sent.  The same happens at the first interface selection
of a run when the connection state changes during the run: on the sample device
with USB enumerated on which Bluetooth connects while the login prompt is on
the screen, the login is typed to USB, the user walks back, the selection is
shown for the first time and BACK returns RETURN_BACK. -/
theorem C20_back_at_selection_after_typing :
    (((logic_user_ask_for_credentials_keyb_output scenario_defines
        scenario_env_both_connected_walks_back 5 2 4 false true).run []).1.1 =
        some scenario_defines.RETURN_BACK ∧
      ((logic_user_ask_for_credentials_keyb_output scenario_defines
        scenario_env_both_connected_walks_back 5 2 4 false true).run []).2.getLast? =
        some (.gui_prompts_ask_for_one_line_confirmation
          .SELECT_OUT_INTEFACE_TEXT_ID false true true .MINI_INPUT_RET_BACK) ∧
      typing_message_sent ((logic_user_ask_for_credentials_keyb_output scenario_defines
        scenario_env_both_connected_walks_back 5 2 4 false true).run []).2 = true) ∧
    (((logic_user_ask_for_credentials_keyb_output scenario_defines
        scenario_env_bluetooth_connects_late 5 2 4 false true).run []).1.1 =
        some scenario_defines.RETURN_BACK ∧
      ((logic_user_ask_for_credentials_keyb_output scenario_defines
        scenario_env_bluetooth_connects_late 5 2 4 false true).run []).2.getLast? =
        some (.gui_prompts_ask_for_one_line_confirmation
          .SELECT_OUT_INTEFACE_TEXT_ID false true true .MINI_INPUT_RET_BACK) ∧
      (((logic_user_ask_for_credentials_keyb_output scenario_defines
        scenario_env_bluetooth_connects_late 5 2 4 false true).run []).2.filter
          Event.is_interface_selection).length = 1 ∧
      typing_interfaces ((logic_user_ask_for_credentials_keyb_output scenario_defines
        scenario_env_bluetooth_connects_late 5 2 4 false true).run []).2 = [0] ∧
      typing_message_sent ((logic_user_ask_for_credentials_keyb_output scenario_defines
        scenario_env_bluetooth_connects_late 5 2 4 false true).run []).2 = true) := by
  decide

set_option maxHeartbeats 4000000 in
/-- C20, amended: in `logic_user_ask_for_credentials_keyb_output` started
without `only_pwd_prompt`, with a connection state that does not change during
the run and at least one pass of the loop: the interface selection prompt is
shown if and only if Bluetooth is connected and USB is enumerated; answering
BACK to it when it is first shown makes the function return RETURN_BACK, the
run being the polls, the two node reads and the prompt (nothing typed); with
Bluetooth only no prompt is shown, every typing message carries interface id
1 and `*usb_selected` is FALSE; with USB only, interface id 0 and
`*usb_selected` TRUE; with nothing connected the run is the two polls and the
function returns RETURN_NOK. -/
theorem C20_interface_selection (d : Defines) (env : Env)
    (fuel parent_address child_address : Nat) (usb_selected bt usb : Bool)
    (hb : ∀ h, env.logic_bluetooth_get_state h = bt)
    (hu : ∀ h, env.logic_aux_mcu_is_usb_enumerated h = usb) (hf : 1 ≤ fuel) :
    let r := (logic_user_ask_for_credentials_keyb_output d env fuel parent_address
      child_address false usb_selected).run []
    let before_selection : List Event :=
      [.logic_bluetooth_get_state true, .nodemgmt_read_parent_node parent_address,
       .nodemgmt_read_cred_child_node child_address, .logic_bluetooth_get_state true,
       .logic_aux_mcu_is_usb_enumerated true]
    (interface_selection_shown r.2 = true ↔ bt = true ∧ usb = true) ∧
    (bt = true → usb = true →
      env.gui_prompts_ask_for_one_line_confirmation before_selection = .MINI_INPUT_RET_BACK →
      r = ((some d.RETURN_BACK, usb_selected), before_selection ++
        [.gui_prompts_ask_for_one_line_confirmation .SELECT_OUT_INTEFACE_TEXT_ID false true
          usb_selected .MINI_INPUT_RET_BACK])) ∧
    (bt = true → usb = false → (∀ i ∈ typing_interfaces r.2, i = 1) ∧ r.1.2 = false) ∧
    (bt = false → usb = true → (∀ i ∈ typing_interfaces r.2, i = 0) ∧ r.1.2 = true) ∧
    (bt = false → usb = false →
      r = ((some d.RETURN_NOK, usb_selected),
        [.logic_bluetooth_get_state false, .logic_aux_mcu_is_usb_enumerated false])) := by
  intro r before_selection
  have hr : r = (logic_user_ask_for_credentials_keyb_output d env fuel parent_address
      child_address false usb_selected).run [] := rfl
  clear_value r
  obtain ⟨k, rfl⟩ : ∃ k, fuel = k + 1 := ⟨fuel - 1, by omega⟩
  have hsingle := keyb_output_loop_single_interface d env
  have hext := keyb_output_loop_extends d env
  simp only [StateT.run] at hsingle hext
  cases bt <;> cases usb
  · -- nothing connected
    simp only [logic_user_ask_for_credentials_keyb_output, poll_nothing_connected,
      poll_bluetooth_connected, poll_usb_enumerated, hb, hu, emit, StateT.run, bind,
      StateT.bind, pure, StateT.pure, modify, modifyGet, MonadStateOf.modifyGet,
      StateT.modifyGet, get, getThe, MonadStateOf.get, StateT.get, run_ite, List.nil_append,
      List.cons_append, List.append_assoc, List.singleton_append, if_true, if_false,
      Bool.not_true, Bool.not_false, Bool.false_eq_true, ↓reduceIte] at hr
    subst hr
    simp [interface_selection_shown, Event.is_interface_selection]
  · -- USB only
    simp only [logic_user_ask_for_credentials_keyb_output, poll_nothing_connected,
      poll_bluetooth_connected, poll_usb_enumerated, hb, hu, emit, StateT.run, bind,
      StateT.bind, pure, StateT.pure, modify, modifyGet, MonadStateOf.modifyGet,
      StateT.modifyGet, get, getThe, MonadStateOf.get, StateT.get, run_ite, List.nil_append,
      List.cons_append, List.append_assoc, List.singleton_append, if_true, if_false,
      Bool.not_true, Bool.not_false, Bool.false_eq_true, ↓reduceIte, ne_eq,
      not_true_eq_false] at hr
    have key : ∀ (fl : List Nat) (st0 : keyb_output_state), st0.state_machine = 0 →
        interface_selection_shown (keyb_output_loop d env fl (k + 1) st0
          [.logic_bluetooth_get_state false, .logic_aux_mcu_is_usb_enumerated true,
           .nodemgmt_read_parent_node parent_address,
           .nodemgmt_read_cred_child_node child_address]).2 = false ∧
        types_only_to 0 (keyb_output_loop d env fl (k + 1) st0
          [.logic_bluetooth_get_state false, .logic_aux_mcu_is_usb_enumerated true,
           .nodemgmt_read_parent_node parent_address,
           .nodemgmt_read_cred_child_node child_address]).2 = true ∧
        (keyb_output_loop d env fl (k + 1) st0
          [.logic_bluetooth_get_state false, .logic_aux_mcu_is_usb_enumerated true,
           .nodemgmt_read_parent_node parent_address,
           .nodemgmt_read_cred_child_node child_address]).1.2 = true := by
      intro fl st0 hst0
      have h := hsingle fl false true hb hu rfl true 0 rfl rfl (k + 1) st0
        [.logic_bluetooth_get_state false, .logic_aux_mcu_is_usb_enumerated true,
         .nodemgmt_read_parent_node parent_address,
         .nodemgmt_read_cred_child_node child_address]
        (fun h => absurd hst0 h)
        (by simp [interface_selection_shown, Event.is_interface_selection])
        (by simp [types_only_to, Event.typing_interface])
      exact ⟨h.1, h.2.1, h.2.2 (Or.inr (by omega))⟩
    have key1 := fun fl st0 h => (key fl st0 h).1
    have key2 := fun fl st0 h => (key fl st0 h).2.1
    have key3 := fun fl st0 h => (key fl st0 h).2.2
    split_ifs at hr <;> subst hr <;>
      simp [key1, key2, key3, ← types_only_to_iff]
  · -- Bluetooth only
    simp only [logic_user_ask_for_credentials_keyb_output, poll_nothing_connected,
      poll_bluetooth_connected, poll_usb_enumerated, hb, hu, emit, StateT.run, bind,
      StateT.bind, pure, StateT.pure, modify, modifyGet, MonadStateOf.modifyGet,
      StateT.modifyGet, get, getThe, MonadStateOf.get, StateT.get, run_ite, List.nil_append,
      List.cons_append, List.append_assoc, List.singleton_append, if_true, if_false,
      Bool.not_true, Bool.not_false, Bool.false_eq_true, ↓reduceIte, ne_eq,
      not_true_eq_false] at hr
    have key : ∀ (fl : List Nat) (st0 : keyb_output_state), st0.state_machine = 0 →
        interface_selection_shown (keyb_output_loop d env fl (k + 1) st0
          [.logic_bluetooth_get_state true, .nodemgmt_read_parent_node parent_address,
           .nodemgmt_read_cred_child_node child_address]).2 = false ∧
        types_only_to 1 (keyb_output_loop d env fl (k + 1) st0
          [.logic_bluetooth_get_state true, .nodemgmt_read_parent_node parent_address,
           .nodemgmt_read_cred_child_node child_address]).2 = true ∧
        (keyb_output_loop d env fl (k + 1) st0
          [.logic_bluetooth_get_state true, .nodemgmt_read_parent_node parent_address,
           .nodemgmt_read_cred_child_node child_address]).1.2 = false := by
      intro fl st0 hst0
      have h := hsingle fl true false hb hu rfl false 1 rfl rfl (k + 1) st0
        [.logic_bluetooth_get_state true, .nodemgmt_read_parent_node parent_address,
         .nodemgmt_read_cred_child_node child_address]
        (fun h => absurd hst0 h)
        (by simp [interface_selection_shown, Event.is_interface_selection])
        (by simp [types_only_to, Event.typing_interface])
      exact ⟨h.1, h.2.1, h.2.2 (Or.inr (by omega))⟩
    have key1 := fun fl st0 h => (key fl st0 h).1
    have key2 := fun fl st0 h => (key fl st0 h).2.1
    have key3 := fun fl st0 h => (key fl st0 h).2.2
    split_ifs at hr <;> subst hr <;>
      simp [key1, key2, key3, ← types_only_to_iff]
  · -- both connected
    have hshown : ∀ (fl : List Nat) (st1 : keyb_output_state) (a : mini_input_yes_no_ret_te),
        interface_selection_shown (keyb_output_loop d env fl k st1
          (before_selection ++ [.gui_prompts_ask_for_one_line_confirmation
            .SELECT_OUT_INTEFACE_TEXT_ID false true usb_selected a])).2 = true := by
      intro fl st1 a
      refine interface_selection_shown_of_prefix _ _ (hext fl k st1 _) ?_
      simp [before_selection, interface_selection_shown, Event.is_interface_selection]
    simp only [before_selection, List.cons_append, List.nil_append] at hshown
    simp only [logic_user_ask_for_credentials_keyb_output, keyb_output_loop,
      poll_both_interfaces_connected, poll_nothing_connected,
      poll_bluetooth_connected, poll_usb_enumerated, hb, hu, emit, StateT.run, bind,
      StateT.bind, pure, StateT.pure, modify, modifyGet, MonadStateOf.modifyGet,
      StateT.modifyGet, get, getThe, MonadStateOf.get, StateT.get, run_ite, List.nil_append,
      List.cons_append, List.append_assoc, List.singleton_append, if_true, if_false,
      Bool.not_true, Bool.not_false, Bool.false_eq_true, ↓reduceIte, ne_eq,
      not_true_eq_false] at hr
    split_ifs at hr <;> subst hr <;>
      simp_all [before_selection, interface_selection_shown_cons,
        interface_selection_shown_nil, Event.is_interface_selection]

/-- C20, amended, on the sample device with both interfaces connected and a
user who answers BACK to the interface selection: the prompt is shown, the run
is the polls, the two node reads and the prompt, nothing is typed and the
function returns RETURN_BACK; and on the sample device with Bluetooth only:
no selection prompt, and `*usb_selected` is FALSE after the run. -/
theorem C20_interface_selection_witness :
    interface_selection_shown ((logic_user_ask_for_credentials_keyb_output scenario_defines
      scenario_env_both_connected_user_backs 3 2 4 false true).run []).2 = true ∧
    (logic_user_ask_for_credentials_keyb_output scenario_defines
      scenario_env_both_connected_user_backs 3 2 4 false true).run [] =
      ((some scenario_defines.RETURN_BACK, true),
        [.logic_bluetooth_get_state true, .nodemgmt_read_parent_node 2,
         .nodemgmt_read_cred_child_node 4, .logic_bluetooth_get_state true,
         .logic_aux_mcu_is_usb_enumerated true,
         .gui_prompts_ask_for_one_line_confirmation .SELECT_OUT_INTEFACE_TEXT_ID false true
          true .MINI_INPUT_RET_BACK]) ∧
    typing_message_sent ((logic_user_ask_for_credentials_keyb_output scenario_defines
      scenario_env_both_connected_user_backs 3 2 4 false true).run []).2 = false ∧
    interface_selection_shown ((logic_user_ask_for_credentials_keyb_output scenario_defines
      scenario_env_bluetooth_only 3 2 4 false true).run []).2 ≠ true ∧
    ((logic_user_ask_for_credentials_keyb_output scenario_defines
      scenario_env_bluetooth_only 3 2 4 false true).run []).1.2 = false :=
  ⟨(C20_interface_selection scenario_defines scenario_env_both_connected_user_backs 3 2 4
      true true true (fun _ => rfl) (fun _ => rfl) (by decide)).1.mpr ⟨rfl, rfl⟩,
   (C20_interface_selection scenario_defines scenario_env_both_connected_user_backs 3 2 4
      true true true (fun _ => rfl) (fun _ => rfl) (by decide)).2.1 rfl rfl rfl,
   by decide,
   fun h => Bool.noConfusion (((C20_interface_selection scenario_defines
      scenario_env_bluetooth_only 3 2 4 true true false (fun _ => rfl) (fun _ => rfl)
      (by decide)).1.mp h).2),
   ((C20_interface_selection scenario_defines scenario_env_bluetooth_only 3 2 4 true true
      false (fun _ => rfl) (fun _ => rfl) (by decide)).2.2.1 rfl rfl).2⟩

/-! ### Address and flags codec -/

/-- The page of an address is the address halved. -/
theorem nodemgmt_page_from_address_eq_div (addr : Nat) :
    nodemgmt_page_from_address addr = addr % 65536 / 2 := by
  unfold nodemgmt_page_from_address NODEMGMT_ADDR_PAGE_BITSHIFT NODEMGMT_ADDR_PAGE_MASK_FINAL
  have h : (0x7fff : Nat) = 2 ^ 15 - 1 := by norm_num
  rw [h, Nat.and_pow_two_sub_one_eq_mod, Nat.shiftRight_eq_div_pow]
  omega

/-- Packing a page and a slot is `2 * page + slot`. -/
theorem page_shift_or_slot_eq (page slot : Nat) (hs : slot < 2) :
    (page <<< 1) ||| slot = 2 * page + slot := by
  rw [Nat.shiftLeft_eq, Nat.mul_comm page (2 ^ 1)]
  exact (Nat.mul_add_lt_is_or (i := 1) (b := slot) (by simpa using hs) page).symm

/-- C14: in the build with two node slots per page (`BYTES_PER_PAGE` different
from `BASE_NODE_SIZE`), for every page below `2^15` and slot in {0, 1} the
address `(page << 1) | slot` decodes to that page and that slot; every 16-bit
address is `(page(a) << 1) | node(a)`; and two distinct 16-bit addresses never
decode to the same (page, node) pair. -/
theorem C14_address_codec_round_trip (BYTES_PER_PAGE : Nat)
    (hb : BYTES_PER_PAGE ≠ BASE_NODE_SIZE) :
    (∀ page slot, page < 2 ^ 15 → slot < 2 →
      nodemgmt_page_from_address ((page <<< 1) ||| slot) = page ∧
      nodemgmt_node_from_address BYTES_PER_PAGE ((page <<< 1) ||| slot) = slot) ∧
    (∀ a, a < 2 ^ 16 →
      a = (nodemgmt_page_from_address a <<< 1) ||| nodemgmt_node_from_address BYTES_PER_PAGE a) ∧
    (∀ a b, a < 2 ^ 16 → b < 2 ^ 16 → a ≠ b →
      (nodemgmt_page_from_address a, nodemgmt_node_from_address BYTES_PER_PAGE a) ≠
      (nodemgmt_page_from_address b, nodemgmt_node_from_address BYTES_PER_PAGE b)) := by
  have hnode : ∀ a, nodemgmt_node_from_address BYTES_PER_PAGE a = a % 65536 % 2 := by
    intro a
    simp [nodemgmt_node_from_address, hb, NODEMGMT_ADDR_NODE_MASK]
  refine ⟨?_, ?_, ?_⟩
  · intro page slot hp hs
    rw [nodemgmt_page_from_address_eq_div, hnode, page_shift_or_slot_eq page slot hs]
    omega
  · intro a ha
    rw [nodemgmt_page_from_address_eq_div, hnode,
      page_shift_or_slot_eq _ _ (Nat.mod_lt _ (by norm_num))]
    omega
  · intro a b ha hb' hab h
    rw [nodemgmt_page_from_address_eq_div, hnode, nodemgmt_page_from_address_eq_div, hnode] at h
    simp only [Prod.mk.injEq] at h
    omega


/-- C14, on a flash with 528-byte pages: page 5, slot 1 is address 11. -/
theorem C14_address_codec_witness :
    (528 : Nat) ≠ BASE_NODE_SIZE ∧
    nodemgmt_page_from_address ((5 <<< 1) ||| 1) = 5 ∧
    nodemgmt_node_from_address 528 ((5 <<< 1) ||| 1) = 1 :=
  ⟨by decide, (C14_address_codec_round_trip 528 (by decide)).1 5 1 (by decide) (by decide)⟩

/-- Bit `i` of `0xFFFF`. -/
theorem testBit_65535 (i : Nat) : Nat.testBit 65535 i = decide (i < 16) :=
  Nat.testBit_two_pow_sub_one 16 i

/-- Bit `i` of `0x000F`. -/
theorem testBit_15 (i : Nat) : Nat.testBit 15 i = decide (i < 4) :=
  Nat.testBit_two_pow_sub_one 4 i

/-- Bit `i` of `0x007F`. -/
theorem testBit_127 (i : Nat) : Nat.testBit 127 i = decide (i < 7) :=
  Nat.testBit_two_pow_sub_one 7 i

/-- Bit `i` of `0x1FC0`. -/
theorem testBit_8128 (i : Nat) : Nat.testBit 8128 i = (decide (6 ≤ i) && decide (i < 13)) := by
  have h : (8128 : Nat) = (2 ^ 7 - 1) <<< 6 := by decide
  rw [h, Nat.testBit_shiftLeft, Nat.testBit_two_pow_sub_one]
  by_cases h6 : 6 ≤ i
  · simp [h6]; omega
  · simp [h6]

/-- Bit `i` of `0x1FC0 | 0x000F`. -/
theorem testBit_8143 (i : Nat) :
    Nat.testBit 8143 i = (decide (i < 4) || (decide (6 ≤ i) && decide (i < 13))) := by
  have h : (8143 : Nat) = 8128 ||| 15 := by decide
  rw [h, Nat.testBit_or, testBit_8128, testBit_15, Bool.or_comm]

/-- A number below `2^k` has no bit at or above `k`. -/
theorem testBit_of_lt (n k i : Nat) (hn : n < 2 ^ k) (hi : k ≤ i) : n.testBit i = false :=
  Nat.testBit_lt_two_pow (lt_of_lt_of_le hn (Nat.pow_le_pow_right (by norm_num) hi))

/-- C15: for every 16-bit flags word `f`, user id `uid` in [0, 127] and
category `cat` in [0, 15], applying `nodemgmt_user_id_to_flags` and
`nodemgmt_categoryflags_to_flags` in either order gives the same word `g`, with
`((g >> 6) & 0x7F) = uid`, `categoryFromFlags g = cat`, and the bits of `g`
outside `0x1FC0` and `0x000F` equal to those of `f`. -/
theorem C15_flags_codec_fields (f uid cat : Nat) (hf : f < 2 ^ 16) (hu : uid ≤ 127)
    (hc : cat ≤ 15) :
    nodemgmt_user_id_to_flags (nodemgmt_categoryflags_to_flags f cat) uid =
      nodemgmt_categoryflags_to_flags (nodemgmt_user_id_to_flags f uid) cat ∧
    (nodemgmt_categoryflags_to_flags (nodemgmt_user_id_to_flags f uid) cat >>> 6) &&& 0x7F =
      uid ∧
    categoryFromFlags (nodemgmt_categoryflags_to_flags (nodemgmt_user_id_to_flags f uid) cat) =
      cat ∧
    nodemgmt_categoryflags_to_flags (nodemgmt_user_id_to_flags f uid) cat &&&
        not16 (0x1FC0 ||| 0x000F) = f &&& not16 (0x1FC0 ||| 0x000F) := by
  show
    let g := nodemgmt_categoryflags_to_flags (nodemgmt_user_id_to_flags f uid) cat
    let g2 := nodemgmt_user_id_to_flags (nodemgmt_categoryflags_to_flags f cat) uid
    g2 = g ∧ (g >>> 6) &&& 0x7F = uid ∧ categoryFromFlags g = cat ∧
      g &&& not16 (0x1FC0 ||| 0x000F) = f &&& not16 (0x1FC0 ||| 0x000F)
  intro g g2
  have hu7 : ∀ j, 7 ≤ j → uid.testBit j = false := fun j hj =>
    testBit_of_lt uid 7 j (by omega) hj
  have hc4 : ∀ j, 4 ≤ j → cat.testBit j = false := fun j hj =>
    testBit_of_lt cat 4 j (by omega) hj
  have hf16 : ∀ j, 16 ≤ j → f.testBit j = false := fun j hj =>
    testBit_of_lt f 16 j hf hj
  have hg : ∀ i, g.testBit i =
      if i < 4 then cat.testBit i else if i < 6 then f.testBit i
      else if i < 13 then uid.testBit (i - 6) else f.testBit i := by
    intro i
    simp only [g, nodemgmt_categoryflags_to_flags, nodemgmt_user_id_to_flags, not16,
      NODEMGMT_USERID_MASK, NODEMGMT_USERID_BITSHIFT, NODEMGMT_CAT_MASK, NODEMGMT_CAT_BITSHIFT,
      show (65536 : Nat) = 2 ^ 16 from rfl, show (256 : Nat) = 2 ^ 8 from rfl,
      Nat.testBit_mod_two_pow, Nat.testBit_or, Nat.testBit_and, Nat.testBit_shiftLeft,
      Nat.testBit_xor, testBit_65535, testBit_15, testBit_8128]
    by_cases h4 : i < 4
    · have : i < 16 := by omega
      have : ¬ 6 ≤ i := by omega
      simp [*]
    · by_cases h6 : i < 6
      · have : i < 16 := by omega
        have : ¬ 6 ≤ i := by omega
        have : cat.testBit i = false := hc4 _ (by omega)
        simp [*]
      · by_cases h13 : i < 13
        · have : i < 16 := by omega
          have : 6 ≤ i := by omega
          have : i - 6 < 8 := by omega
          have : cat.testBit i = false := hc4 _ (by omega)
          simp [*]
        · by_cases h16 : i < 16
          · have : 6 ≤ i := by omega
            have : uid.testBit (i - 6) = false := hu7 _ (by omega)
            have : cat.testBit i = false := hc4 _ (by omega)
            simp [*]
          · have : f.testBit i = false := hf16 i (by omega)
            simp [*]
  have hg2 : ∀ i, g2.testBit i =
      if i < 4 then cat.testBit i else if i < 6 then f.testBit i
      else if i < 13 then uid.testBit (i - 6) else f.testBit i := by
    intro i
    simp only [g2, nodemgmt_categoryflags_to_flags, nodemgmt_user_id_to_flags, not16,
      NODEMGMT_USERID_MASK, NODEMGMT_USERID_BITSHIFT, NODEMGMT_CAT_MASK, NODEMGMT_CAT_BITSHIFT,
      show (65536 : Nat) = 2 ^ 16 from rfl, show (256 : Nat) = 2 ^ 8 from rfl,
      Nat.testBit_mod_two_pow, Nat.testBit_or, Nat.testBit_and, Nat.testBit_shiftLeft,
      Nat.testBit_xor, testBit_65535, testBit_15, testBit_8128]
    by_cases h4 : i < 4
    · have : i < 16 := by omega
      have : ¬ 6 ≤ i := by omega
      simp [*]
    · by_cases h6 : i < 6
      · have : i < 16 := by omega
        have : ¬ 6 ≤ i := by omega
        have : cat.testBit i = false := hc4 _ (by omega)
        simp [*]
      · by_cases h13 : i < 13
        · have : i < 16 := by omega
          have : 6 ≤ i := by omega
          have : i - 6 < 8 := by omega
          have : cat.testBit i = false := hc4 _ (by omega)
          simp [*]
        · by_cases h16 : i < 16
          · have : 6 ≤ i := by omega
            have : uid.testBit (i - 6) = false := hu7 _ (by omega)
            have : cat.testBit i = false := hc4 _ (by omega)
            simp [*]
          · have : f.testBit i = false := hf16 i (by omega)
            simp [*]
  refine ⟨?_, ?_, ?_, ?_⟩
  · exact Nat.eq_of_testBit_eq (fun i => by rw [hg, hg2])
  · refine Nat.eq_of_testBit_eq (fun i => ?_)
    rw [Nat.testBit_and, Nat.testBit_shiftRight, hg, testBit_127]
    by_cases h7 : i < 7
    · have h1 : ¬ (6 + i < 4) := by omega
      have h2 : ¬ (6 + i < 6) := by omega
      have h3 : 6 + i < 13 := by omega
      simp [h1, h2, h3, h7]
    · simp [h7, hu7 i (by omega)]
  · refine Nat.eq_of_testBit_eq (fun i => ?_)
    have hg16 : g % 65536 = g := by
      simp only [g, nodemgmt_categoryflags_to_flags, Nat.mod_mod]
    rw [categoryFromFlags, hg16, NODEMGMT_CAT_BITSHIFT, NODEMGMT_CAT_MASK_FINAL,
      Nat.testBit_and, Nat.shiftRight_zero, hg, testBit_15]
    by_cases h4 : i < 4
    · simp [h4]
    · simp [h4, hc4 i (by omega)]
  · refine Nat.eq_of_testBit_eq (fun i => ?_)
    have h : (0x1FC0 ||| 0x000F : Nat) = 8143 := by decide
    rw [h, not16, Nat.testBit_and, Nat.testBit_and, Nat.testBit_xor, hg, testBit_65535,
      testBit_8143]
    by_cases h4 : i < 4
    · have : i < 16 := by omega
      simp [*]
    · by_cases h6 : i < 6
      · simp [*]
      · by_cases h13 : i < 13
        · have : i < 16 := by omega
          have : 6 ≤ i := by omega
          simp [*]
        · simp [*]

/-- C15, on the flags word `0xFFFF` with user id 5 and category 3. -/
theorem C15_flags_codec_witness :
    (nodemgmt_categoryflags_to_flags (nodemgmt_user_id_to_flags 0xFFFF 5) 3 >>> 6) &&& 0x7F = 5 ∧
    categoryFromFlags
      (nodemgmt_categoryflags_to_flags (nodemgmt_user_id_to_flags 0xFFFF 5) 3) = 3 :=
  ⟨(C15_flags_codec_fields 0xFFFF 5 3 (by decide) (by decide) (by decide)).2.1,
   (C15_flags_codec_fields 0xFFFF 5 3 (by decide) (by decide) (by decide)).2.2.1⟩

/-! ### Denial delays -/

/-- The delay of the first tier is between 1000 ms and 3047 ms. -/
theorem first_tier_delay_bounds (r : Nat) :
    1000 ≤ 1000 + (r &&& 0x07FF) ∧ 1000 + (r &&& 0x07FF) < 3048 := by
  have := and_0x07FF_lt r
  omega

/-- The delay of the second tier is between 3000 ms and 7095 ms. -/
theorem second_tier_delay_bounds (r : Nat) :
    3000 ≤ 3000 + (r &&& 0x0FFF) ∧ 3000 + (r &&& 0x0FFF) < 7096 := by
  have := and_0x0FFF_lt r
  omega

/-- Every delay of a lookup of an absent service is of the first tier. -/
theorem logic_user_usb_get_credential_absent_service_delays (d : Defines) (env : Env)
    (service : List Nat) (login : Option (List Nat)) (send_msg : hid_message_t)
    (hs : env.logic_database_search_service (local_string_copy service PARENT_SERVICE_ARRAY_SIZE)
      true d.NODEMGMT_STANDARD_CRED_TYPE_ID = NODE_ADDR_NULL) :
    ∀ ms ∈ delays ((logic_user_usb_get_credential d env service login send_msg).run []).2,
      1000 ≤ ms ∧ ms < 3048 := by
  generalize hr : (logic_user_usb_get_credential d env service login send_msg).run [] = r
  simp only [logic_user_usb_get_credential, emit, StateT.run, bind, StateT.bind, pure,
    StateT.pure, modify, modifyGet, MonadStateOf.modifyGet, StateT.modifyGet, get, getThe,
    MonadStateOf.get, StateT.get, run_ite, List.nil_append, List.cons_append, List.append_assoc,
    List.singleton_append, hs, if_true] at hr
  split_ifs at hr <;> subst hr
  · simp [delays]
  · simp only [delays, Event.delay_ms, List.filterMap_cons, List.filterMap_nil,
      List.mem_singleton, forall_eq]
    exact first_tier_delay_bounds _

/-- Every delay of a lookup of a login that is absent from an existing service
is of the second tier. -/
theorem logic_user_usb_get_credential_absent_login_delays (d : Defines) (env : Env)
    (service login : List Nat) (send_msg : hid_message_t)
    (hs : env.logic_database_search_service (local_string_copy service PARENT_SERVICE_ARRAY_SIZE)
      true d.NODEMGMT_STANDARD_CRED_TYPE_ID ≠ NODE_ADDR_NULL)
    (hl : env.logic_database_search_login_in_service
      (env.logic_database_search_service (local_string_copy service PARENT_SERVICE_ARRAY_SIZE)
        true d.NODEMGMT_STANDARD_CRED_TYPE_ID)
      (local_string_copy login CHILD_LOGIN_ARRAY_SIZE)
      (!env.logic_security_is_management_mode_set) = NODE_ADDR_NULL) :
    ∀ ms ∈ delays ((logic_user_usb_get_credential d env service (some login) send_msg).run
      []).2, 3000 ≤ ms ∧ ms < 7096 := by
  generalize hr : (logic_user_usb_get_credential d env service (some login) send_msg).run [] = r
  simp only [NODE_ADDR_NULL] at hs hl
  simp only [logic_user_usb_get_credential, emit, StateT.run, bind, StateT.bind, pure,
    StateT.pure, modify, modifyGet, MonadStateOf.modifyGet, StateT.modifyGet, get, getThe,
    MonadStateOf.get, StateT.get, run_ite, List.nil_append, List.cons_append, List.append_assoc,
    List.singleton_append, NODE_ADDR_NULL, hs, hl, Option.map, if_true, if_false, ne_eq,
    not_false_eq_true, reduceCtorEq, true_or] at hr
  split_ifs at hr <;> subst hr
  · simp [delays]
  · simp only [delays, Event.delay_ms, List.filterMap_cons, List.filterMap_nil,
      List.mem_singleton, forall_eq]
    exact second_tier_delay_bounds _

/-- Every delay of a WebAuthn lookup of an absent relying party is of the first
tier. -/
theorem logic_user_get_webauthn_credential_key_for_rp_absent_rp_delays (d : Defines)
    (env : Env) (rp_id : List Nat) (out : webauthn_out_t) (allow_list : List (List Nat))
    (allow_list_length : Nat)
    (hs : env.logic_database_search_service (local_string_copy rp_id PARENT_SERVICE_ARRAY_SIZE)
      true d.NODEMGMT_WEBAUTHN_CRED_TYPE_ID = NODE_ADDR_NULL) :
    ∀ ms ∈ delays ((logic_user_get_webauthn_credential_key_for_rp d env rp_id out allow_list
      allow_list_length).run []).2, 1000 ≤ ms ∧ ms < 3048 := by
  generalize hr : (logic_user_get_webauthn_credential_key_for_rp d env rp_id out allow_list
      allow_list_length).run [] = r
  simp only [logic_user_get_webauthn_credential_key_for_rp, emit, StateT.run, bind,
    StateT.bind, pure,
    StateT.pure, modify, modifyGet, MonadStateOf.modifyGet, StateT.modifyGet, get, getThe,
    MonadStateOf.get, StateT.get, run_ite, List.nil_append, List.cons_append, List.append_assoc,
    List.singleton_append, hs, if_true] at hr
  split_ifs at hr <;> subst hr
  · simp [delays]
  · simp only [delays, Event.delay_ms, List.filterMap_cons, List.filterMap_nil,
      List.mem_singleton, forall_eq]
    exact first_tier_delay_bounds _

/-- Every delay of a WebAuthn lookup of a credential id that is looked up and
is absent from an existing relying party is of the second tier. -/
theorem logic_user_get_webauthn_credential_key_for_rp_absent_id_delays (d : Defines)
    (env : Env) (rp_id : List Nat) (out : webauthn_out_t) (allow_list : List (List Nat))
    (hs : env.logic_database_search_service (local_string_copy rp_id PARENT_SERVICE_ARRAY_SIZE)
      true d.NODEMGMT_WEBAUTHN_CRED_TYPE_ID ≠ NODE_ADDR_NULL)
    (hl : env.logic_database_search_webauthn_credential_id_in_service
      (env.logic_database_search_service (local_string_copy rp_id PARENT_SERVICE_ARRAY_SIZE)
        true d.NODEMGMT_WEBAUTHN_CRED_TYPE_ID)
      (allow_list.getD 0 []) = NODE_ADDR_NULL) :
    ∀ ms ∈ delays ((logic_user_get_webauthn_credential_key_for_rp d env rp_id out allow_list
      1).run []).2, 3000 ≤ ms ∧ ms < 7096 := by
  generalize hr : (logic_user_get_webauthn_credential_key_for_rp d env rp_id out allow_list
      1).run [] = r
  simp only [NODE_ADDR_NULL] at hs hl
  simp only [logic_user_get_webauthn_credential_key_for_rp, emit, StateT.run, bind,
    StateT.bind, pure,
    StateT.pure, modify, modifyGet, MonadStateOf.modifyGet, StateT.modifyGet, get, getThe,
    MonadStateOf.get, StateT.get, run_ite, List.nil_append, List.cons_append, List.append_assoc,
    List.singleton_append, NODE_ADDR_NULL, hs, hl, if_true, if_false, ne_eq,
    not_false_eq_true, true_or, one_ne_zero] at hr
  split_ifs at hr <;> subst hr
  · simp [delays]
  · simp only [delays, Event.delay_ms, List.filterMap_cons, List.filterMap_nil,
      List.mem_singleton, forall_eq]
    exact second_tier_delay_bounds _

/-- C22, as stated, fails: on the sample device (random value `0xFFFF`) the
lookup of an absent service is denied after 3047 ms, and on the sample device
holding the service but not the login, with a random generator that returns 0,
the lookup is denied after 3000 ms: the delay of the first tier is not the
smaller one. -/
theorem C22_first_tier_delay_above_second_tier_delay :
    delays ((logic_user_usb_get_credential scenario_defines scenario_env [102, 111, 111] none
      scenario_msg).run []).2 = [1000 + (0xFFFF &&& 0x07FF)] ∧
    delays ((logic_user_usb_get_credential scenario_defines
      scenario_env_login_absent_low_random [102, 111, 111] (some [98, 111, 98])
      scenario_msg).run []).2 = [3000 + (0 &&& 0x0FFF)] ∧
    ¬ (1000 + (0xFFFF &&& 0x07FF) < 3000 + (0 &&& 0x0FFF)) ∧
    ¬ (∀ d1 ∈ delays ((logic_user_usb_get_credential scenario_defines scenario_env
        [102, 111, 111] none scenario_msg).run []).2,
      ∀ d2 ∈ delays ((logic_user_usb_get_credential scenario_defines
        scenario_env_login_absent_low_random [102, 111, 111] (some [98, 111, 98])
        scenario_msg).run []).2, d1 < d2) := by
  decide

/-- C22, amended: whatever the random values, a delay applied when the service
(or relying party) is absent is between 1000 ms and 3047 ms and a delay applied
when the specified login (or credential id) is absent is between 3000 ms and
7095 ms; the first is strictly smaller than the second whenever it is below
3000 ms, and never exceeds it by more than 47 ms. -/
theorem C22_denial_delay_tiers (d : Defines) (env₁ env₂ : Env)
    (service₁ service₂ login₂ : List Nat) (login₁ : Option (List Nat))
    (msg₁ msg₂ : hid_message_t) (out₁ out₂ : webauthn_out_t)
    (allow_list₁ allow_list₂ : List (List Nat)) (allow_list_length₁ : Nat)
    (hs₁ : env₁.logic_database_search_service
      (local_string_copy service₁ PARENT_SERVICE_ARRAY_SIZE) true
      d.NODEMGMT_STANDARD_CRED_TYPE_ID = NODE_ADDR_NULL)
    (hs₂ : env₂.logic_database_search_service
      (local_string_copy service₂ PARENT_SERVICE_ARRAY_SIZE) true
      d.NODEMGMT_STANDARD_CRED_TYPE_ID ≠ NODE_ADDR_NULL)
    (hl₂ : env₂.logic_database_search_login_in_service
      (env₂.logic_database_search_service (local_string_copy service₂ PARENT_SERVICE_ARRAY_SIZE)
        true d.NODEMGMT_STANDARD_CRED_TYPE_ID)
      (local_string_copy login₂ CHILD_LOGIN_ARRAY_SIZE)
      (!env₂.logic_security_is_management_mode_set) = NODE_ADDR_NULL)
    (hw₁ : env₁.logic_database_search_service
      (local_string_copy service₁ PARENT_SERVICE_ARRAY_SIZE) true
      d.NODEMGMT_WEBAUTHN_CRED_TYPE_ID = NODE_ADDR_NULL)
    (hw₂ : env₂.logic_database_search_service
      (local_string_copy service₂ PARENT_SERVICE_ARRAY_SIZE) true
      d.NODEMGMT_WEBAUTHN_CRED_TYPE_ID ≠ NODE_ADDR_NULL)
    (hi₂ : env₂.logic_database_search_webauthn_credential_id_in_service
      (env₂.logic_database_search_service (local_string_copy service₂ PARENT_SERVICE_ARRAY_SIZE)
        true d.NODEMGMT_WEBAUTHN_CRED_TYPE_ID)
      (allow_list₂.getD 0 []) = NODE_ADDR_NULL) :
    (∀ d1 ∈ delays ((logic_user_usb_get_credential d env₁ service₁ login₁ msg₁).run []).2,
      ∀ d2 ∈ delays ((logic_user_usb_get_credential d env₂ service₂ (some login₂) msg₂).run
        []).2,
      1000 ≤ d1 ∧ d1 ≤ 3047 ∧ 3000 ≤ d2 ∧ d2 ≤ 7095 ∧ (d1 < 3000 → d1 < d2) ∧
        d1 ≤ d2 + 47) ∧
    (∀ d1 ∈ delays ((logic_user_get_webauthn_credential_key_for_rp d env₁ service₁ out₁
        allow_list₁ allow_list_length₁).run []).2,
      ∀ d2 ∈ delays ((logic_user_get_webauthn_credential_key_for_rp d env₂ service₂ out₂
        allow_list₂ 1).run []).2,
      1000 ≤ d1 ∧ d1 ≤ 3047 ∧ 3000 ≤ d2 ∧ d2 ≤ 7095 ∧ (d1 < 3000 → d1 < d2) ∧
        d1 ≤ d2 + 47) := by
  refine ⟨?_, ?_⟩
  · intro d1 h1 d2 h2
    have a := logic_user_usb_get_credential_absent_service_delays d env₁ service₁ login₁ msg₁
      hs₁ d1 h1
    have b := logic_user_usb_get_credential_absent_login_delays d env₂ service₂ login₂ msg₂
      hs₂ hl₂ d2 h2
    omega
  · intro d1 h1 d2 h2
    have a := logic_user_get_webauthn_credential_key_for_rp_absent_rp_delays d env₁ service₁
      out₁ allow_list₁ allow_list_length₁ hw₁ d1 h1
    have b := logic_user_get_webauthn_credential_key_for_rp_absent_id_delays d env₂ service₂
      out₂ allow_list₂ hw₂ hi₂ d2 h2
    omega

/-- C22, amended, on the sample devices: an absent service against an absent
login under the service at address 2, with the delays 3047 ms and 3000 ms. -/
theorem C22_denial_delay_tiers_witness :
    delays ((logic_user_usb_get_credential scenario_defines scenario_env [102, 111, 111] none
      scenario_msg).run []).2 = [3047] ∧
    delays ((logic_user_usb_get_credential scenario_defines
      scenario_env_login_absent_low_random [102, 111, 111] (some [98, 111, 98])
      scenario_msg).run []).2 = [3000] ∧
    ∀ d1 ∈ delays ((logic_user_usb_get_credential scenario_defines scenario_env
        [102, 111, 111] none scenario_msg).run []).2,
      ∀ d2 ∈ delays ((logic_user_usb_get_credential scenario_defines
        scenario_env_login_absent_low_random [102, 111, 111] (some [98, 111, 98])
        scenario_msg).run []).2,
      1000 ≤ d1 ∧ d1 ≤ 3047 ∧ 3000 ≤ d2 ∧ d2 ≤ 7095 ∧ (d1 < 3000 → d1 < d2) ∧
        d1 ≤ d2 + 47 :=
  ⟨by decide, by decide,
    (C22_denial_delay_tiers scenario_defines scenario_env scenario_env_login_absent_low_random
      [102, 111, 111] [102, 111, 111] [98, 111, 98] none scenario_msg scenario_msg
      ⟨[], [], 0⟩ ⟨[], [], 0⟩ [] [[9]] 0
      (by decide) (by decide) (by decide) (by decide) (by decide) (by decide)).1⟩

/-- C25, as stated, fails: on the sample device, where the service does not
exist, `logic_user_check_credential` returns RETURN_NOK after the database
search alone, with no random value drawn and no delay, while
`logic_user_usb_get_credential` denies the same service after a delay of
3047 ms. -/
theorem C25_check_credential_denies_without_delay :
    scenario_env.logic_database_search_service [102, 111, 111] true 0 = NODE_ADDR_NULL ∧
    ((logic_user_check_credential scenario_defines scenario_env [102, 111, 111] [98, 111, 98]
      [112]).run []).1 = scenario_defines.RETURN_NOK ∧
    ((logic_user_check_credential scenario_defines scenario_env [102, 111, 111] [98, 111, 98]
      [112]).run []).2 = [Event.logic_database_search_service [102, 111, 111] true 0] ∧
    delays ((logic_user_check_credential scenario_defines scenario_env [102, 111, 111]
      [98, 111, 98] [112]).run []).2 = [] ∧
    random_values ((logic_user_check_credential scenario_defines scenario_env [102, 111, 111]
      [98, 111, 98] [112]).run []).2 = [] ∧
    delays ((logic_user_usb_get_credential scenario_defines scenario_env [102, 111, 111]
      (some [98, 111, 98]) scenario_msg).run []).2 = [3047] := by
  decide

/-! ### Security flags of the user profile -/

/-- C23: for every cached 16-bit preferences value `p` and 16-bit mask `m`,
`logic_user_set_user_security_flag m` leaves `logic_user_get_user_security_flags`
at `p | m` and `logic_user_clear_user_security_flag m` at `p & ~m`; in both,
the bits outside `m` keep their value; set followed by clear of the same mask
gives `p & ~m`; each operation makes one call, which hands the new cached
value to `nodemgmt_store_user_sec_preferences`, and leaves
`logic_device_state_changed` TRUE. -/
theorem C23_security_flag_set_and_clear (env : Env) (logic_device_state_changed : Bool)
    (m : Nat) (t : List Event)
    (hp : logic_user_get_user_security_flags env < 2 ^ 16) (hm : m < 2 ^ 16) :
    logic_user_get_user_security_flags
        ((logic_user_set_user_security_flag env logic_device_state_changed m).run t).1.1 =
      logic_user_get_user_security_flags env ||| m ∧
    logic_user_get_user_security_flags
        ((logic_user_clear_user_security_flag env logic_device_state_changed m).run t).1.1 =
      logic_user_get_user_security_flags env &&& not16 m ∧
    (∀ i, (logic_user_get_user_security_flags env &&& not16 m).testBit i =
      ((logic_user_get_user_security_flags env).testBit i && !m.testBit i)) ∧
    (∀ i, m.testBit i = false →
      (logic_user_get_user_security_flags
        ((logic_user_set_user_security_flag env logic_device_state_changed m).run t).1.1).testBit
          i = (logic_user_get_user_security_flags env).testBit i ∧
      (logic_user_get_user_security_flags
        ((logic_user_clear_user_security_flag env logic_device_state_changed m).run t).1.1).testBit
          i = (logic_user_get_user_security_flags env).testBit i) ∧
    logic_user_get_user_security_flags
        ((logic_user_clear_user_security_flag
          ((logic_user_set_user_security_flag env logic_device_state_changed m).run t).1.1
          ((logic_user_set_user_security_flag env logic_device_state_changed m).run t).1.2
          m).run
          ((logic_user_set_user_security_flag env logic_device_state_changed m).run t).2).1.1 =
      logic_user_get_user_security_flags env &&& not16 m ∧
    ((logic_user_set_user_security_flag env logic_device_state_changed m).run t).2 =
      t ++ [Event.nodemgmt_store_user_sec_preferences
        (logic_user_get_user_security_flags env ||| m)] ∧
    ((logic_user_clear_user_security_flag env logic_device_state_changed m).run t).2 =
      t ++ [Event.nodemgmt_store_user_sec_preferences
        (logic_user_get_user_security_flags env &&& not16 m)] ∧
    ((logic_user_set_user_security_flag env logic_device_state_changed m).run t).1.2 = true ∧
    ((logic_user_clear_user_security_flag env logic_device_state_changed m).run t).1.2 =
      true := by
  have hp16 : ∀ j, 16 ≤ j → (logic_user_get_user_security_flags env).testBit j = false :=
    fun j hj => testBit_of_lt _ 16 j hp hj
  have hm16 : ∀ j, 16 ≤ j → m.testBit j = false := fun j hj => testBit_of_lt _ 16 j hm hj
  have hbit : ∀ i, (logic_user_get_user_security_flags env &&& not16 m).testBit i =
      ((logic_user_get_user_security_flags env).testBit i && !m.testBit i) := by
    intro i
    rw [not16, Nat.testBit_and, Nat.testBit_xor, testBit_65535]
    by_cases h16 : i < 16
    · simp [h16]
    · simp [h16, hp16 i (by omega)]
  have hor : logic_user_get_user_security_flags env ||| m < 2 ^ 16 := Nat.or_lt_two_pow hp hm
  have hand : logic_user_get_user_security_flags env &&& not16 m < 2 ^ 16 :=
    lt_of_le_of_lt Nat.and_le_left hp
  have ep : logic_user_get_user_security_flags env % 65536 =
      logic_user_get_user_security_flags env := Nat.mod_eq_of_lt (by simpa using hp)
  have em : m % 65536 = m := Nat.mod_eq_of_lt (by simpa using hm)
  have hset : ((logic_user_get_user_security_flags env % 65536) ||| (m % 65536)) % 65536 =
      logic_user_get_user_security_flags env ||| m := by
    rw [ep, em, Nat.mod_eq_of_lt (by simpa using hor)]
  have hclr : ((logic_user_get_user_security_flags env % 65536) &&& not16 (m % 65536)) % 65536 =
      logic_user_get_user_security_flags env &&& not16 m := by
    rw [ep, em, Nat.mod_eq_of_lt (by simpa using hand)]
  have hsc : (((logic_user_get_user_security_flags env ||| m) % 65536) &&&
      not16 (m % 65536)) % 65536 = logic_user_get_user_security_flags env &&& not16 m := by
    have eo : (logic_user_get_user_security_flags env ||| m) % 65536 =
        logic_user_get_user_security_flags env ||| m := Nat.mod_eq_of_lt (by simpa using hor)
    rw [eo, em]
    have h : (logic_user_get_user_security_flags env ||| m) &&& not16 m =
        logic_user_get_user_security_flags env &&& not16 m := by
      refine Nat.eq_of_testBit_eq (fun i => ?_)
      rw [hbit, not16, Nat.testBit_and, Nat.testBit_or, Nat.testBit_xor, testBit_65535]
      by_cases h16 : i < 16
      · cases (logic_user_get_user_security_flags env).testBit i <;>
          cases m.testBit i <;> simp [h16]
      · simp [h16, hp16 i (by omega), hm16 i (by omega)]
    rw [h, Nat.mod_eq_of_lt (by simpa using hand)]
  simp only [logic_user_get_user_security_flags] at *
  refine ⟨?_, ?_, hbit, ?_, ?_, ?_, ?_, ?_, ?_⟩
  · simp [logic_user_set_user_security_flag, emit, StateT.run, bind, StateT.bind, pure,
      StateT.pure, modify, modifyGet, MonadStateOf.modifyGet, StateT.modifyGet, hset]
  · simp [logic_user_clear_user_security_flag, emit, StateT.run, bind, StateT.bind, pure,
      StateT.pure, modify, modifyGet, MonadStateOf.modifyGet, StateT.modifyGet, hclr]
  · intro i hi
    simp [logic_user_set_user_security_flag, logic_user_clear_user_security_flag, emit,
      StateT.run, bind, StateT.bind, pure,
      StateT.pure, modify, modifyGet, MonadStateOf.modifyGet, StateT.modifyGet, hset, hclr,
      hbit, hi]
  · simp [logic_user_set_user_security_flag, logic_user_clear_user_security_flag, emit,
      StateT.run, bind, StateT.bind, pure,
      StateT.pure, modify, modifyGet, MonadStateOf.modifyGet, StateT.modifyGet, hset, hsc]
  · simp [logic_user_set_user_security_flag, emit, StateT.run, bind, StateT.bind, pure,
      StateT.pure, modify, modifyGet, MonadStateOf.modifyGet, StateT.modifyGet, hset]
  · simp [logic_user_clear_user_security_flag, emit, StateT.run, bind, StateT.bind, pure,
      StateT.pure, modify, modifyGet, MonadStateOf.modifyGet, StateT.modifyGet, hclr]
  · simp [logic_user_set_user_security_flag, logic_device_set_state_changed, emit, StateT.run,
      bind, StateT.bind, pure, StateT.pure, modify, modifyGet, MonadStateOf.modifyGet,
      StateT.modifyGet]
  · simp [logic_user_clear_user_security_flag, logic_device_set_state_changed, emit,
      StateT.run, bind, StateT.bind, pure, StateT.pure, modify, modifyGet,
      MonadStateOf.modifyGet, StateT.modifyGet]

/-- C23, on the sample device with the cached value `0x0005`: setting `0x0003`
leaves `0x0007` and stores it; clearing `0x0003` leaves `0x0004`. -/
theorem C23_security_flag_witness :
    logic_user_get_user_security_flags
        ((logic_user_set_user_security_flag
          { scenario_env with logic_user_cur_sec_preferences := 5 } false 3).run []).1.1 = 7 ∧
    logic_user_get_user_security_flags
        ((logic_user_clear_user_security_flag
          { scenario_env with logic_user_cur_sec_preferences := 5 } false 3).run []).1.1 = 4 ∧
    ((logic_user_set_user_security_flag
      { scenario_env with logic_user_cur_sec_preferences := 5 } false 3).run []).2 =
      [Event.nodemgmt_store_user_sec_preferences 7] :=
  ⟨(C23_security_flag_set_and_clear { scenario_env with logic_user_cur_sec_preferences := 5 }
      false 3 [] (by decide) (by decide)).1,
   (C23_security_flag_set_and_clear { scenario_env with logic_user_cur_sec_preferences := 5 }
      false 3 [] (by decide) (by decide)).2.1,
   (C23_security_flag_set_and_clear { scenario_env with logic_user_cur_sec_preferences := 5 }
      false 3 [] (by decide) (by decide)).2.2.2.2.2.1⟩

/-! ### Date and valid-bit fields -/

/-- C24, as stated, fails: the year constants agree with the layout
(`NODEMGMT_YEAR_MASK` is `NODEMGMT_YEAR_MASK_FINAL << NODEMGMT_YEAR_SHT`, bits
15 to 9), but `NODEMGMT_MONTH_MASK` is `0x03E0`, bits 9 to 5, which is not
`NODEMGMT_MONTH_MASK_FINAL << NODEMGMT_MONTH_SHT = 0x01E0` (bits 8 to 5) and
shares bit 9 with the year mask; the day mask is disjoint from both.  Read
through the month mask, the date word `0x0200` (year 1, month 0, day 0) gives
month 16. -/
theorem C24_month_mask_overlaps_year :
    NODEMGMT_YEAR_MASK = NODEMGMT_YEAR_MASK_FINAL <<< NODEMGMT_YEAR_SHT ∧
    NODEMGMT_MONTH_MASK_FINAL <<< NODEMGMT_MONTH_SHT = 0x01E0 ∧
    NODEMGMT_MONTH_MASK = 0x03E0 ∧
    NODEMGMT_MONTH_MASK ≠ NODEMGMT_MONTH_MASK_FINAL <<< NODEMGMT_MONTH_SHT ∧
    NODEMGMT_YEAR_MASK &&& NODEMGMT_MONTH_MASK = 0x0200 ∧
    NODEMGMT_YEAR_MASK &&& NODEMGMT_DAY_MASK_FINAL = 0 ∧
    NODEMGMT_MONTH_MASK &&& NODEMGMT_DAY_MASK_FINAL = 0 ∧
    (NODEMGMT_YEAR_MASK_FINAL <<< NODEMGMT_YEAR_SHT) &&&
      (NODEMGMT_MONTH_MASK_FINAL <<< NODEMGMT_MONTH_SHT) = 0 ∧
    ((1 <<< NODEMGMT_YEAR_SHT) &&& NODEMGMT_MONTH_MASK) >>> NODEMGMT_MONTH_SHT = 16 := by
  decide

/-- C29: `nodemgmt_user_id_to_flags` with an 8-bit user id in [128, 255] sets
the valid bit (bit 13, mask `0x2000`) of the flags word whatever the word was,
and leaves `uid - 128` in the user-id field. -/
theorem C29_user_id_above_127_sets_valid_bit (flags uid : Nat) (hlo : 128 ≤ uid)
    (hhi : uid ≤ 255) :
    nodemgmt_user_id_to_flags flags uid &&& NODEMGMT_VALID_BIT_BITMASK =
      NODEMGMT_VALID_BIT_BITMASK ∧
    (nodemgmt_user_id_to_flags flags uid >>> NODEMGMT_VALID_BIT_BITSHIFT) &&&
      NODEMGMT_VALID_BIT_MASK_FINAL = NODEMGMT_VBIT_INVALID ∧
    (nodemgmt_user_id_to_flags flags uid >>> NODEMGMT_USERID_BITSHIFT) &&&
      NODEMGMT_USERID_MASK_FINAL = uid - 128 := by
  have hg : ∀ i, (nodemgmt_user_id_to_flags flags uid).testBit i =
      (decide (i < 16) && ((flags.testBit i && !(decide (6 ≤ i) && decide (i < 13))) ||
        (decide (6 ≤ i) && (decide (i - 6 < 8) && uid.testBit (i - 6))))) := by
    intro i
    simp only [nodemgmt_user_id_to_flags, not16, NODEMGMT_USERID_MASK,
      NODEMGMT_USERID_BITSHIFT, show (65536 : Nat) = 2 ^ 16 from rfl,
      show (256 : Nat) = 2 ^ 8 from rfl, Nat.testBit_mod_two_pow, Nat.testBit_or,
      Nat.testBit_and, Nat.testBit_shiftLeft, Nat.testBit_xor, testBit_65535, testBit_8128]
    by_cases h16 : i < 16 <;> simp [h16]
  have h7 : uid.testBit 7 = true := by
    rw [Nat.testBit_to_div_mod]
    simp only [decide_eq_true_eq]
    omega
  have hlow : ∀ i, i < 7 → (uid - 128).testBit i = uid.testBit i := by
    intro i hi
    have h : uid - 128 = uid % 2 ^ 7 := by omega
    rw [h, Nat.testBit_mod_two_pow]
    simp [hi]
  have h13 : (nodemgmt_user_id_to_flags flags uid).testBit 13 = true := by
    rw [hg]
    simp [h7]
  refine ⟨?_, ?_, ?_⟩
  · refine Nat.eq_of_testBit_eq (fun i => ?_)
    have hb : ∀ j, Nat.testBit 8192 j = decide (j = 13) := by
      intro j
      have h : (8192 : Nat) = 2 ^ 13 := by norm_num
      rw [h, Nat.testBit_two_pow]
      by_cases hj : j = 13
      · simp [hj]
      · simp [hj]
        omega
    rw [NODEMGMT_VALID_BIT_BITMASK, Nat.testBit_and, hb]
    by_cases hi : i = 13
    · subst hi
      simp [h13]
    · simp [hi]
  · refine Nat.eq_of_testBit_eq (fun i => ?_)
    have hb : ∀ j, Nat.testBit 1 j = decide (j = 0) := by
      intro j
      have h : (1 : Nat) = 2 ^ 0 := by norm_num
      rw [h, Nat.testBit_two_pow]
      by_cases hj : j = 0
      · simp [hj]
      · simp [hj]
        omega
    rw [NODEMGMT_VALID_BIT_BITSHIFT, NODEMGMT_VALID_BIT_MASK_FINAL, NODEMGMT_VBIT_INVALID,
      Nat.testBit_and, Nat.testBit_shiftRight, hb]
    by_cases hi : i = 0
    · subst hi
      simp [h13]
    · simp [hi]
  · refine Nat.eq_of_testBit_eq (fun i => ?_)
    rw [NODEMGMT_USERID_BITSHIFT, NODEMGMT_USERID_MASK_FINAL, Nat.testBit_and,
      Nat.testBit_shiftRight, hg, testBit_127]
    by_cases hi : i < 7
    · have h1 : 6 + i < 16 := by omega
      have h2 : 6 + i < 13 := by omega
      have h3 : 6 + i - 6 = i := by omega
      have h4 : i < 8 := by omega
      simp [h1, h2, h3, h4, hi, hlow i hi]
    · have hz : (uid - 128).testBit i = false :=
        testBit_of_lt (uid - 128) 7 i (by omega) (by omega)
      simp [hi, hz]

/-- C29, on the flags word 0 with user id 200: the word becomes `0x3200`, with
the valid bit set and 72 in the user-id field. -/
theorem C29_user_id_above_127_witness :
    nodemgmt_user_id_to_flags 0 200 = 0x3200 ∧
    nodemgmt_user_id_to_flags 0 200 &&& NODEMGMT_VALID_BIT_BITMASK =
      NODEMGMT_VALID_BIT_BITMASK ∧
    (nodemgmt_user_id_to_flags 0 200 >>> NODEMGMT_USERID_BITSHIFT) &&&
      NODEMGMT_USERID_MASK_FINAL = 72 :=
  ⟨by decide, (C29_user_id_above_127_sets_valid_bit 0 200 (by decide) (by decide)).1,
    (C29_user_id_above_127_sets_valid_bit 0 200 (by decide) (by decide)).2.2⟩

/-! ### Confirmation of a retrieval and update without a password -/

/-- C26, as stated, fails: on the sample device holding a service with two
logins, with the `USER_SEC_FLG_LOGIN_CONF` flag clear and no login specified,
the credential picked in the login selection is returned (payload size 2, the
answer filled for the child at address 6 and its password decrypted) with no
confirmation asked and no notification displayed. -/
theorem C26_credential_returned_without_notification :
    (logic_user_get_user_security_flags scenario_env_two_logins &&&
      USER_SEC_FLG_LOGIN_CONF) = 0 ∧
    ((logic_user_usb_get_credential scenario_defines scenario_env_two_logins [102, 111, 111]
      none scenario_msg).run []).1.1 = 2 ∧
    secret_fetch_addresses ((logic_user_usb_get_credential scenario_defines
      scenario_env_two_logins [102, 111, 111] none scenario_msg).run []).2 = [6] ∧
    password_decrypted ((logic_user_usb_get_credential scenario_defines
      scenario_env_two_logins [102, 111, 111] none scenario_msg).run []).2 = true ∧
    confirmation_answers ((logic_user_usb_get_credential scenario_defines
      scenario_env_two_logins [102, 111, 111] none scenario_msg).run []).2 = [] ∧
    ((logic_user_usb_get_credential scenario_defines scenario_env_two_logins [102, 111, 111]
      none scenario_msg).run []).2.any Event.is_login_notification = false := by
  decide

set_option maxHeartbeats 4000000 in
/-- C26, amended: in every run of `logic_user_usb_get_credential`, a
confirmation prompt answered with anything other than MINI_INPUT_RET_YES makes
the function return -1 with the whole answer payload zeroed, and no call to
`logic_database_fill_get_cred_message_answer` or
`logic_encryption_ctr_decrypt` is made; the prompt is asked only with the
`USER_SEC_FLG_LOGIN_CONF` flag set.  With the flag clear no confirmation is
asked and, with the smartcard unlocked, when the login is specified and found
or the service has exactly one login, the three-line notification is displayed
without any prompt and the answer is then filled and decrypted for that login
and returned. -/
theorem C26_confirmation_or_notification (d : Defines) (env : Env) (service : List Nat)
    (login : Option (List Nat)) (send_msg : hid_message_t) :
    (∀ a ∈ confirmation_answers
        ((logic_user_usb_get_credential d env service login send_msg).run []).2,
      (logic_user_get_user_security_flags env &&& USER_SEC_FLG_LOGIN_CONF) ≠ 0 ∧
      (a ≠ .MINI_INPUT_RET_YES →
        ((logic_user_usb_get_credential d env service login send_msg).run []).1 =
          (-1, hid_message_zero_payload send_msg) ∧
        ∀ e ∈ ((logic_user_usb_get_credential d env service login send_msg).run []).2,
          e.is_secret_fetch = false ∧ e.is_decrypt = false)) ∧
    ((logic_user_get_user_security_flags env &&& USER_SEC_FLG_LOGIN_CONF) = 0 →
      confirmation_answers
        ((logic_user_usb_get_credential d env service login send_msg).run []).2 = [] ∧
      (env.logic_security_is_smc_inserted_unlocked = true →
        env.logic_database_search_service (local_string_copy service PARENT_SERVICE_ARRAY_SIZE)
          true d.NODEMGMT_STANDARD_CRED_TYPE_ID ≠ NODE_ADDR_NULL →
        ∀ child,
        ((∃ l, login = some l ∧
            env.logic_database_search_login_in_service
              (env.logic_database_search_service
                (local_string_copy service PARENT_SERVICE_ARRAY_SIZE) true
                d.NODEMGMT_STANDARD_CRED_TYPE_ID)
              (local_string_copy l CHILD_LOGIN_ARRAY_SIZE)
              (!env.logic_security_is_management_mode_set) = child ∧
            child ≠ NODE_ADDR_NULL) ∨
          (login = none ∧
            env.logic_database_get_number_of_creds_for_service
              (env.logic_database_search_service
                (local_string_copy service PARENT_SERVICE_ARRAY_SIZE) true
                d.NODEMGMT_STANDARD_CRED_TYPE_ID)
              (!env.logic_security_is_management_mode_set) = (1, child))) →
        ∃ t, (logic_user_usb_get_credential d env service login send_msg).run [] =
            (usb_fill_and_decrypt env child send_msg).run t ∧
          t.any Event.is_login_notification = true ∧
          (∀ e ∈ t, e.is_user_prompt = false ∧ e.is_secret_fetch = false ∧
            e.is_decrypt = false))) := by
  refine ⟨?_, fun hf => ⟨?_, ?_⟩⟩
  · generalize hr : (logic_user_usb_get_credential d env service login send_msg).run [] = r
    by_cases hu : env.logic_security_is_smc_inserted_unlocked = false
    · simp [logic_user_usb_get_credential, hu, StateT.run, pure, StateT.pure] at hr
      subst hr
      simp [hu, confirmation_answers]
    by_cases hp : env.logic_database_search_service
        (local_string_copy service PARENT_SERVICE_ARRAY_SIZE) true
        d.NODEMGMT_STANDARD_CRED_TYPE_ID = 0
    · simp only [logic_user_usb_get_credential, NODE_ADDR_NULL, emit, StateT.run, bind,
        StateT.bind, pure, StateT.pure, modify, modifyGet, MonadStateOf.modifyGet,
        StateT.modifyGet, get, getThe, MonadStateOf.get, StateT.get, run_ite, List.nil_append,
        List.cons_append, List.append_assoc, List.singleton_append, hu, hp,
        if_true, if_false] at hr
      subst hr
      simp [confirmation_answers, Event.confirmation_answer]
    by_cases hf : (logic_user_get_user_security_flags env &&& USER_SEC_FLG_LOGIN_CONF) = 0 <;>
    cases login <;>
    simp only [logic_user_usb_get_credential, usb_fill_and_decrypt, Option.map,
      NODE_ADDR_NULL, emit, StateT.run, bind,
      StateT.bind, pure, StateT.pure, modify, modifyGet, MonadStateOf.modifyGet,
      StateT.modifyGet, get, getThe, MonadStateOf.get, StateT.get, run_ite, List.nil_append,
      List.cons_append, List.append_assoc, List.singleton_append, hu, hp, hf,
      if_true, if_false, ne_eq, not_true_eq_false, not_false_eq_true, reduceCtorEq,
      false_or, true_or] at hr <;>
    (try split_ifs at hr) <;> subst hr <;>
    simp_all [confirmation_answers, Event.confirmation_answer,
      Event.is_secret_fetch, Event.is_decrypt]
  · generalize hr : (logic_user_usb_get_credential d env service login send_msg).run [] = r
    by_cases hu : env.logic_security_is_smc_inserted_unlocked = false
    · simp [logic_user_usb_get_credential, hu, StateT.run, pure, StateT.pure] at hr
      subst hr
      simp [confirmation_answers]
    by_cases hp : env.logic_database_search_service
        (local_string_copy service PARENT_SERVICE_ARRAY_SIZE) true
        d.NODEMGMT_STANDARD_CRED_TYPE_ID = 0
    · simp only [logic_user_usb_get_credential, NODE_ADDR_NULL, emit, StateT.run, bind,
        StateT.bind, pure, StateT.pure, modify, modifyGet, MonadStateOf.modifyGet,
        StateT.modifyGet, get, getThe, MonadStateOf.get, StateT.get, run_ite, List.nil_append,
        List.cons_append, List.append_assoc, List.singleton_append, hu, hp,
        if_true, if_false] at hr
      subst hr
      simp [confirmation_answers, Event.confirmation_answer]
    cases login <;>
    simp only [logic_user_usb_get_credential, usb_fill_and_decrypt, Option.map,
      NODE_ADDR_NULL, emit, StateT.run, bind,
      StateT.bind, pure, StateT.pure, modify, modifyGet, MonadStateOf.modifyGet,
      StateT.modifyGet, get, getThe, MonadStateOf.get, StateT.get, run_ite, List.nil_append,
      List.cons_append, List.append_assoc, List.singleton_append, hu, hp, hf,
      if_true, if_false, ne_eq, not_true_eq_false, not_false_eq_true, reduceCtorEq,
      false_or, true_or] at hr <;>
    (try split_ifs at hr) <;> subst hr <;>
    simp [confirmation_answers, Event.confirmation_answer]
  · intro hu hs child hcase
    have hu2 : ¬ env.logic_security_is_smc_inserted_unlocked = false := by simp [hu]
    simp only [NODE_ADDR_NULL] at hs
    rcases hcase with ⟨l, rfl, hl, hc⟩ | ⟨rfl, hn⟩
    · simp only [NODE_ADDR_NULL] at hc
      subst hl
      simp only [logic_user_usb_get_credential, Option.map,
        NODE_ADDR_NULL, emit, StateT.run, bind,
        StateT.bind, pure, StateT.pure, modify, modifyGet, MonadStateOf.modifyGet,
        StateT.modifyGet, get, getThe, MonadStateOf.get, StateT.get, run_ite, List.nil_append,
        List.cons_append, List.append_assoc, List.singleton_append, hu2, hs, hf, hc,
        if_true, if_false, ne_eq, not_true_eq_false, not_false_eq_true, reduceCtorEq,
        false_or, true_or]
      exact ⟨_, rfl, by simp [Event.is_login_notification],
        by simp [Event.is_user_prompt, Event.is_secret_fetch, Event.is_decrypt]⟩
    · simp only [logic_user_usb_get_credential, Option.map,
        NODE_ADDR_NULL, emit, StateT.run, bind,
        StateT.bind, pure, StateT.pure, modify, modifyGet, MonadStateOf.modifyGet,
        StateT.modifyGet, get, getThe, MonadStateOf.get, StateT.get, run_ite, List.nil_append,
        List.cons_append, List.append_assoc, List.singleton_append, hu2, hs, hf, hn,
        if_true, if_false, ne_eq, not_true_eq_false, not_false_eq_true, reduceCtorEq,
        false_or, true_or, or_true]
      exact ⟨_, rfl, by simp [Event.is_login_notification],
        by simp [Event.is_user_prompt, Event.is_secret_fetch, Event.is_decrypt]⟩

/-- C26, amended, on the sample device holding the login at address 4: with
the flag set and a user who answers NO the lookup returns -1 with a zeroed
payload; with the flag clear the notification is displayed and the answer is
filled for the child at address 4. -/
theorem C26_confirmation_or_notification_witness :
    confirmation_answers ((logic_user_usb_get_credential scenario_defines
      scenario_env_login_present_user_declines [102, 111, 111] (some [98, 111, 98])
      scenario_msg).run []).2 = [.MINI_INPUT_RET_NO] ∧
    ((logic_user_usb_get_credential scenario_defines
      scenario_env_login_present_user_declines [102, 111, 111] (some [98, 111, 98])
      scenario_msg).run []).1 = (-1, hid_message_zero_payload scenario_msg) ∧
    (logic_user_get_user_security_flags scenario_env_login_present &&&
      USER_SEC_FLG_LOGIN_CONF) = 0 ∧
    secret_fetch_addresses ((logic_user_usb_get_credential scenario_defines
      scenario_env_login_present [102, 111, 111] (some [98, 111, 98])
      scenario_msg).run []).2 = [4] ∧
    ∃ t, (logic_user_usb_get_credential scenario_defines scenario_env_login_present
        [102, 111, 111] (some [98, 111, 98]) scenario_msg).run [] =
        (usb_fill_and_decrypt scenario_env_login_present 4 scenario_msg).run t ∧
      t.any Event.is_login_notification = true ∧
      (∀ e ∈ t, e.is_user_prompt = false ∧ e.is_secret_fetch = false ∧
        e.is_decrypt = false) :=
  ⟨by decide,
    (((C26_confirmation_or_notification scenario_defines
      scenario_env_login_present_user_declines [102, 111, 111] (some [98, 111, 98])
      scenario_msg).1 .MINI_INPUT_RET_NO (by decide)).2 (by decide)).1,
    by decide, by decide,
    ((C26_confirmation_or_notification scenario_defines scenario_env_login_present
      [102, 111, 111] (some [98, 111, 98]) scenario_msg).2 (by decide)).2 (by decide)
      (by decide) 4 (Or.inl ⟨_, rfl, by decide, by decide⟩)⟩

/-- C27, as stated, fails: on the sample device holding the login at address
4, with a user who answers NO to the confirmation prompt, a store request for
that login with no password returns RETURN_NOK and makes no call to
`logic_database_update_credential`. -/
theorem C27_declined_update_returns_nok :
    scenario_env_login_present_user_declines.logic_database_search_login_in_service
      (scenario_env_login_present_user_declines.logic_database_search_service [102, 111, 111]
        true scenario_defines.NODEMGMT_STANDARD_CRED_TYPE_ID) [98, 111, 98] true = 4 ∧
    ((logic_user_store_credential scenario_defines scenario_env_login_present_user_declines
      [102, 111, 111] [98, 111, 98] none none none).run []).1 = scenario_defines.RETURN_NOK ∧
    scenario_defines.RETURN_NOK ≠ scenario_defines.RETURN_OK ∧
    confirmation_answers ((logic_user_store_credential scenario_defines
      scenario_env_login_present_user_declines [102, 111, 111] [98, 111, 98] none none
      none).run []).2 = [.MINI_INPUT_RET_NO] ∧
    ((logic_user_store_credential scenario_defines scenario_env_login_present_user_declines
      [102, 111, 111] [98, 111, 98] none none none).run []).2.filterMap
        Event.updated_password = [] := by
  decide

set_option maxHeartbeats 4000000 in
/-- C27, amended: when the login already exists and no password is supplied,
no run of `logic_user_store_credential` makes a
`logic_encryption_ctr_encrypt` call or hands a password or a counter to
`logic_database_update_credential`; when moreover the smartcard is unlocked
and the request is approved (the confirmation prompt is answered
MINI_INPUT_RET_YES, or management mode is set with the
`USER_SEC_FLG_CRED_SAVE_PROMPT_MMM` flag clear and nothing is asked), the run
ends with the call of `logic_database_update_credential` for that login with a
null password and a null counter, and returns RETURN_OK. -/
theorem C27_update_without_password (d : Defines) (env : Env) (service login : List Nat)
    (desc third : Option (List Nat))
    (hs : env.logic_database_search_service service true d.NODEMGMT_STANDARD_CRED_TYPE_ID ≠
      NODE_ADDR_NULL)
    (hc : env.logic_database_search_login_in_service
      (env.logic_database_search_service service true d.NODEMGMT_STANDARD_CRED_TYPE_ID)
      login true ≠ NODE_ADDR_NULL) :
    (∀ e ∈ ((logic_user_store_credential d env service login desc third none).run []).2,
      e.is_encrypt = false ∧ e.password_written = none) ∧
    (env.logic_security_is_smc_inserted_unlocked = true →
      ((env.logic_security_is_management_mode_set = false ∨
          (logic_user_get_user_security_flags env &&& USER_SEC_FLG_CRED_SAVE_PROMPT_MMM) ≠ 0) →
        env.gui_prompts_ask_for_confirmation
          [Event.logic_database_search_service service true d.NODEMGMT_STANDARD_CRED_TYPE_ID,
           Event.logic_database_search_login_in_service
            (env.logic_database_search_service service true d.NODEMGMT_STANDARD_CRED_TYPE_ID)
            login true,
           Event.custom_fs_get_string_from_file .CHANGE_PWD_TEXT_ID] = .MINI_INPUT_RET_YES) →
      ((logic_user_store_credential d env service login desc third none).run []).1 =
        d.RETURN_OK ∧
      ((logic_user_store_credential d env service login desc third none).run []).2.getLast? =
        some (Event.logic_database_update_credential
          (env.logic_database_search_login_in_service
            (env.logic_database_search_service service true d.NODEMGMT_STANDARD_CRED_TYPE_ID)
            login true) desc third none none) ∧
      ((logic_user_store_credential d env service login desc third none).run []).2.filterMap
        Event.updated_password = [(none, none)]) := by
  generalize hr : (logic_user_store_credential d env service login desc third none).run [] = r
  simp only [NODE_ADDR_NULL] at hs hc
  by_cases hu : env.logic_security_is_smc_inserted_unlocked = false
  · simp [logic_user_store_credential, hu, StateT.run, pure, StateT.pure] at hr
    subst hr
    simp [hu]
  by_cases hg : (env.logic_security_is_management_mode_set = false ∨
      (logic_user_get_user_security_flags env &&& USER_SEC_FLG_CRED_SAVE_PROMPT_MMM) ≠ 0) <;>
  simp only [logic_user_store_credential, NODE_ADDR_NULL, emit, StateT.run, bind,
    StateT.bind, pure, StateT.pure, modify, modifyGet, MonadStateOf.modifyGet,
    StateT.modifyGet, get, getThe, MonadStateOf.get, StateT.get, run_ite, List.nil_append,
    List.cons_append, List.append_assoc, List.singleton_append, hu, hs, hg, hc,
    if_true, if_false, ne_eq, not_true_eq_false, not_false_eq_true, reduceCtorEq] at hr <;>
  (try split_ifs at hr) <;> subst hr <;>
  simp_all [Event.password_written, Event.is_encrypt, Event.updated_password,
    List.getLast?_cons_cons]

/-- C27, amended, on the sample device holding the login at address 4, with a
user who answers YES: the update is made with null pointers and the request
returns RETURN_OK. -/
theorem C27_update_without_password_witness :
    ((logic_user_store_credential scenario_defines scenario_env_login_present [102, 111, 111]
      [98, 111, 98] none none none).run []).1 = scenario_defines.RETURN_OK ∧
    ((logic_user_store_credential scenario_defines scenario_env_login_present [102, 111, 111]
      [98, 111, 98] none none none).run []).2.filterMap Event.updated_password =
      [(none, none)] ∧
    ∀ e ∈ ((logic_user_store_credential scenario_defines scenario_env_login_present
        [102, 111, 111] [98, 111, 98] none none none).run []).2,
      e.is_encrypt = false ∧ e.password_written = none :=
  ⟨((C27_update_without_password scenario_defines scenario_env_login_present [102, 111, 111]
      [98, 111, 98] none none (by decide) (by decide)).2 (by decide) (fun _ => by decide)).1,
    ((C27_update_without_password scenario_defines scenario_env_login_present [102, 111, 111]
      [98, 111, 98] none none (by decide) (by decide)).2 (by decide)
      (fun _ => by decide)).2.2,
    (C27_update_without_password scenario_defines scenario_env_login_present [102, 111, 111]
      [98, 111, 98] none none (by decide) (by decide)).1⟩

/-! ### The first line of the typing prompts -/

/-- Overwriting the part `X` of a buffer with as many code units `Y`. -/
theorem write_at_middle (A X Y C : List Nat) (n : Nat) (hn : A.length = n)
    (h : X.length = Y.length) :
    write_at (A ++ X ++ C) n Y = A ++ Y ++ C := by
  subst hn
  have h1 : List.take A.length (A ++ X ++ C) = A := by
    rw [List.append_assoc]
    exact List.take_left' rfl
  have h2 : List.drop (A.length + Y.length) (A ++ X ++ C) = C :=
    List.drop_left' (by simp [h])
  rw [write_at, h1, h2]

/-- The string of a buffer is its first `utils_strlen` code units. -/
theorem cstr_eq_take (buf : List Nat) : cstr buf = buf.take (utils_strlen buf) :=
  List.prefix_iff_eq_take.mp (List.takeWhile_prefix _)

/-- The string of a buffer holds no zero. -/
theorem cstr_ne_zero (buf : List Nat) : ∀ c ∈ cstr buf, c ≠ 0 := by
  intro c hc
  unfold cstr at hc
  simpa using List.mem_takeWhile_imp hc

/-- `logic_user_ask_for_credentials_keyb_output` displays the string that
`keyb_first_line_buffer` leaves in the `service` field. -/
theorem logic_user_ask_for_credentials_keyb_output_first_line (d : Defines) (env : Env)
    (fuel parent_address child_address : Nat) (only_pwd_prompt usb_selected : Bool)
    (t : List Event) :
    (logic_user_ask_for_credentials_keyb_output d env fuel parent_address child_address
      only_pwd_prompt usb_selected).run t =
    if ((poll_nothing_connected env).run t).1 = true then
      ((some d.RETURN_NOK, usb_selected), ((poll_nothing_connected env).run t).2)
    else
      (keyb_output_loop d env
        (cstr (keyb_first_line_buffer (env.nodemgmt_read_parent_node parent_address).service
          (env.nodemgmt_read_cred_child_node child_address).login)) fuel
        ⟨if only_pwd_prompt ≠ false then 2 else 0, usb_selected,
          if usb_selected = false then 1 else 0, false,
          env.nodemgmt_read_cred_child_node child_address⟩).run
        (((poll_nothing_connected env).run t).2 ++
          [Event.nodemgmt_read_parent_node parent_address,
           Event.nodemgmt_read_cred_child_node child_address]) := by
  simp only [logic_user_ask_for_credentials_keyb_output, keyb_first_line_buffer, emit,
    StateT.run, bind, StateT.bind, pure, StateT.pure, modify, modifyGet,
    MonadStateOf.modifyGet, StateT.modifyGet, get, getThe, MonadStateOf.get, StateT.get,
    run_ite, List.nil_append, List.cons_append, List.append_assoc, List.singleton_append]
  generalize poll_nothing_connected env t = p
  obtain ⟨a, s⟩ := p
  cases a <;> split_ifs <;> simp_all

/-- C30: the `service` field is an array of 126 code units.  When
`utils_strlen service + utils_strlen login + 4 <= 126` the first line is
composed in it: the string of `service` is kept, the code units of `" / "`, of
the login and a terminating zero are written behind it, the zero at index
`utils_strlen service + 3 + utils_strlen login`, which is at most 125; the
array keeps its 126 code units, those behind the zero are untouched, and the
string it holds is `service / login`.  Otherwise the array is left as it
was. -/
theorem C30_first_line_stays_in_bounds (service login : List Nat)
    (hs : service.length = PARENT_SERVICE_ARRAY_SIZE) :
    (utils_strlen service + utils_strlen login + 4 ≤ PARENT_SERVICE_ARRAY_SIZE →
      utils_strlen service + 3 + utils_strlen login ≤ 125 ∧
      (keyb_first_line_buffer service login).length = PARENT_SERVICE_ARRAY_SIZE ∧
      keyb_first_line_buffer service login =
        service.take (utils_strlen service) ++ [32, 47, 32] ++ cstr login ++ [0] ++
          service.drop (utils_strlen service + 3 + utils_strlen login + 1) ∧
      (keyb_first_line_buffer service login).get?
        (utils_strlen service + 3 + utils_strlen login) = some 0 ∧
      cstr (keyb_first_line_buffer service login) = cstr service ++ [32, 47, 32] ++ cstr login) ∧
    (¬ utils_strlen service + utils_strlen login + 4 ≤ PARENT_SERVICE_ARRAY_SIZE →
      keyb_first_line_buffer service login = service) := by
  refine ⟨fun hle => ?_, fun hgt => by simp [keyb_first_line_buffer, hgt]⟩
  simp only [PARENT_SERVICE_ARRAY_SIZE] at hs hle
  have hA : (service.take (utils_strlen service)).length = utils_strlen service := by
    rw [List.length_take]; omega
  obtain ⟨b0, b1, b2, hX⟩ : ∃ b0 b1 b2,
      (service.drop (utils_strlen service)).take 3 = [b0, b1, b2] :=
    List.length_eq_three.mp (by rw [List.length_take, List.length_drop]; omega)
  have hL : ((service.drop (utils_strlen service + 3)).take (utils_strlen login + 1)).length =
      (cstr login ++ [0]).length := by
    rw [List.length_take, List.length_drop, List.length_append, List.length_singleton]
    simp only [utils_strlen] at *
    omega
  have hdecomp : service = service.take (utils_strlen service) ++ [b0, b1, b2] ++
      (service.drop (utils_strlen service + 3)).take (utils_strlen login + 1) ++
      service.drop (utils_strlen service + 3 + utils_strlen login + 1) := by
    rw [← hX]
    have e1 : service.drop (utils_strlen service + 3 + utils_strlen login + 1) =
        (service.drop (utils_strlen service + 3)).drop (utils_strlen login + 1) := by
      rw [List.drop_drop]; congr 1
    have e2 : service.drop (utils_strlen service + 3) =
        (service.drop (utils_strlen service)).drop 3 := by
      rw [List.drop_drop]
    rw [e1, List.append_assoc, List.take_append_drop, e2, List.append_assoc,
      List.take_append_drop, List.take_append_drop]
  have hres : keyb_first_line_buffer service login =
      service.take (utils_strlen service) ++ [32, 47, 32] ++ cstr login ++ [0] ++
        service.drop (utils_strlen service + 3 + utils_strlen login + 1) := by
    have hcond : utils_strlen service + utils_strlen login + 4 ≤ PARENT_SERVICE_ARRAY_SIZE := by
      simpa [PARENT_SERVICE_ARRAY_SIZE] using hle
    simp only [keyb_first_line_buffer, hcond, if_true, utils_strcpy_at]
    generalize hC : service.drop (utils_strlen service + 3 + utils_strlen login + 1) = C at *
    generalize hM : (service.drop (utils_strlen service + 3)).take (utils_strlen login + 1) =
      M at *
    generalize hAA : service.take (utils_strlen service) = A at *
    generalize utils_strlen service = n at *
    rw [hdecomp]
    have s1 : write_at (A ++ [b0, b1, b2] ++ M ++ C) n [32] = A ++ [32, b1, b2] ++ M ++ C := by
      have := write_at_middle A [b0] [32] ([b1, b2] ++ M ++ C) n hA rfl
      simpa using this
    have s2 : write_at (A ++ [32, b1, b2] ++ M ++ C) (n + 1) [47] =
        A ++ [32, 47, b2] ++ M ++ C := by
      have := write_at_middle (A ++ [32]) [b1] [47] ([b2] ++ M ++ C) (n + 1) (by simp [hA]) rfl
      simpa using this
    have s3 : write_at (A ++ [32, 47, b2] ++ M ++ C) (n + 2) [32] =
        A ++ [32, 47, 32] ++ M ++ C := by
      have := write_at_middle (A ++ [32, 47]) [b2] [32] (M ++ C) (n + 2) (by simp [hA]) rfl
      simpa using this
    have s4 : write_at (A ++ [32, 47, 32] ++ M ++ C) (n + 3) (cstr login ++ [0]) =
        A ++ [32, 47, 32] ++ (cstr login ++ [0]) ++ C :=
      write_at_middle (A ++ [32, 47, 32]) M (cstr login ++ [0]) C (n + 3) (by simp [hA]) hL
    rw [s1, s2, s3, s4]
    simp
  have hlen : (keyb_first_line_buffer service login).length = 126 := by
    rw [hres]
    simp only [List.length_append, hA, List.length_drop, hs, List.length_cons,
      List.length_nil, List.length_singleton]
    simp only [utils_strlen] at *
    omega
  refine ⟨by omega, by simpa [PARENT_SERVICE_ARRAY_SIZE] using hlen, hres, ?_, ?_⟩
  · rw [hres]
    have hpre : (service.take (utils_strlen service) ++ [32, 47, 32] ++ cstr login).length =
        utils_strlen service + 3 + utils_strlen login := by
      rw [List.length_append, List.length_append, hA]
      rfl
    rw [List.get?_eq_getElem?, List.append_assoc _ [0] _,
      List.getElem?_append_right (by rw [hpre]), hpre]
    simp
  · rw [hres, ← cstr_eq_take]
    unfold cstr
    rw [List.append_assoc, List.append_assoc, List.append_assoc,
      List.takeWhile_append_of_pos (fun c hc => by simpa using cstr_ne_zero service c hc),
      List.takeWhile_append_of_pos (by decide),
      List.takeWhile_append_of_pos (fun c hc => by simpa using cstr_ne_zero login c hc)]
    simp [cstr]

/-- C30, on a 126-unit service field holding `ab` and the login `c`: the field
then holds `ab / c`, zero-terminated at index 6, and still has 126 units. -/
theorem C30_first_line_witness :
    ([97, 98] ++ List.replicate 124 0).length = PARENT_SERVICE_ARRAY_SIZE ∧
    cstr (keyb_first_line_buffer ([97, 98] ++ List.replicate 124 0) [99, 0]) =
      [97, 98, 32, 47, 32, 99] ∧
    (keyb_first_line_buffer ([97, 98] ++ List.replicate 124 0) [99, 0]).length =
      PARENT_SERVICE_ARRAY_SIZE :=
  ⟨rfl, rfl,
    ((C30_first_line_stays_in_bounds ([97, 98] ++ List.replicate 124 0) [99, 0]
      (by simp [PARENT_SERVICE_ARRAY_SIZE])).1 (by decide)).2.1⟩

/-! ### Range of the state variables -/

/-- The loop `keyb_output_loop` is the iteration of `keyb_output_body`. -/
theorem keyb_output_loop_eq_passes (d : Defines) (env : Env) (first_line : List Nat) :
    ∀ (fuel : Nat) (st : keyb_output_state) (t : List Event),
    (keyb_output_loop d env first_line fuel st).run t =
      (((keyb_output_passes d env first_line fuel st).run t).1.result,
        ((keyb_output_passes d env first_line fuel st).run t).2) := by
  intro fuel
  induction fuel with
  | zero =>
    intro st t
    rfl
  | succ fuel ih =>
    intro st t
    have ih2 : ∀ st t, keyb_output_loop d env first_line fuel st t =
        ((keyb_output_passes d env first_line fuel st t).1.result,
          (keyb_output_passes d env first_line fuel st t).2) := ih
    by_cases h0 : st.state_machine = 0
    · simp only [keyb_output_loop, keyb_output_passes, keyb_output_body, h0, if_true,
        poll_both_interfaces_connected_run,
        poll_bluetooth_connected, emit, StateT.run, bind,
        StateT.bind, pure, StateT.pure, modify, modifyGet, MonadStateOf.modifyGet,
        StateT.modifyGet, get, getThe, MonadStateOf.get, StateT.get, run_ite, List.nil_append,
        List.cons_append, List.append_assoc, List.singleton_append]
      split_ifs <;> first | rfl | exact ih2 _ _
    by_cases h1 : st.state_machine = 1
    · simp only [keyb_output_loop, keyb_output_passes, keyb_output_body, h1, if_true,
        poll_both_interfaces_connected_run, keyb_type_string_run,
        poll_bluetooth_connected, emit, StateT.run, bind,
        StateT.bind, pure, StateT.pure, modify, modifyGet, MonadStateOf.modifyGet,
        StateT.modifyGet, get, getThe, MonadStateOf.get, StateT.get, run_ite, List.nil_append,
        List.cons_append, List.append_assoc, List.singleton_append, one_ne_zero, if_false]
      split_ifs <;> first | rfl | exact ih2 _ _
    by_cases h2 : st.state_machine = 2
    · simp only [keyb_output_loop, keyb_output_passes, keyb_output_body, h2, if_true,
        poll_both_interfaces_connected_run, keyb_type_string_run,
        poll_bluetooth_connected, emit, StateT.run, bind,
        StateT.bind, pure, StateT.pure, modify, modifyGet, MonadStateOf.modifyGet,
        StateT.modifyGet, get, getThe, MonadStateOf.get, StateT.get, run_ite, List.nil_append,
        List.cons_append, List.append_assoc, List.singleton_append, OfNat.ofNat_ne_zero,
        OfNat.ofNat_ne_one, if_false]
      split_ifs <;> first | rfl | exact ih2 _ _
    · simp only [keyb_output_loop, keyb_output_passes, keyb_output_body, h0, h1, h2, if_false,
        StateT.run, bind, StateT.bind, pure, StateT.pure]
      exact ih2 _ _

/-- One pass of the keyboard-output loop from a state in {0, 1, 2} ends in a
return or in a state in {0, 1, 2}. -/
theorem keyb_output_body_state_in_range (d : Defines) (env : Env) (first_line : List Nat)
    (st : keyb_output_state) (t : List Event) (h : st.state_machine ≤ 2) :
    ((keyb_output_body d env first_line st).run t).1.state_in_range = true := by
  by_cases h0 : st.state_machine = 0
  · simp only [keyb_output_body, h0, if_true, poll_both_interfaces_connected_run,
      poll_bluetooth_connected, emit, StateT.run, bind,
      StateT.bind, pure, StateT.pure, modify, modifyGet, MonadStateOf.modifyGet,
      StateT.modifyGet, get, getThe, MonadStateOf.get, StateT.get, run_ite, List.nil_append,
      List.cons_append, List.append_assoc, List.singleton_append]
    split_ifs <;> simp [keyb_output_step_t.state_in_range, h0]
  by_cases h1 : st.state_machine = 1
  · simp only [keyb_output_body, h1, if_true, poll_both_interfaces_connected_run,
      keyb_type_string_run, poll_bluetooth_connected, emit, StateT.run, bind,
      StateT.bind, pure, StateT.pure, modify, modifyGet, MonadStateOf.modifyGet,
      StateT.modifyGet, get, getThe, MonadStateOf.get, StateT.get, run_ite, List.nil_append,
      List.cons_append, List.append_assoc, List.singleton_append, one_ne_zero, if_false]
    split_ifs <;> simp [keyb_output_step_t.state_in_range, h1]
  by_cases h2 : st.state_machine = 2
  · simp only [keyb_output_body, h2, if_true, poll_both_interfaces_connected_run,
      keyb_type_string_run, poll_bluetooth_connected, emit, StateT.run, bind,
      StateT.bind, pure, StateT.pure, modify, modifyGet, MonadStateOf.modifyGet,
      StateT.modifyGet, get, getThe, MonadStateOf.get, StateT.get, run_ite, List.nil_append,
      List.cons_append, List.append_assoc, List.singleton_append, OfNat.ofNat_ne_zero,
      OfNat.ofNat_ne_one, if_false]
    split_ifs <;> simp [keyb_output_step_t.state_in_range, h2]
  · omega

/-- Any number of passes of the keyboard-output loop from a state in
{0, 1, 2} ends in a return or in a state in {0, 1, 2}. -/
theorem keyb_output_passes_state_in_range (d : Defines) (env : Env) (first_line : List Nat) :
    ∀ (fuel : Nat) (st : keyb_output_state) (t : List Event), st.state_machine ≤ 2 →
    ((keyb_output_passes d env first_line fuel st).run t).1.state_in_range = true := by
  intro fuel
  induction fuel with
  | zero =>
    intro st t h
    simp only [keyb_output_passes, StateT.run, pure, StateT.pure,
      keyb_output_step_t.state_in_range, List.mem_cons, List.mem_singleton, List.mem_nil_iff,
      or_false, decide_eq_true_eq]
    omega
  | succ fuel ih =>
    intro st t h
    have hb := keyb_output_body_state_in_range d env first_line st t h
    simp only [keyb_output_passes, StateT.run, bind, StateT.bind] at hb ⊢
    generalize keyb_output_body d env first_line st t = r at hb
    obtain ⟨r, t2⟩ := r
    cases r with
    | next st2 =>
      simp only [keyb_output_step_t.state_in_range, List.mem_cons, List.mem_singleton,
        List.mem_nil_iff, or_false, decide_eq_true_eq] at hb
      exact ih st2 t2 (by omega)
    | returned v u => rfl

/-- One pass of the login-selection loop from a state in {0, 1, 2, 3} ends in
a return or in a state in {0, 1, 2, 3}. -/
theorem manual_select_login_body_state_in_range (d : Defines) (env : Env) (keyb_fuel : Nat)
    (st : manual_select_state) (t : List Event) (h : st.state_machine ≤ 3) :
    ((manual_select_login_body d env keyb_fuel st).run t).1.state_in_range = true := by
  by_cases h0 : st.state_machine = 0
  · simp only [manual_select_login_body, h0, if_true, emit, StateT.run, bind,
      StateT.bind, pure, StateT.pure, modify, modifyGet, MonadStateOf.modifyGet,
      StateT.modifyGet, get, getThe, MonadStateOf.get, StateT.get, run_ite, List.nil_append,
      List.cons_append, List.append_assoc, List.singleton_append]
    split_ifs <;> simp [manual_select_step_t.state_in_range, h0]
  by_cases h1 : st.state_machine = 1
  · simp only [manual_select_login_body, h1, if_true, emit, StateT.run, bind,
      StateT.bind, pure, StateT.pure, modify, modifyGet, MonadStateOf.modifyGet,
      StateT.modifyGet, get, getThe, MonadStateOf.get, StateT.get, run_ite, List.nil_append,
      List.cons_append, List.append_assoc, List.singleton_append, one_ne_zero, if_false]
    split_ifs <;> simp [manual_select_step_t.state_in_range, h1]
  by_cases h2 : st.state_machine = 2
  · simp only [manual_select_login_body, h2, if_true, emit, StateT.run, bind,
      StateT.bind, pure, StateT.pure, modify, modifyGet, MonadStateOf.modifyGet,
      StateT.modifyGet, get, getThe, MonadStateOf.get, StateT.get, run_ite, List.nil_append,
      List.cons_append, List.append_assoc, List.singleton_append, OfNat.ofNat_ne_zero,
      OfNat.ofNat_ne_one, if_false]
    generalize logic_user_ask_for_credentials_keyb_output d env keyb_fuel
      st.chosen_service_addr st.chosen_login_addr st.only_password_prompt
      st.usb_interface_output t = k
    obtain ⟨⟨res, usb⟩, t2⟩ := k
    cases res with
    | none => rfl
    | some v =>
      simp only [StateT.pure, pure]
      split_ifs <;> simp [manual_select_step_t.state_in_range, h2, StateT.pure]
  by_cases h3 : st.state_machine = 3
  · simp only [manual_select_login_body, h3, if_true, emit, StateT.run, bind,
      poll_nothing_connected, poll_bluetooth_connected, poll_usb_enumerated,
      StateT.bind, pure, StateT.pure, modify, modifyGet, MonadStateOf.modifyGet,
      StateT.modifyGet, get, getThe, MonadStateOf.get, StateT.get, run_ite, List.nil_append,
      List.cons_append, List.append_assoc, List.singleton_append, OfNat.ofNat_ne_zero,
      OfNat.ofNat_ne_one, if_false, Nat.succ_ne_self, reduceCtorEq]
    split_ifs <;> simp [manual_select_step_t.state_in_range, h3] <;>
      (try split_ifs) <;> (try simp [manual_select_step_t.state_in_range, h3])
  · omega

/-- Any number of passes of the login-selection loop from a state in
{0, 1, 2, 3} ends in a return or in a state in {0, 1, 2, 3}. -/
theorem manual_select_login_loop_state_in_range (d : Defines) (env : Env) (keyb_fuel : Nat) :
    ∀ (fuel : Nat) (st : manual_select_state) (t : List Event), st.state_machine ≤ 3 →
    ((manual_select_login_loop d env keyb_fuel fuel st).run t).1.state_in_range = true := by
  intro fuel
  induction fuel with
  | zero =>
    intro st t h
    simp only [manual_select_login_loop, StateT.run, pure, StateT.pure,
      manual_select_step_t.state_in_range, List.mem_cons, List.mem_singleton,
      List.mem_nil_iff, or_false, decide_eq_true_eq]
    omega
  | succ fuel ih =>
    intro st t h
    have hb := manual_select_login_body_state_in_range d env keyb_fuel st t h
    simp only [manual_select_login_loop, StateT.run, bind, StateT.bind] at hb ⊢
    generalize manual_select_login_body d env keyb_fuel st t = r at hb
    obtain ⟨r, t2⟩ := r
    cases r with
    | next st2 =>
      simp only [manual_select_step_t.state_in_range, List.mem_cons, List.mem_singleton,
        List.mem_nil_iff, or_false, decide_eq_true_eq] at hb
      exact ih st2 t2 (by omega)
    | returned v => rfl
    | running => rfl

/-- C28: for every device, that is every sequence of prompt answers and
connection states, and after any number of passes, the loop of
`logic_user_manual_select_login` has returned or goes on with `state_machine`
in {0, 1, 2, 3}, and the loop of `logic_user_ask_for_credentials_keyb_output`,
started in state 0 or 2 as the function starts it, has returned or goes on with
`state_machine` in {0, 1, 2}; one pass from a state in range ends in a return
or in a state in range, so every pass takes one of the branches of the state
test and never the fall-through with no branch. -/
theorem C28_state_machines_stay_in_range (d : Defines) (env : Env) (fuel keyb_fuel : Nat)
    (first_line : List Nat) (only_pwd_prompt usb_selected : Bool) (interface_id : Nat)
    (temp_cnode : child_cred_node_t) (t : List Event) :
    ((logic_user_manual_select_login d env fuel keyb_fuel).run t).1.state_in_range = true ∧
    ((keyb_output_passes d env first_line fuel
      ⟨if only_pwd_prompt ≠ false then 2 else 0, usb_selected, interface_id, false,
        temp_cnode⟩).run t).1.state_in_range = true ∧
    (∀ st : manual_select_state, st.state_machine ∈ [0, 1, 2, 3] →
      ((manual_select_login_body d env keyb_fuel st).run t).1.state_in_range = true) ∧
    (∀ st : keyb_output_state, st.state_machine ∈ [0, 1, 2] →
      ((keyb_output_body d env first_line st).run t).1.state_in_range = true) := by
  refine ⟨?_, ?_, ?_, ?_⟩
  · simp only [logic_user_manual_select_login, emit, StateT.run, bind, StateT.bind, modify,
      modifyGet, MonadStateOf.modifyGet, StateT.modifyGet]
    exact manual_select_login_loop_state_in_range d env keyb_fuel fuel _ _ (by simp)
  · refine keyb_output_passes_state_in_range d env first_line fuel _ t ?_
    by_cases h : only_pwd_prompt ≠ false <;> simp [h]
  · intro st hst
    refine manual_select_login_body_state_in_range d env keyb_fuel st t ?_
    simp only [List.mem_cons, List.mem_singleton, List.mem_nil_iff, or_false] at hst
    omega
  · intro st hst
    refine keyb_output_body_state_in_range d env first_line st t ?_
    simp only [List.mem_cons, List.mem_singleton, List.mem_nil_iff, or_false] at hst
    omega

/-- C28, on the sample device on which the user picks a service with one
login and refuses to type: after three passes the loop of
`logic_user_manual_select_login` goes on in state 3, and one more pass from
there ends in a return or a state in range. -/
theorem C28_state_machines_witness :
    (((logic_user_manual_select_login scenario_defines scenario_env_manual_one_login 3
      3).run []).1 = .next ⟨2, 4, false, true, 1, 3⟩) ∧
    ((manual_select_login_body scenario_defines scenario_env_manual_one_login 3
      ⟨2, 4, false, true, 1, 3⟩).run []).1.state_in_range = true :=
  ⟨by decide,
    (C28_state_machines_stay_in_range scenario_defines scenario_env_manual_one_login 3 3 []
      false true 0 ⟨0, [], 0, 0, [], []⟩ []).2.2.1 ⟨2, 4, false, true, 1, 3⟩ (by decide)⟩

/-! ### Typing status -/

set_option maxHeartbeats 4000000 in
/-- C21: in one pass of the loop of `logic_user_ask_for_credentials_keyb_output`,
an accepted login-typing step (state 1, a login present, the prompt answered
MINI_INPUT_RET_YES) always goes on to state 2 with `login_or_password_typed`
set, and a pass in state 2 starts with the password prompt; an accepted
password-typing step (state 2, the prompt answered MINI_INPUT_RET_YES) always
returns RETURN_OK; each step receives one typing status from the transport,
whatever it is, and displays the warning that characters could not be typed if
and only if the transform of the string typed did not return RETURN_OK or that
status is FALSE. -/
theorem C21_typing_status_is_advisory (d : Defines) (env : Env) (first_line : List Nat)
    (st1 st2 : keyb_output_state) (t1 t2 : List Event)
    (h1 : st1.state_machine = 1) (hl : st1.temp_cnode.login.headD 0 ≠ 0)
    (ha1 : env.gui_prompts_ask_for_confirmation
      (t1 ++ [Event.custom_fs_get_string_from_file .TYPE_LOGIN_TEXT_ID]) = .MINI_INPUT_RET_YES)
    (h2 : st2.state_machine = 2)
    (ha2 : env.gui_prompts_ask_for_confirmation
      (t2 ++ [Event.custom_fs_get_string_from_file .TYPE_PASSWORD_TEXT_ID]) =
        .MINI_INPUT_RET_YES) :
    ((keyb_output_body d env first_line st1).run t1).1 =
      .next { st1 with login_or_password_typed := true, state_machine := 2 } ∧
    (∀ (st : keyb_output_state) (t : List Event), st.state_machine = 2 →
      (calls_after t.length ((keyb_output_body d env first_line st).run t).2).take 2 =
        [Event.custom_fs_get_string_from_file .TYPE_PASSWORD_TEXT_ID,
         Event.gui_prompts_ask_for_confirmation 2
          [first_line, env.custom_fs_get_string_from_file .TYPE_PASSWORD_TEXT_ID] false true
          (env.gui_prompts_ask_for_confirmation
            (t ++ [Event.custom_fs_get_string_from_file .TYPE_PASSWORD_TEXT_ID]))]) ∧
    ((keyb_output_body d env first_line st2).run t2).1 =
      .returned d.RETURN_OK st2.usb_selected ∧
    (typing_statuses
      (calls_after t1.length ((keyb_output_body d env first_line st1).run t1).2)).length = 1 ∧
    (typing_statuses
      (calls_after t2.length ((keyb_output_body d env first_line st2).run t2).2)).length = 1 ∧
    ((calls_after t1.length ((keyb_output_body d env first_line st1).run t1).2).any
        Event.is_typing_warning = true ↔
      ((env.custom_fs_get_keyboard_symbols_for_unicode_string (cstr st1.temp_cnode.login)
          st1.usb_selected).1 ≠ d.RETURN_OK ∨
        typing_statuses
          (calls_after t1.length ((keyb_output_body d env first_line st1).run t1).2) =
          [false])) ∧
    ((calls_after t2.length ((keyb_output_body d env first_line st2).run t2).2).any
        Event.is_typing_warning = true ↔
      ((env.custom_fs_get_keyboard_symbols_for_unicode_string
          (cstr (if (st2.temp_cnode.flags &&& NODEMGMT_PREVGEN_BIT_BITMASK) ≠ 0 then
            env.utils_ascii_to_unicode
              (env.logic_encryption_ctr_decrypt st2.temp_cnode.password st2.temp_cnode.ctr
                CHILD_PASSWORD_SIZE true) NODEMGMT_OLD_GEN_ASCII_PWD_LENGTH
          else
            env.logic_encryption_ctr_decrypt st2.temp_cnode.password st2.temp_cnode.ctr
              CHILD_PASSWORD_SIZE false))
          st2.usb_selected).1 ≠ d.RETURN_OK ∨
        typing_statuses
          (calls_after t2.length ((keyb_output_body d env first_line st2).run t2).2) =
          [false])) := by
  have key1 : ∀ r, (keyb_output_body d env first_line st1).run t1 = r →
      r.1 = .next { st1 with login_or_password_typed := true, state_machine := 2 } ∧
      (typing_statuses (calls_after t1.length r.2)).length = 1 ∧
      ((calls_after t1.length r.2).any Event.is_typing_warning = true ↔
        ((env.custom_fs_get_keyboard_symbols_for_unicode_string (cstr st1.temp_cnode.login)
            st1.usb_selected).1 ≠ d.RETURN_OK ∨
          typing_statuses (calls_after t1.length r.2) = [false])) := by
    intro r hr
    simp only [keyb_output_body, keyb_type_string, h1, hl, ha1, if_true, if_false,
      emit, StateT.run, bind,
      StateT.bind, pure, StateT.pure, modify, modifyGet, MonadStateOf.modifyGet,
      StateT.modifyGet, get, getThe, MonadStateOf.get, StateT.get, run_ite, List.nil_append,
      List.cons_append, List.append_assoc, List.singleton_append, one_ne_zero,
      reduceCtorEq, ne_eq, not_false_eq_true, not_true_eq_false] at hr
    split_ifs at hr <;> subst hr <;>
      simp_all [calls_after, typing_statuses, Event.typing_status, Event.is_typing_warning]
  have key2 : ∀ r, (keyb_output_body d env first_line st2).run t2 = r →
      r.1 = .returned d.RETURN_OK st2.usb_selected ∧
      (typing_statuses (calls_after t2.length r.2)).length = 1 ∧
      ((calls_after t2.length r.2).any Event.is_typing_warning = true ↔
        ((env.custom_fs_get_keyboard_symbols_for_unicode_string
          (cstr (if (st2.temp_cnode.flags &&& NODEMGMT_PREVGEN_BIT_BITMASK) ≠ 0 then
            env.utils_ascii_to_unicode
              (env.logic_encryption_ctr_decrypt st2.temp_cnode.password st2.temp_cnode.ctr
                CHILD_PASSWORD_SIZE true) NODEMGMT_OLD_GEN_ASCII_PWD_LENGTH
          else
            env.logic_encryption_ctr_decrypt st2.temp_cnode.password st2.temp_cnode.ctr
              CHILD_PASSWORD_SIZE false))
          st2.usb_selected).1 ≠ d.RETURN_OK ∨
          typing_statuses (calls_after t2.length r.2) = [false])) := by
    intro r hr
    by_cases hf : (st2.temp_cnode.flags &&& NODEMGMT_PREVGEN_BIT_BITMASK) = 0 <;>
    simp only [keyb_output_body, keyb_type_string, h2, ha2, hf, if_true, if_false,
      emit, StateT.run, bind,
      StateT.bind, pure, StateT.pure, modify, modifyGet, MonadStateOf.modifyGet,
      StateT.modifyGet, get, getThe, MonadStateOf.get, StateT.get, run_ite, List.nil_append,
      List.cons_append, List.append_assoc, List.singleton_append, OfNat.ofNat_ne_zero,
      OfNat.ofNat_ne_one, reduceCtorEq, ne_eq, not_false_eq_true, not_true_eq_false,
      decide_True, decide_False, decide_not, Bool.not_true, Bool.not_false,
      Bool.false_eq_true] at hr <;>
    split_ifs at hr <;> subst hr <;>
      simp_all [calls_after, typing_statuses, Event.typing_status, Event.is_typing_warning]
  refine ⟨(key1 _ rfl).1, ?_, (key2 _ rfl).1, (key1 _ rfl).2.1, (key2 _ rfl).2.1,
    (key1 _ rfl).2.2, (key2 _ rfl).2.2⟩
  intro st t hst
  simp only [keyb_output_body, keyb_type_string, hst, if_true, if_false,
    poll_both_interfaces_connected_run,
    emit, StateT.run, bind,
    StateT.bind, pure, StateT.pure, modify, modifyGet, MonadStateOf.modifyGet,
    StateT.modifyGet, get, getThe, MonadStateOf.get, StateT.get, run_ite, List.nil_append,
    List.cons_append, List.append_assoc, List.singleton_append, OfNat.ofNat_ne_zero,
    OfNat.ofNat_ne_one]
  split_ifs <;> simp [calls_after]

/-- C21, on the sample device whose transport reports that not all symbols
could be typed: the login step still goes on to state 2, the password step
still returns RETURN_OK, and both display the warning. -/
theorem C21_typing_status_witness :
    ((keyb_output_body scenario_defines scenario_env_partial_typing [97]
      ⟨1, true, 0, false, ⟨0, [98, 0], 0xFFFF, 0xFFFF, [0, 0, 1], [99, 0]⟩⟩).run []).1 =
      .next ⟨2, true, 0, true, ⟨0, [98, 0], 0xFFFF, 0xFFFF, [0, 0, 1], [99, 0]⟩⟩ ∧
    ((keyb_output_body scenario_defines scenario_env_partial_typing [97]
      ⟨2, true, 0, true, ⟨0, [98, 0], 0xFFFF, 0xFFFF, [0, 0, 1], [99, 0]⟩⟩).run []).1 =
      .returned scenario_defines.RETURN_OK true ∧
    typing_statuses ((keyb_output_body scenario_defines scenario_env_partial_typing [97]
      ⟨1, true, 0, false, ⟨0, [98, 0], 0xFFFF, 0xFFFF, [0, 0, 1], [99, 0]⟩⟩).run []).2 =
      [false] ∧
    ((keyb_output_body scenario_defines scenario_env_partial_typing [97]
      ⟨1, true, 0, false, ⟨0, [98, 0], 0xFFFF, 0xFFFF, [0, 0, 1], [99, 0]⟩⟩).run []).2.any
        Event.is_typing_warning = true :=
  ⟨(C21_typing_status_is_advisory scenario_defines scenario_env_partial_typing [97]
      ⟨1, true, 0, false, ⟨0, [98, 0], 0xFFFF, 0xFFFF, [0, 0, 1], [99, 0]⟩⟩
      ⟨2, true, 0, true, ⟨0, [98, 0], 0xFFFF, 0xFFFF, [0, 0, 1], [99, 0]⟩⟩ [] []
      rfl (by decide) rfl rfl rfl).1,
    (C21_typing_status_is_advisory scenario_defines scenario_env_partial_typing [97]
      ⟨1, true, 0, false, ⟨0, [98, 0], 0xFFFF, 0xFFFF, [0, 0, 1], [99, 0]⟩⟩
      ⟨2, true, 0, true, ⟨0, [98, 0], 0xFFFF, 0xFFFF, [0, 0, 1], [99, 0]⟩⟩ [] []
      rfl (by decide) rfl rfl rfl).2.2.1,
    by decide, by decide⟩

end Minible
